import Mathlib

/-!
# tglogger: buffering, batching and dispatch engine

A shallow embedding of `src/tgLogger.go`.

* Go strings are byte sequences: `List Byte` with `Byte = Fin 256`; `len` is `List.length`,
  `s[:k]` is `List.take k`, `s[k:]` is `List.drop k`, `+` is `++`.
* `strings.LastIndex(s, "\n")` is `LastIndex s : Option Nat` (`none` for Go's `-1`).
* The remote channel is an input: `Remote` gives, for each of the four call sites that perform an
  HTTP request (`initialize`, `editTgMessage`, `sendTgMessage`, `sendAsFile`), the reply that the
  call receives.  Every call site runs at most once per `sendLogs` execution, so this covers every
  sequence of replies.  The requests issued are recorded in order in `Outcome.calls`.
* The clock is an input: `time.Now()` / `time.Since` read an explicit `Time` (nanoseconds, `Int`).
  `time.Duration` is an `Int` of nanoseconds; `time.Duration(n) * time.Second` wraps in 64 bits and
  `Time.Sub` saturates, as in Go.
* The mutex `mu` is a boolean that the calls read and write: `Lock` on a held mutex does not
  return (`none`).  `sendLogs` is the body of the Go function, as it runs once its `mu.Lock()`
  has returned, and `sendLogsLocked` is the Go function with its locking.  `Write` is the Go
  function with its own locking and with the locking of the `sendLogs` it calls: it reports the
  state left in memory, the mutex, the requests issued and what it returns, `none` when it does
  not return.
* `lines++` is taken in unbounded integers, and `int(msgID)` of the decoded `float64` is the
  integer the reply carries.
-/

namespace TgLogger

/-! ## Bytes and strings -/

abbrev Byte := Fin 256

/-- The byte of the newline character. -/
def NL : Byte := 10

/-- Go `strings.LastIndex(s, "\n")`: index of the last newline byte, `none` when Go returns `-1`. -/
def LastIndex : List Byte → Option Nat
  | [] => none
  | c :: cs =>
    match LastIndex cs with
    | some i => some (i + 1)
    | none => if c = NL then some 0 else none

/-- Go `strings.HasPrefix(s, sub)`. -/
def HasPrefix : List Byte → List Byte → Bool
  | _, [] => true
  | [], _ :: _ => false
  | c :: cs, d :: ds => c = d && HasPrefix cs ds

/-- Go `strings.Contains(s, sub)`: `sub` occurs in `s` as a contiguous run of bytes. -/
def Contains : List Byte → List Byte → Bool
  | [], sub => HasPrefix [] sub
  | c :: cs, sub => HasPrefix (c :: cs) sub || Contains cs sub

/-- Go `strings.HasSuffix(s, "\n")`. -/
def HasSuffixNL (s : List Byte) : Bool :=
  s.getLast? = some NL

/-! ## Time -/

abbrev Time := Int
abbrev Duration := Int

/-- Go `time.Second`, in nanoseconds. -/
def Second : Duration := 1000000000

def maxDuration : Duration := 2 ^ 63 - 1
def minDuration : Duration := -(2 ^ 63)

/-- Two's complement wrap-around of a 64-bit signed integer. -/
def wrapInt64 (x : Int) : Int :=
  (x + 2 ^ 63) % 2 ^ 64 - 2 ^ 63

/-- Go `time.Duration(n) * time.Second` for an `int` value `n`. -/
def secondsDuration (n : Int) : Duration :=
  wrapInt64 (n * Second)

/-- Go `time.Since(t)` read at clock value `now`: `now.Sub(t)`, saturating at the ends of the
`Duration` range. -/
def Since (now t : Time) : Duration :=
  if now - t > maxDuration then maxDuration
  else if now - t < minDuration then minDuration
  else now - t

/-! ## Data model -/

structure Config where
  Token : String
  ChatID : Int
  ForumTopicID : Int
  Title : List Byte
  ExcludedLogPatterns : List (List Byte)
  UpdateInterval : Duration
  MinimumLines : Int
  PendingLogsSize : Int
  MaxMessageSize : Int
  deriving DecidableEq, Repr

structure TelegramLogger where
  config : Config
  logBuffer : List Byte
  currentMsg : List Byte
  messageID : Int
  lines : Int
  lastLogUpdate : Time
  floodWait : Duration
  deriving DecidableEq, Repr

/-- The decoded body of a remote answer.  `messageID` is `Result["message_id"]` when it is present
as a number, already converted with `int(...)`. -/
structure TelegramResponse where
  OK : Bool
  messageID : Option Int
  ErrorCode : Int
  Description : String
  RetryAfter : Int
  deriving DecidableEq, Repr

/-- What an HTTP round trip gives back: a decoded response, or an error of the transport
(`client.Do` failed, or the body could not be decoded). -/
inductive Reply where
  | failed
  | resp (r : TelegramResponse)
  deriving DecidableEq, Repr

/-- The replies the four requesting call sites receive when they run. -/
structure Remote where
  init : Reply
  edit : Reply
  send : Reply
  file : Reply
  deriving DecidableEq, Repr

inductive Err where
  | transport
  | unauthorized
  | api (code : Int) (description : String)
  | mirror
  deriving DecidableEq, Repr

/-- One remote request, named after the function that issues it, with the unformatted body. -/
inductive Call where
  | initializeCall
  | editTgMessage (messageID : Int) (message : List Byte)
  | sendTgMessage (message : List Byte)
  | sendAsFile (logs : List Byte)
  deriving DecidableEq, Repr

/-- State after a function ran, the requests it issued in order, and its `error` result. -/
structure Outcome where
  state : TelegramLogger
  calls : List Call
  err : Option Err
  deriving DecidableEq, Repr

/-- Sequencing `if err := f(); err != nil { return err }; k`. -/
def Outcome.andThen (o : Outcome) (k : TelegramLogger → Outcome) : Outcome :=
  match o.err with
  | some _ => o
  | none => ⟨(k o.state).state, o.calls ++ (k o.state).calls, (k o.state).err⟩

/-- The state of the logger that `InitializeTgLogger` builds. -/
def initialLogger (config : Config) : TelegramLogger :=
  { config := config, logBuffer := [], currentMsg := [], messageID := 0, lines := 0,
    lastLogUpdate := 0, floodWait := 0 }

/-! ## Remote calls -/

/-- Go `handleError`. -/
def handleError (l : TelegramLogger) (resp : TelegramResponse) : TelegramLogger × Option Err :=
  if resp.ErrorCode = 401 ∧ resp.Description = "Unauthorized" then
    (l, some Err.unauthorized)
  else if resp.RetryAfter > 0 then
    ({ l with floodWait := secondsDuration resp.RetryAfter }, none)
  else
    (l, some (Err.api resp.ErrorCode resp.Description))

/-- Go `initialize`: create the placeholder message. -/
def initializeTg (l : TelegramLogger) (env : Remote) : Outcome :=
  match env.init with
  | Reply.failed => ⟨l, [Call.initializeCall], some Err.transport⟩
  | Reply.resp r =>
    if r.OK then
      match r.messageID with
      | some msgID => ⟨{ l with messageID := msgID }, [Call.initializeCall], none⟩
      | none => ⟨l, [Call.initializeCall], none⟩
    else
      ⟨(handleError l r).1, [Call.initializeCall], (handleError l r).2⟩

/-- Go `sendTgMessage`. -/
def sendTgMessage (l : TelegramLogger) (message : List Byte) (env : Remote) : Outcome :=
  match env.send with
  | Reply.failed => ⟨l, [Call.sendTgMessage message], some Err.transport⟩
  | Reply.resp r =>
    if r.OK then
      match r.messageID with
      | some msgID => ⟨{ l with messageID := msgID }, [Call.sendTgMessage message], none⟩
      | none => ⟨l, [Call.sendTgMessage message], none⟩
    else
      ⟨(handleError l r).1, [Call.sendTgMessage message], (handleError l r).2⟩

/-- Go `editTgMessage`. -/
def editTgMessage (l : TelegramLogger) (message : List Byte) (env : Remote) : Outcome :=
  match env.edit with
  | Reply.failed => ⟨l, [Call.editTgMessage l.messageID message], some Err.transport⟩
  | Reply.resp r =>
    if r.OK then
      ⟨l, [Call.editTgMessage l.messageID message], none⟩
    else
      ⟨(handleError l r).1, [Call.editTgMessage l.messageID message], (handleError l r).2⟩

/-- Go `sendAsFile`. -/
def sendAsFile (l : TelegramLogger) (logs : List Byte) (env : Remote) : Outcome :=
  match env.file with
  | Reply.failed => ⟨l, [Call.sendAsFile logs], some Err.transport⟩
  | Reply.resp r =>
    if r.OK then
      ⟨l, [Call.sendAsFile logs], none⟩
    else
      ⟨(handleError l r).1, [Call.sendAsFile logs], (handleError l r).2⟩

/-- Go `fmt.Sprintf("```\n%s\n\n%s\n```", Title, message)`: the text that
`sendTgMessage` and `editTgMessage` put on the wire. -/
def formatText (title message : List Byte) : List Byte :=
  [96, 96, 96, 10] ++ title ++ [10, 10] ++ message ++ [10, 96, 96, 96]

/-! ## The flush engine -/

/-- Local `lastNewline` of the file branch of `sendLogs` (lines 177-180). -/
def fileCut (logBuffer : List Byte) : Nat :=
  (LastIndex logBuffer).getD logBuffer.length

/-- Local `msg` of the text branch of `sendLogs` (lines 193-200). -/
def textChunk (logBuffer : List Byte) : List Byte :=
  let maxLen := min 4000 logBuffer.length
  let toProcess := logBuffer.take maxLen
  let lastNewline := (LastIndex toProcess).getD toProcess.length
  toProcess.take lastNewline

/-- Local `lastNewlineInComputed` of `sendLogs` (lines 220-223). -/
def splitPoint (computedMessage : List Byte) : Nat :=
  (LastIndex (computedMessage.take 4000)).getD 4000

/-- Lines 217-243 of `sendLogs`: put the chunk `msg` behind the text of the live message, edit
the message in place, or split and start a new message when the text outgrows 4000 bytes. -/
def compose (l : TelegramLogger) (msg : List Byte) (env : Remote) : Outcome :=
  let computedMessage := l.currentMsg ++ msg
  if computedMessage.length > 4000 then
    let lastNewlineInComputed := splitPoint computedMessage
    let toEdit := computedMessage.take lastNewlineInComputed
    let toNew := computedMessage.drop lastNewlineInComputed
    (if toEdit ≠ l.currentMsg then editTgMessage l toEdit env else ⟨l, [], none⟩).andThen
      fun l => sendTgMessage { l with currentMsg := toNew } toNew env
  else
    (editTgMessage l computedMessage env).andThen fun l =>
      ⟨{ l with currentMsg := computedMessage }, [], none⟩

/-- Lines 211-243 of `sendLogs`: deliver the chunk `msg` through the live message, creating the
placeholder message first when there is none. -/
def deliver (l : TelegramLogger) (msg : List Byte) (env : Remote) : Outcome :=
  (if l.messageID = 0 then initializeTg l env else ⟨l, [], none⟩).andThen fun l =>
    compose l msg env

/-- Lines 163-165 of `sendLogs`: the backoff is consumed on entry. -/
def clearFloodWait (l : TelegramLogger) : TelegramLogger :=
  if l.floodWait > 0 then { l with floodWait := 0 } else l

/-- Go `sendLogs`, with `now` the value `time.Now()` returns. -/
def sendLogs (l0 : TelegramLogger) (now : Time) (env : Remote) : Outcome :=
  let l := clearFloodWait l0
  if l.logBuffer.length = 0 then ⟨l, [], none⟩
  else
    let logBuffer := l.logBuffer
    if (logBuffer.length : Int) > l.config.PendingLogsSize then
      let lastNewline := fileCut logBuffer
      let toSend := logBuffer.take lastNewline
      sendAsFile
        { l with logBuffer := logBuffer.drop lastNewline, currentMsg := [], messageID := 0,
                 lines := 0, lastLogUpdate := now }
        toSend env
    else
      let msg := textChunk logBuffer
      if msg.length = 0 then ⟨l, [], none⟩
      else
        let remaining := logBuffer.drop msg.length
        deliver { l with logBuffer := remaining, lines := 0, lastLogUpdate := now } msg env

/-! ## The mutex

`sync.Mutex` is not reentrant.  `mu.Lock()` on a mutex that is held does not return until the
mutex is unlocked; the only `Unlock` calls of the source are the one at the end of `Write` and the
deferred one of `sendLogs`, both reached only by the holder.  The calls of a run follow one
another, so the mutex is held when a call starts only if an earlier call has come to a halt
while holding it; that call never unlocks, and a `Lock` on a held mutex never returns.  A call
that never returns has the result `none`. -/

/-- Go `mu.Lock()` on a mutex whose state is `held`: the mutex held, or no return. -/
def Lock (held : Bool) : Option Bool :=
  if held then none else some true

/-- Go `mu.Unlock()` by the holder. -/
def Unlock (_held : Bool) : Bool :=
  false

/-- Go `sendLogs` with its locking (lines 160-161) around the body `sendLogs`; the result is the
outcome, with the state of the mutex after the deferred `Unlock`, or `none` when the call does
not return. -/
def sendLogsLocked (held : Bool) (l : TelegramLogger) (now : Time) (env : Remote) :
    Option (Outcome × Bool) :=
  match Lock held with
  | none => none
  | some held1 => some (sendLogs l now env, Unlock held1)

/-! ## The writer -/

/-- Result of a local mirror write (`logFile.Write`, `os.Stdout.Write`). -/
structure IOResult where
  n : Int
  err : Option Err
  deriving DecidableEq, Repr

/-- The local mirror writes of one `Write` call. -/
structure Mirror where
  logFile : IOResult
  stdout : IOResult
  deriving DecidableEq, Repr

/-- What a call of `Write` leaves behind: the state in memory and the mutex once the call has
returned or has come to a halt, the remote requests issued, and the results `(n, err)` it
returns, `none` when it does not return. -/
structure WriteResult where
  state : TelegramLogger
  mu : Bool
  calls : List Call
  ret : Option (Int × Option Err)
  deriving DecidableEq, Repr

/-- Lines 140-144 of `Write`: append the text, a newline when it has none, count one line. -/
def record (l : TelegramLogger) (msg : List Byte) : TelegramLogger :=
  { l with
    logBuffer := if HasSuffixNL msg then l.logBuffer ++ msg else l.logBuffer ++ msg ++ [NL],
    lines := l.lines + 1 }

/-- Local `shouldUpdate` of `Write` (lines 145-147), the clock reading `now`. -/
def shouldUpdate (l : TelegramLogger) (now : Time) : Bool :=
  decide (Since now l.lastLogUpdate ≥ max l.config.UpdateInterval l.floodWait) &&
    decide (l.lines ≥ l.config.MinimumLines) &&
    decide (l.logBuffer.length > 0)

/-- Go `Write`, called with the mutex in the state `held`.  `io` holds the results of the two
local writes, `now` is the clock at `time.Since`, `flushNow` the clock inside the flush, `env`
the replies to the requests of the flush.  The `mu.Lock()` of line 139 and the one of `sendLogs`
(line 160), which `Write` calls at line 150 still holding the mutex, are the two places where the
call can come to a halt. -/
def Write (held : Bool) (l : TelegramLogger) (p : List Byte) (io : Mirror) (now flushNow : Time)
    (env : Remote) : WriteResult :=
  match io.logFile.err with
  | some e => ⟨l, held, [], some (io.logFile.n, some e)⟩
  | none =>
    match io.stdout.err with
    | some e => ⟨l, held, [], some (io.stdout.n, some e)⟩
    | none =>
      if l.config.ExcludedLogPatterns.any (fun pattern => Contains p pattern) then
        ⟨l, held, [], some (p.length, none)⟩
      else
        match Lock held with
        | none => ⟨l, held, [], none⟩
        | some held1 =>
          let l1 := record l p
          if shouldUpdate l1 now then
            match sendLogsLocked held1 l1 flushNow env with
            | none => ⟨l1, held1, [], none⟩
            | some (o, held2) => ⟨o.state, Unlock held2, o.calls, some (p.length, none)⟩
          else
            ⟨l1, Unlock held1, [], some (p.length, none)⟩

/-! ## Example data -/

/-- The clock value `s` seconds after a start some 2025 years past the zero `time.Time`. -/
def clock (s : Int) : Time :=
  (63900000000 + s) * Second

/-- A configuration as `InitializeTgLogger` leaves it, with the given `PendingLogsSize`, the
default title "TGLogger-Go" and no excluded pattern. -/
def exampleConfig (pending : Int) : Config :=
  { Token := "token", ChatID := -100123456789, ForumTopicID := 0,
    Title := [84, 71, 76, 111, 103, 103, 101, 114, 45, 71, 111], ExcludedLogPatterns := [],
    UpdateInterval := 3 * Second, MinimumLines := 1, PendingLogsSize := pending,
    MaxMessageSize := 4096 }

/-- A successful reply carrying the message identifier `msgID`. -/
def okReply (msgID : Int) : Reply :=
  Reply.resp ⟨true, some msgID, 0, "", 0⟩

/-- A rate-limit reply: `ok = false`, error code 429 and `retry_after = n`. -/
def floodReply (n : Int) : Reply :=
  Reply.resp ⟨false, none, 429, "Too Many Requests", n⟩

/-- A remote that answers every request successfully. -/
def okRemote : Remote :=
  ⟨okReply 7, okReply 7, okReply 8, okReply 9⟩

/-- Local mirror writes of `n` bytes that both succeed. -/
def okMirror (n : Int) : Mirror :=
  ⟨⟨n, none⟩, ⟨n, none⟩⟩

/-- The sink state with buffer "a\nbcd\n" and `PendingLogsSize = 3`. -/
def smallFileState : TelegramLogger :=
  { initialLogger (exampleConfig 3) with logBuffer := [97, 10, 98, 99, 100, 10] }

/-- A projection of the state that no remote call touches: it ignores the fields `floodWait`,
`messageID` and `currentMsg`. -/
def Untouched {α : Type} (f : TelegramLogger → α) : Prop :=
  (∀ (l : TelegramLogger) (d : Duration), f { l with floodWait := d } = f l) ∧
    (∀ (l : TelegramLogger) (i : Int), f { l with messageID := i } = f l) ∧
    (∀ (l : TelegramLogger) (m : List Byte), f { l with currentMsg := m } = f l)

/-- The prefix of the buffer that `sendLogs` takes out: local `toSend` on the file branch, local
`msg` on the text branch, nothing when the buffer is empty. -/
def consumed (l : TelegramLogger) : List Byte :=
  if l.logBuffer.length = 0 then []
  else if (l.logBuffer.length : Int) > l.config.PendingLogsSize then
    l.logBuffer.take (fileCut l.logBuffer)
  else textChunk l.logBuffer

/-- The sink state whose buffer is one line of 4001 bytes `b` and its newline, with the default
`PendingLogsSize` of 20000. -/
def longLineState : TelegramLogger :=
  { initialLogger (exampleConfig 20000) with logBuffer := List.replicate 4001 98 ++ [10] }

/-- A reply with `error_code = 401` whose description is not "Unauthorized", with
`retry_after = 5`. -/
def forbiddenResponse : TelegramResponse :=
  ⟨false, none, 401, "Forbidden", 5⟩

/-- Local mirror writes whose first one, the write to the log file, fails. -/
def failedMirror : Mirror :=
  ⟨⟨0, some Err.mirror⟩, ⟨0, none⟩⟩

/-- The configuration of the repository's test: patterns "DEBUG" and "FLOODWAIT" excluded. -/
def testConfig : Config :=
  { exampleConfig 20000 with
    ExcludedLogPatterns := [[68, 69, 66, 85, 71], [70, 76, 79, 79, 68, 87, 65, 73, 84]] }

/-- The reply that the remote gives to a request. -/
def replyOf (env : Remote) : Call → Reply
  | Call.initializeCall => env.init
  | Call.editTgMessage _ _ => env.edit
  | Call.sendTgMessage _ => env.send
  | Call.sendAsFile _ => env.file

/-- The `retry_after` value of a reply that `handleError` treats as a rate limit: `ok = false`,
not the 401 "Unauthorized" failure, and `retry_after > 0`. -/
def rateLimited : Reply → Option Int
  | Reply.failed => none
  | Reply.resp r =>
    if r.OK = false ∧ ¬ (r.ErrorCode = 401 ∧ r.Description = "Unauthorized") ∧ r.RetryAfter > 0
    then some r.RetryAfter else none

/-- A remote that rate-limits the creation of the placeholder message for 30 seconds and answers
every other request successfully. -/
def floodOnInitRemote : Remote :=
  ⟨floodReply 30, okReply 7, okReply 8, okReply 9⟩

/-- A remote that rate-limits the edit request for 5 seconds. -/
def floodOnEditRemote : Remote :=
  ⟨okReply 7, floodReply 5, okReply 8, okReply 9⟩

/-- A sink state with a live message 7 showing "a", the buffer "\nb\n" and one counted line. -/
def liveState : TelegramLogger :=
  { initialLogger (exampleConfig 20000) with
    logBuffer := [10, 98, 10], currentMsg := [97], messageID := 7, lines := 1,
    lastLogUpdate := clock 4 }

/-- A reply to a create-message request that succeeds and carries a non-zero message
identifier. -/
def goodCreate : Reply → Bool
  | Reply.failed => false
  | Reply.resp r =>
    r.OK && (match r.messageID with
      | some msgID => decide (msgID ≠ 0)
      | none => false)

/-- A reply to an edit-message request that succeeds. -/
def goodEdit : Reply → Bool
  | Reply.failed => false
  | Reply.resp r => r.OK

/-- Every create-message and edit-message request succeeds, creations with a non-zero message
identifier; the reply to a document upload is arbitrary. -/
def allSucceed (env : Remote) : Prop :=
  goodCreate env.init = true ∧ goodEdit env.edit = true ∧ goodCreate env.send = true

/-- The sink states that the record step of `Write` (lines 140-144) and executions of `sendLogs`
give from the initial state, taking the remote replies of every flush from the class `P`.  The
state that a run of `Write` and `sendLogs` calls leaves is among them (`run_reachable`). -/
inductive Reachable (P : Remote → Prop) (config : Config) : TelegramLogger → Prop
  | initial : Reachable P config (initialLogger config)
  | record (l : TelegramLogger) (p : List Byte) :
      Reachable P config l → Reachable P config (record l p)
  | flush (l : TelegramLogger) (now : Time) (env : Remote) :
      Reachable P config l → P env → Reachable P config (sendLogs l now env).state

/-- A remote that creates the placeholder message 7 and then fails the edit request in the
transport. -/
def failOnEditRemote : Remote :=
  ⟨okReply 7, Reply.failed, okReply 8, okReply 9⟩

/-- A line of 3998 bytes `b`, without newline. -/
@[irreducible] def filler : List Byte :=
  List.replicate 3998 98

/-- The configuration `exampleConfig 20000` with `MinimumLines = 2`: a single write after a flush
does not trigger a flush. -/
def quietConfig : Config :=
  { exampleConfig 20000 with MinimumLines := 2 }

/-- The state after the first flush of the overflow run: the live message 7 shows "a", the buffer
keeps the newline. -/
def overflowState1 : TelegramLogger :=
  { initialLogger quietConfig with
    logBuffer := [10], currentMsg := [97], messageID := 7, lastLogUpdate := clock 4 }

/-- The state after the second flush of the overflow run: the live message 7 shows "a", a
newline and the 3998-byte line, 4000 bytes in all. -/
def overflowState2 : TelegramLogger :=
  { initialLogger quietConfig with
    logBuffer := [10], currentMsg := 97 :: 10 :: filler, messageID := 7,
    lastLogUpdate := clock 8 }

/-- A line of 4000 bytes `b`, without newline. -/
def longLine : List Byte :=
  98 :: 98 :: filler

/-- The state after the write "a", a flush and, four seconds later, the write of the 4000-byte
line `longLine`: the buffer is a newline, the line and its newline, one line is counted. -/
def stalledState : TelegramLogger :=
  { overflowState1 with logBuffer := 10 :: longLine ++ [10], lines := 1 }

/-- A configuration with `PendingLogsSize = 3` that flushes every second line. -/
def pairConfig : Config :=
  { exampleConfig 3 with MinimumLines := 2 }

/-- The state after the single write "abcd" under `pairConfig`: no flush yet, buffer "abcd\n". -/
def pendingState : TelegramLogger :=
  (Write false (initialLogger pairConfig) [97, 98, 99, 100] (okMirror 4) (clock 4) (clock 4)
    okRemote).state

/-- The text "line1". -/
def line1 : List Byte := [108, 105, 110, 101, 49]

/-- The text "line2". -/
def line2 : List Byte := [108, 105, 110, 101, 50]

/-- The state after the first flush of the two-line scenario: "line1" recorded in the initial
state and flushed into a new message. -/
def scenarioState1 : TelegramLogger :=
  (sendLogs (record (initialLogger (exampleConfig 20000)) line1) (clock 0) okRemote).state

/-- The clock 3.1 seconds after the first flush of the scenario. -/
def scenarioLater : Time :=
  clock 3 + 100000000

/-- Lines 205-209 of `sendLogs`: the state once the chunk has been taken out of the buffer. -/
def dequeued (l : TelegramLogger) (now : Time) : TelegramLogger :=
  { clearFloodWait l with
    logBuffer := l.logBuffer.drop (textChunk l.logBuffer).length, lines := 0,
    lastLogUpdate := now }

/-- The state in which the second flush of the scenario starts: "line2" recorded 3.1 seconds
after the first flush. -/
def scenarioState2 : TelegramLogger :=
  record scenarioState1 line2

/-- The message identifier carried by a successful reply to a create-message request. -/
def createdID : Reply → Option Int
  | Reply.failed => none
  | Reply.resp r => if r.OK then r.messageID else none

/-- Local `computedMessage` of `sendLogs` (line 217): the current message text followed by the
chunk. -/
def computedMessage (l : TelegramLogger) : List Byte :=
  l.currentMsg ++ textChunk l.logBuffer

/-- Local `toEdit` of `sendLogs` (line 225): the head of an overflow split. -/
def toEdit (l : TelegramLogger) : List Byte :=
  (computedMessage l).take (splitPoint (computedMessage l))

/-- Local `toNew` of `sendLogs` (line 226): the tail of an overflow split. -/
def toNew (l : TelegramLogger) : List Byte :=
  (computedMessage l).drop (splitPoint (computedMessage l))

/-- The state in which the third flush of the overflow run starts: "c" recorded after the live
message has grown to 4000 bytes. -/
def overflowState3 : TelegramLogger :=
  record overflowState2 [99]

/-! ## Initialization -/

/-- The errors `InitializeTgLogger` returns. -/
inductive InitErr where
  | provideChatID
  | provideToken
  | openFile
  | transport
  | verification (description : String)
  | noUsername
  deriving DecidableEq, Repr

/-- What the `getMe` round trip of `validateBotToken` gives back: a transport error, or the
decoded `ok`, `result.username` (when it is a string) and `description`. -/
inductive MeReply where
  | failed
  | resp (ok : Bool) (username : Option String) (description : String)
  deriving DecidableEq, Repr

/-- The outside world of `InitializeTgLogger`: whether `os.OpenFile` succeeds, and the reply to
`getMe`. -/
structure InitEnv where
  openFileOK : Bool
  getMe : MeReply
  deriving DecidableEq, Repr

/-- The input and output operations of `InitializeTgLogger`, in the order of the source. -/
inductive InitStep where
  | truncateFile
  | openFile
  | getMe
  | setOutput
  deriving DecidableEq, Repr

/-- What `InitializeTgLogger` leaves behind: the caller's configuration (it is passed by pointer
and defaulted in place), the operations performed, the error, and the logger installed as log
output. -/
structure InitResult where
  config : Config
  steps : List InitStep
  err : Option InitErr
  logger : Option TelegramLogger
  deriving DecidableEq, Repr

/-- The bytes of the default title "TGLogger-Go". -/
def defaultTitle : List Byte :=
  [84, 71, 76, 111, 103, 103, 101, 114, 45, 71, 111]

/-- Lines 67-89 of `InitializeTgLogger`: the defaults, applied field by field. -/
def applyDefaults (config : Config) : Config :=
  let config := if config.UpdateInterval ≤ 0 then { config with UpdateInterval := 3 * Second }
    else config
  let config := if config.MinimumLines ≤ 0 then { config with MinimumLines := 1 } else config
  let config := if config.PendingLogsSize ≤ 0 then { config with PendingLogsSize := 20000 }
    else config
  let config := if config.MaxMessageSize ≤ 0 then { config with MaxMessageSize := 4096 }
    else config
  let config := if config.Title = [] then { config with Title := defaultTitle } else config
  if config.ForumTopicID < 0 then { config with ForumTopicID := 0 } else config

/-- Go `validateBotToken`: the user name of the bot, or an error. -/
def validateBotToken : MeReply → Except InitErr String
  | MeReply.failed => Except.error InitErr.transport
  | MeReply.resp ok username description =>
    if ¬ ok then Except.error (InitErr.verification description)
    else
      match username with
      | some name => Except.ok name
      | none => Except.error InitErr.noUsername

/-- Go `InitializeTgLogger`. -/
def InitializeTgLogger (config : Config) (env : InitEnv) : InitResult :=
  if config.ChatID = 0 then ⟨config, [], some InitErr.provideChatID, none⟩
  else if config.Token = "" then ⟨config, [], some InitErr.provideToken, none⟩
  else
    let config := applyDefaults config
    if ¬ env.openFileOK then
      ⟨config, [InitStep.truncateFile, InitStep.openFile], some InitErr.openFile, none⟩
    else
      match validateBotToken env.getMe with
      | Except.error e =>
        ⟨config, [InitStep.truncateFile, InitStep.openFile, InitStep.getMe], some e, none⟩
      | Except.ok _ =>
        ⟨config, [InitStep.truncateFile, InitStep.openFile, InitStep.getMe, InitStep.setOutput], none,
          some (initialLogger config)⟩

/-- The sink state `l` with `config.MaxMessageSize` replaced by `m`: a state that differs from `l`
in that field only. -/
def withMax (m : Int) (l : TelegramLogger) : TelegramLogger :=
  { l with config := { l.config with MaxMessageSize := m } }

/-- An outcome with `config.MaxMessageSize` of its state replaced by `m`. -/
def Outcome.withMax (m : Int) (o : Outcome) : Outcome :=
  ⟨TgLogger.withMax m o.state, o.calls, o.err⟩

/-- One call of a run: a `Write` with its text, mirror results, clock readings and replies, or a
direct call of `sendLogs` with its clock reading and replies. -/
inductive Event where
  | write (p : List Byte) (io : Mirror) (now flushNow : Time) (env : Remote)
  | flush (now : Time) (env : Remote)
  deriving DecidableEq, Repr

/-- What a run leaves behind: the final state and mutex, the requests issued in order, and what
each call returns, in order (`(0, err)` for the `err` of a `sendLogs`), `none` for a call that
does not return. -/
structure RunResult where
  state : TelegramLogger
  mu : Bool
  calls : List Call
  results : List (Option (Int × Option Err))
  deriving DecidableEq, Repr

/-- A run of `Write` and `sendLogs` calls, one after the other, from the state `l` and the mutex
`held`.  A call that does not return leaves the state and the mutex as they are when it comes to
a halt, and the calls after it are those of other goroutines. -/
def run (held : Bool) (l : TelegramLogger) : List Event → RunResult
  | [] => ⟨l, held, [], []⟩
  | Event.write p io now flushNow env :: es =>
    let w := Write held l p io now flushNow env
    let r := run w.mu w.state es
    ⟨r.state, r.mu, w.calls ++ r.calls, w.ret :: r.results⟩
  | Event.flush now env :: es =>
    match sendLogsLocked held l now env with
    | none =>
      let r := run held l es
      ⟨r.state, r.mu, r.calls, none :: r.results⟩
    | some (o, held1) =>
      let r := run held1 o.state es
      ⟨r.state, r.mu, o.calls ++ r.calls, some (0, o.err) :: r.results⟩

/-- The replies of every direct `sendLogs` call of a run are in the class `P`. -/
def flushesIn (P : Remote → Prop) : List Event → Prop
  | [] => True
  | Event.write _ _ _ _ _ :: es => flushesIn P es
  | Event.flush _ env :: es => P env ∧ flushesIn P es

/-- The calls of the overflow run: three writes, each followed by a direct `sendLogs` call four
seconds after the one before: "a", the 3998-byte line, "c". -/
def overflowEvents : List Event :=
  [Event.write [97] (okMirror 1) (clock 4) (clock 4) okRemote, Event.flush (clock 4) okRemote,
    Event.write filler (okMirror 3998) (clock 8) (clock 8) okRemote, Event.flush (clock 8) okRemote,
    Event.write [99] (okMirror 1) (clock 12) (clock 12) okRemote, Event.flush (clock 12) okRemote]

/-- The calls that lead to `stalledState`: the write "a", a direct `sendLogs` call, and the write
of the 4000-byte line. -/
def stalledEvents : List Event :=
  [Event.write [97] (okMirror 1) (clock 4) (clock 4) okRemote, Event.flush (clock 4) okRemote,
    Event.write longLine (okMirror 4000) (clock 8) (clock 8) okRemote]

/-! # Theorems -/

/-! ## Facts about `LastIndex` -/

theorem LastIndex_eq_none_iff (s : List Byte) : LastIndex s = none ↔ NL ∉ s := by
  induction s with
  | nil => simp [LastIndex]
  | cons c cs ih =>
    simp only [LastIndex]
    cases h : LastIndex cs with
    | none =>
      have hcs := ih.mp h
      by_cases hc : c = NL
      · simp [hc]
      · simp [hc, hcs, Ne.symm hc]
    | some i =>
      have hmem : NL ∈ cs := by
        by_contra hn
        rw [ih.mpr hn] at h
        cases h
      simp [hmem]

theorem LastIndex_append_nl (s t : List Byte) (ht : NL ∉ t) :
    LastIndex (s ++ NL :: t) = some s.length := by
  induction s with
  | nil => simp [LastIndex, (LastIndex_eq_none_iff t).mpr ht]
  | cons c cs ih => simp [LastIndex, ih]

theorem LastIndex_some_split (s : List Byte) (i : Nat) (h : LastIndex s = some i) :
    ∃ t, NL ∉ t ∧ s = s.take i ++ NL :: t := by
  induction s generalizing i with
  | nil => simp [LastIndex] at h
  | cons c cs ih =>
    simp only [LastIndex] at h
    cases hcs : LastIndex cs with
    | none =>
      rw [hcs] at h
      by_cases hc : c = NL
      · simp [hc] at h
        subst h
        exact ⟨cs, (LastIndex_eq_none_iff cs).mp hcs, by simp [hc]⟩
      · simp [hc] at h
    | some j =>
      rw [hcs] at h
      simp at h
      subst h
      obtain ⟨t, ht, hs⟩ := ih j hcs
      refine ⟨t, ht, ?_⟩
      simp only [List.take_succ_cons, List.cons_append]
      rw [← hs]

theorem LastIndex_lt_length (s : List Byte) (i : Nat) (h : LastIndex s = some i) :
    i < s.length := by
  obtain ⟨t, _, hs⟩ := LastIndex_some_split s i h
  by_contra hge
  have hlen := congrArg List.length hs
  simp [List.length_take] at hlen
  omega

theorem LastIndex_drop (s : List Byte) (i : Nat) (h : LastIndex s = some i) :
    ∃ t, NL ∉ t ∧ s.drop i = NL :: t := by
  obtain ⟨t, ht, hs⟩ := LastIndex_some_split s i h
  have hi := LastIndex_lt_length s i h
  refine ⟨t, ht, ?_⟩
  have h2 : s.drop i = (s.take i ++ NL :: t).drop i := by rw [← hs]
  rw [h2, List.drop_append_of_le_length (by simp [List.length_take]; omega)]
  simp [List.drop_take]

/-! ## Facts about the remote calls -/

@[simp] theorem clearFloodWait_config (l : TelegramLogger) :
    (clearFloodWait l).config = l.config := by
  unfold clearFloodWait; split <;> rfl

@[simp] theorem clearFloodWait_logBuffer (l : TelegramLogger) :
    (clearFloodWait l).logBuffer = l.logBuffer := by
  unfold clearFloodWait; split <;> rfl

@[simp] theorem clearFloodWait_currentMsg (l : TelegramLogger) :
    (clearFloodWait l).currentMsg = l.currentMsg := by
  unfold clearFloodWait; split <;> rfl

@[simp] theorem clearFloodWait_messageID (l : TelegramLogger) :
    (clearFloodWait l).messageID = l.messageID := by
  unfold clearFloodWait; split <;> rfl

@[simp] theorem clearFloodWait_lines (l : TelegramLogger) :
    (clearFloodWait l).lines = l.lines := by
  unfold clearFloodWait; split <;> rfl

@[simp] theorem clearFloodWait_lastLogUpdate (l : TelegramLogger) :
    (clearFloodWait l).lastLogUpdate = l.lastLogUpdate := by
  unfold clearFloodWait; split <;> rfl

@[simp] theorem handleError_logBuffer (l : TelegramLogger) (r : TelegramResponse) :
    (handleError l r).1.logBuffer = l.logBuffer := by
  unfold handleError; split_ifs <;> rfl

@[simp] theorem sendAsFile_calls (l : TelegramLogger) (logs : List Byte) (env : Remote) :
    (sendAsFile l logs env).calls = [Call.sendAsFile logs] := by
  unfold sendAsFile; split
  · rfl
  · split <;> rfl

@[simp] theorem sendAsFile_logBuffer (l : TelegramLogger) (logs : List Byte) (env : Remote) :
    (sendAsFile l logs env).state.logBuffer = l.logBuffer := by
  unfold sendAsFile; split
  · rfl
  · split <;> simp

/-! ## Frame facts: what the remote calls leave alone -/

theorem untouched_logBuffer : Untouched TelegramLogger.logBuffer :=
  ⟨fun _ _ => rfl, fun _ _ => rfl, fun _ _ => rfl⟩

theorem untouched_lines : Untouched TelegramLogger.lines :=
  ⟨fun _ _ => rfl, fun _ _ => rfl, fun _ _ => rfl⟩

theorem untouched_lastLogUpdate : Untouched TelegramLogger.lastLogUpdate :=
  ⟨fun _ _ => rfl, fun _ _ => rfl, fun _ _ => rfl⟩

theorem untouched_config : Untouched TelegramLogger.config :=
  ⟨fun _ _ => rfl, fun _ _ => rfl, fun _ _ => rfl⟩

theorem handleError_frame {α : Type} {f : TelegramLogger → α} (hf : Untouched f) (l : TelegramLogger) (r : TelegramResponse) :
    f (handleError l r).1 = f l := by
  unfold handleError
  split_ifs
  · rfl
  · exact hf.1 l _
  · rfl

theorem initializeTg_frame {α : Type} {f : TelegramLogger → α} (hf : Untouched f) (l : TelegramLogger) (env : Remote) :
    f (initializeTg l env).state = f l := by
  unfold initializeTg
  split
  · rfl
  · split
    · split
      · exact hf.2.1 l _
      · rfl
    · exact handleError_frame hf l _

theorem sendTgMessage_frame {α : Type} {f : TelegramLogger → α} (hf : Untouched f) (l : TelegramLogger) (m : List Byte)
    (env : Remote) : f (sendTgMessage l m env).state = f l := by
  unfold sendTgMessage
  split
  · rfl
  · split
    · split
      · exact hf.2.1 l _
      · rfl
    · exact handleError_frame hf l _

theorem editTgMessage_frame {α : Type} {f : TelegramLogger → α} (hf : Untouched f) (l : TelegramLogger) (m : List Byte)
    (env : Remote) : f (editTgMessage l m env).state = f l := by
  unfold editTgMessage
  split
  · rfl
  · split
    · rfl
    · exact handleError_frame hf l _

theorem sendAsFile_frame {α : Type} {f : TelegramLogger → α} (hf : Untouched f) (l : TelegramLogger) (logs : List Byte)
    (env : Remote) : f (sendAsFile l logs env).state = f l := by
  unfold sendAsFile
  split
  · rfl
  · split
    · rfl
    · exact handleError_frame hf l _

theorem andThen_frame {α : Type} {f : TelegramLogger → α} (o : Outcome) (k : TelegramLogger → Outcome)
    (hk : ∀ l, f (k l).state = f l) : f (o.andThen k).state = f o.state := by
  unfold Outcome.andThen
  split
  · rfl
  · exact hk _

theorem compose_frame {α : Type} {f : TelegramLogger → α} (hf : Untouched f)
    (l : TelegramLogger) (msg : List Byte) (env : Remote) :
    f (compose l msg env).state = f l := by
  unfold compose
  dsimp only
  split
  · refine (andThen_frame _ _ ?_).trans ?_
    · intro l2
      rw [sendTgMessage_frame hf]
      exact hf.2.2 l2 _
    · split
      · exact editTgMessage_frame hf l _ env
      · rfl
  · refine (andThen_frame _ _ ?_).trans ?_
    · intro l2
      exact hf.2.2 l2 _
    · exact editTgMessage_frame hf l _ env

theorem deliver_frame {α : Type} {f : TelegramLogger → α} (hf : Untouched f)
    (l : TelegramLogger) (msg : List Byte) (env : Remote) :
    f (deliver l msg env).state = f l := by
  unfold deliver
  refine (andThen_frame _ _ (fun l1 => compose_frame hf l1 msg env)).trans ?_
  split
  · exact initializeTg_frame hf l env
  · rfl

/-! ## The three ways through `sendLogs` -/

theorem sendLogs_empty (l : TelegramLogger) (now : Time) (env : Remote)
    (h : l.logBuffer = []) : sendLogs l now env = ⟨clearFloodWait l, [], none⟩ := by
  simp [sendLogs, h]

theorem sendLogs_file (l : TelegramLogger) (now : Time) (env : Remote)
    (hne : l.logBuffer ≠ []) (h : l.config.PendingLogsSize < (l.logBuffer.length : Int)) :
    sendLogs l now env =
      sendAsFile
        { clearFloodWait l with
          logBuffer := l.logBuffer.drop (fileCut l.logBuffer), currentMsg := [], messageID := 0,
          lines := 0, lastLogUpdate := now }
        (l.logBuffer.take (fileCut l.logBuffer)) env := by
  have hlen : l.logBuffer.length ≠ 0 := by simpa using hne
  simp [sendLogs, hlen, h]

theorem sendLogs_stall (l : TelegramLogger) (now : Time) (env : Remote)
    (hne : l.logBuffer ≠ []) (h : (l.logBuffer.length : Int) ≤ l.config.PendingLogsSize)
    (hmsg : textChunk l.logBuffer = []) :
    sendLogs l now env = ⟨clearFloodWait l, [], none⟩ := by
  have hlen : l.logBuffer.length ≠ 0 := by simpa using hne
  simp [sendLogs, hlen, not_lt.mpr h, hmsg]

theorem sendLogs_text (l : TelegramLogger) (now : Time) (env : Remote)
    (hne : l.logBuffer ≠ []) (h : (l.logBuffer.length : Int) ≤ l.config.PendingLogsSize)
    (hmsg : textChunk l.logBuffer ≠ []) :
    sendLogs l now env =
      deliver
        { clearFloodWait l with
          logBuffer := l.logBuffer.drop (textChunk l.logBuffer).length, lines := 0,
          lastLogUpdate := now }
        (textChunk l.logBuffer) env := by
  have hlen : l.logBuffer.length ≠ 0 := by simpa using hne
  simp [sendLogs, hlen, not_lt.mpr h, hmsg]

theorem fileCut_spec (s : List Byte) :
    (NL ∉ s ∧ fileCut s = s.length) ∨
      (fileCut s < s.length ∧ ∃ t, NL ∉ t ∧ s.drop (fileCut s) = NL :: t) := by
  unfold fileCut
  cases h : LastIndex s with
  | none => exact Or.inl ⟨(LastIndex_eq_none_iff s).mp h, rfl⟩
  | some i => exact Or.inr ⟨LastIndex_lt_length s i h, LastIndex_drop s i h⟩

theorem textChunk_append_drop (s : List Byte) :
    s = textChunk s ++ s.drop (textChunk s).length := by
  have h : textChunk s = s.take (textChunk s).length := by
    unfold textChunk
    simp only [List.take_take, List.length_take]
    congr 1
    omega
  conv_lhs => rw [← List.take_append_drop (textChunk s).length s]
  rw [← h]

theorem textChunk_length_le (s : List Byte) : (textChunk s).length ≤ 4000 := by
  unfold textChunk
  simp only [List.length_take]
  omega

theorem take_min_length (s : List Byte) (n : Nat) : s.take (min n s.length) = s.take n := by
  rcases Nat.le_total n s.length with hle | hle
  · rw [Nat.min_eq_left hle]
  · rw [Nat.min_eq_right hle, List.take_of_length_le hle, List.take_of_length_le (le_refl _)]

theorem textChunk_of_some (s : List Byte) (i : Nat) (h : LastIndex (s.take 4000) = some i) :
    textChunk s = s.take i := by
  have hi := LastIndex_lt_length _ i h
  simp only [List.length_take] at hi
  unfold textChunk
  simp only [take_min_length, h, Option.getD_some, List.take_take]
  congr 1
  omega

theorem textChunk_of_none (s : List Byte) (h : LastIndex (s.take 4000) = none) :
    textChunk s = s.take 4000 := by
  unfold textChunk
  simp only [take_min_length, h, Option.getD_none]
  exact List.take_of_length_le (le_refl _)

/-- How the text branch cuts: at the last newline among the first 4000 bytes, and when there is
none after the first 4000 bytes (after the whole buffer when it is shorter). -/
theorem textChunk_spec (s : List Byte) :
    (∃ t, s.drop (textChunk s).length = NL :: t) ∨
      (NL ∉ s.take 4000 ∧ textChunk s = s.take 4000) := by
  cases h : LastIndex (s.take 4000) with
  | some i =>
    left
    obtain ⟨t, _, ht⟩ := LastIndex_drop _ i h
    have hi := LastIndex_lt_length _ i h
    simp only [List.length_take] at hi
    rw [textChunk_of_some s i h, List.length_take, Nat.min_eq_left (by omega)]
    rw [List.drop_take] at ht
    have hsplit : s.drop i = (s.drop i).take (4000 - i) ++ (s.drop i).drop (4000 - i) :=
      (List.take_append_drop _ _).symm
    rw [ht] at hsplit
    exact ⟨_, hsplit⟩
  | none =>
    right
    exact ⟨(LastIndex_eq_none_iff _).mp h, textChunk_of_none s h⟩

theorem sendLogs_logBuffer (l : TelegramLogger) (now : Time) (env : Remote) :
    (sendLogs l now env).state.logBuffer = l.logBuffer.drop (consumed l).length := by
  unfold consumed
  by_cases hne : l.logBuffer = []
  · rw [sendLogs_empty l now env hne]
    simp [hne]
  · have hlen : l.logBuffer.length ≠ 0 := by simpa using hne
    by_cases hbig : (l.logBuffer.length : Int) > l.config.PendingLogsSize
    · rw [sendLogs_file l now env hne hbig, sendAsFile_frame untouched_logBuffer]
      simp only [hlen, hbig, if_true, if_false, List.length_take]
      rcases fileCut_spec l.logBuffer with h | h
      · rw [h.2]; simp
      · rw [Nat.min_eq_left (Nat.le_of_lt h.1)]
    · have hle := not_lt.mp hbig
      by_cases hmsg : textChunk l.logBuffer = []
      · rw [sendLogs_stall l now env hne hle hmsg]
        simp [hlen, hbig, hmsg]
      · rw [sendLogs_text l now env hne hle hmsg, deliver_frame untouched_logBuffer]
        simp [hlen, hbig]

theorem consumed_append_drop (l : TelegramLogger) :
    l.logBuffer = consumed l ++ l.logBuffer.drop (consumed l).length := by
  unfold consumed
  split
  · simp
  · split
    · simp only [List.length_take]
      rcases fileCut_spec l.logBuffer with h | h
      · rw [h.2]; simp
      · rw [Nat.min_eq_left (Nat.le_of_lt h.1)]
        exact (List.take_append_drop _ _).symm
    · exact textChunk_append_drop l.logBuffer

/-! ## C1: file fallback -/

/-- C1 (amended): when the buffer is longer than `PendingLogsSize` (a positive threshold, as
`InitializeTgLogger` leaves it), `sendLogs` issues exactly one request, the document upload, and no
create or edit request; the uploaded content is the buffer prefix that ends at the last newline of
the whole buffer (the whole buffer when it holds no newline), and the buffer afterwards is the
rest of the old buffer. -/
theorem sendLogs_file_fallback (l : TelegramLogger) (now : Time) (env : Remote)
    (hpos : 0 < l.config.PendingLogsSize)
    (hbig : l.config.PendingLogsSize < (l.logBuffer.length : Int)) :
    ∃ k, (sendLogs l now env).calls = [Call.sendAsFile (l.logBuffer.take k)] ∧
      (sendLogs l now env).state.logBuffer = l.logBuffer.drop k ∧
      ((NL ∉ l.logBuffer ∧ k = l.logBuffer.length) ∨
        (k < l.logBuffer.length ∧ ∃ t, NL ∉ t ∧ l.logBuffer.drop k = NL :: t)) := by
  have hne : l.logBuffer ≠ [] := by
    intro h0
    rw [h0] at hbig
    simp at hbig
    omega
  refine ⟨fileCut l.logBuffer, ?_, ?_, fileCut_spec l.logBuffer⟩
  · rw [sendLogs_file l now env hne hbig]; simp
  · rw [sendLogs_file l now env hne hbig]; simp

/-- Witness of C1 (amended) at the buffer "a\nbcd\n" with threshold 3. -/
theorem sendLogs_file_fallback_witness :
    0 < smallFileState.config.PendingLogsSize ∧
      smallFileState.config.PendingLogsSize < (smallFileState.logBuffer.length : Int) ∧
      ∃ k, (sendLogs smallFileState 0 okRemote).calls
          = [Call.sendAsFile (smallFileState.logBuffer.take k)] ∧
        (sendLogs smallFileState 0 okRemote).state.logBuffer = smallFileState.logBuffer.drop k ∧
        ((NL ∉ smallFileState.logBuffer ∧ k = smallFileState.logBuffer.length) ∨
          (k < smallFileState.logBuffer.length ∧
            ∃ t, NL ∉ t ∧ smallFileState.logBuffer.drop k = NL :: t)) :=
  ⟨by decide, by decide, sendLogs_file_fallback smallFileState 0 okRemote (by decide) (by decide)⟩

/-- C1 as stated fails: with threshold 3 and buffer "a\nbcd\n" the last newline at or before
the threshold is at index 1, yet the upload is "a\nbcd", cut at the newline at index 5; it is not
a prefix cut at or before the threshold. -/
theorem sendLogs_file_cut_counterexample :
    smallFileState.config.PendingLogsSize = 3 ∧
      LastIndex (smallFileState.logBuffer.take (3 + 1)) = some 1 ∧
      (sendLogs smallFileState 0 okRemote).calls = [Call.sendAsFile [97, 10, 98, 99, 100]] ∧
      (sendLogs smallFileState 0 okRemote).state.logBuffer = [10] ∧
      ¬ ∃ k : Nat, (k : Int) ≤ smallFileState.config.PendingLogsSize ∧
        (sendLogs smallFileState 0 okRemote).calls
          = [Call.sendAsFile (smallFileState.logBuffer.take k)] := by
  refine ⟨by decide, by decide, by decide, by decide, ?_⟩
  rintro ⟨k, hk, h⟩
  have hcalls : (sendLogs smallFileState 0 okRemote).calls
      = [Call.sendAsFile [97, 10, 98, 99, 100]] := by decide
  rw [hcalls] at h
  have hk3 : k ≤ 3 := by
    have : smallFileState.config.PendingLogsSize = 3 := by decide
    rw [this] at hk
    omega
  simp only [List.cons.injEq, Call.sendAsFile.injEq, and_true] at h
  have hlen := congrArg List.length h
  simp only [List.length_take, List.length_cons, List.length_nil] at hlen
  omega

/-! ## C3: where a flush cuts the buffer -/

theorem textChunk_replicate_append (n : Nat) (b : Byte) (t : List Byte) (hb : b ≠ NL)
    (hn : 4000 ≤ n) : textChunk (List.replicate n b ++ t) = List.replicate 4000 b := by
  have htake : (List.replicate n b ++ t).take 4000 = List.replicate 4000 b := by
    rw [List.take_append_of_le_length (by simpa using hn), List.take_replicate,
      Nat.min_eq_left hn]
  have hnone : LastIndex ((List.replicate n b ++ t).take 4000) = none := by
    rw [htake, LastIndex_eq_none_iff]
    intro hmem
    exact hb (List.eq_of_mem_replicate hmem).symm
  rw [textChunk_of_none _ hnone, htake]

/-- C3 (amended): the prefix `sendLogs` removes from the buffer (file content or text chunk) is
the whole buffer, or the first byte left in the buffer is a newline, unless the first 4000 bytes
of the buffer hold no newline: the text path then removes exactly those first 4000 bytes. -/
theorem sendLogs_cut_at_newline (l : TelegramLogger) (now : Time) (env : Remote) :
    l.logBuffer = consumed l ++ (sendLogs l now env).state.logBuffer ∧
      ((sendLogs l now env).state.logBuffer = [] ∨
        (∃ t, (sendLogs l now env).state.logBuffer = NL :: t) ∨
        (NL ∉ l.logBuffer.take 4000 ∧ consumed l = l.logBuffer.take 4000)) := by
  rw [sendLogs_logBuffer]
  refine ⟨consumed_append_drop l, ?_⟩
  unfold consumed
  split
  · left
    rename_i h0
    simp [List.length_eq_zero.mp h0]
  · split
    · rcases fileCut_spec l.logBuffer with h | h
      · left
        simp [h.2]
      · right; left
        obtain ⟨t, _, ht⟩ := h.2
        refine ⟨t, ?_⟩
        rw [List.length_take, Nat.min_eq_left (Nat.le_of_lt h.1)]
        exact ht
    · rcases textChunk_spec l.logBuffer with h | h
      · right; left
        exact h
      · right; right
        exact h

/-- A buffer that starts with at least 4000 equal bytes other than newline loses exactly its
first 4000 bytes on the text path. -/
theorem sendLogs_long_line (l : TelegramLogger) (now : Time) (env : Remote) (n : Nat) (b : Byte)
    (t : List Byte) (hb : b ≠ NL) (hn : 4000 ≤ n) (hbuf : l.logBuffer = List.replicate n b ++ t)
    (hle : (l.logBuffer.length : Int) ≤ l.config.PendingLogsSize) :
    (sendLogs l now env).state.logBuffer = List.replicate (n - 4000) b ++ t := by
  have hchunk : textChunk l.logBuffer = List.replicate 4000 b := by
    rw [hbuf]
    exact textChunk_replicate_append n b t hb hn
  have hlen : (textChunk l.logBuffer).length = 4000 := by
    rw [hchunk, List.length_replicate]
  have hmsg : textChunk l.logBuffer ≠ [] := by
    intro h
    rw [h] at hlen
    simp at hlen
  have hne : l.logBuffer ≠ [] := by
    intro h
    rw [h] at hmsg
    exact hmsg rfl
  rw [sendLogs_text l now env hne hle hmsg, deliver_frame untouched_logBuffer]
  show List.drop (textChunk l.logBuffer).length l.logBuffer = _
  rw [hlen, hbuf, List.drop_append_of_le_length (by rw [List.length_replicate]; exact hn),
    List.drop_replicate]

theorem longLineState_logBuffer :
    longLineState.logBuffer = List.replicate 4001 98 ++ [10] := by
  unfold longLineState initialLogger
  rfl

/-- C3 as stated fails: a buffer holding one line of 4001 bytes and its newline is no longer than
`PendingLogsSize = 20000`, yet the flush removes the first 4000 bytes and leaves "b\n": the
removed prefix is not the whole buffer and the first byte left is not a newline. -/
theorem sendLogs_splits_line_counterexample :
    (longLineState.logBuffer.length : Int) ≤ longLineState.config.PendingLogsSize ∧
      (sendLogs longLineState 0 okRemote).state.logBuffer = [98, 10] ∧
      (sendLogs longLineState 0 okRemote).state.logBuffer ≠ [] ∧
      (sendLogs longLineState 0 okRemote).state.logBuffer.head? ≠ some NL := by
  have hle : (longLineState.logBuffer.length : Int) ≤ longLineState.config.PendingLogsSize := by
    rw [longLineState_logBuffer, List.length_append, List.length_replicate]
    decide
  have hafter : (sendLogs longLineState 0 okRemote).state.logBuffer = [98, 10] :=
    sendLogs_long_line longLineState 0 okRemote 4001 98 [10] (by decide) (by decide)
      longLineState_logBuffer hle
  refine ⟨hle, hafter, ?_, ?_⟩
  · rw [hafter]; exact List.cons_ne_nil _ _
  · rw [hafter]; decide

/-! ## C7: classification of a failed response -/

/-- C7 (amended): `handleError` returns the fatal credential error exactly when the error code is
401 and the description is "Unauthorized" (whatever `retry_after` is), leaving the state as it
was; otherwise, when `retry_after > 0`, it returns no error and sets `floodWait` to `retry_after`
seconds, also for a 401 with another description; otherwise it returns an API error and leaves
the state, `floodWait` included, as it was. -/
theorem handleError_classification (l : TelegramLogger) (r : TelegramResponse) :
    (r.ErrorCode = 401 ∧ r.Description = "Unauthorized" ∧
        handleError l r = (l, some Err.unauthorized)) ∨
      (¬ (r.ErrorCode = 401 ∧ r.Description = "Unauthorized") ∧ 0 < r.RetryAfter ∧
        handleError l r = ({ l with floodWait := secondsDuration r.RetryAfter }, none)) ∨
      (¬ (r.ErrorCode = 401 ∧ r.Description = "Unauthorized") ∧ r.RetryAfter ≤ 0 ∧
        handleError l r = (l, some (Err.api r.ErrorCode r.Description))) := by
  unfold handleError
  by_cases h : r.ErrorCode = 401 ∧ r.Description = "Unauthorized"
  · left
    exact ⟨h.1, h.2, by rw [if_pos h]⟩
  · right
    by_cases hr : r.RetryAfter > 0
    · left
      exact ⟨h, hr, by rw [if_neg h, if_pos hr]⟩
    · right
      exact ⟨h, not_lt.mp hr, by rw [if_neg h, if_neg hr]⟩

/-- C7 as stated fails: a response with error code 401, description "Forbidden" and
`retry_after = 5` is not classified as a credential failure; `handleError` returns no error and
sets `floodWait` to 5 seconds. -/
theorem handleError_401_counterexample :
    forbiddenResponse.ErrorCode = 401 ∧
      (handleError (initialLogger (exampleConfig 20000)) forbiddenResponse).2 = none ∧
      (handleError (initialLogger (exampleConfig 20000)) forbiddenResponse).1.floodWait
        = 5 * Second := by
  decide

/-! ## C8 and C9: the filter and the record step of `Write` -/

theorem HasPrefix_iff (s sub : List Byte) : HasPrefix s sub = true ↔ sub <+: s := by
  induction s generalizing sub with
  | nil =>
    cases sub with
    | nil => simp [HasPrefix]
    | cons d ds => simp [HasPrefix]
  | cons c cs ih =>
    cases sub with
    | nil => simp [HasPrefix]
    | cons d ds =>
      simp only [HasPrefix, Bool.and_eq_true, decide_eq_true_eq, ih, List.cons_prefix_cons]
      constructor
      · rintro ⟨h1, h2⟩; exact ⟨h1.symm, h2⟩
      · rintro ⟨h1, h2⟩; exact ⟨h1.symm, h2⟩

/-- The embedding of `strings.Contains` decides the substring relation. -/
theorem Contains_iff (s sub : List Byte) : Contains s sub = true ↔ sub <:+: s := by
  induction s with
  | nil =>
    simp only [Contains, HasPrefix_iff]
    constructor
    · intro h; exact h.isInfix
    · intro h
      have : sub = [] := List.eq_nil_of_infix_nil h
      rw [this]
  | cons c cs ih =>
    simp only [Contains, Bool.or_eq_true, HasPrefix_iff, ih, List.infix_cons_iff]

theorem Write_excluded_eq (held : Bool) (l : TelegramLogger) (p : List Byte) (io : Mirror)
    (now flushNow : Time) (env : Remote) (hfile : io.logFile.err = none)
    (hout : io.stdout.err = none)
    (hex : l.config.ExcludedLogPatterns.any (fun pattern => Contains p pattern) = true) :
    Write held l p io now flushNow env = ⟨l, held, [], some (p.length, none)⟩ := by
  unfold Write
  rw [hfile, hout]
  simp only [hex, if_true]

theorem Write_recorded_eq (l : TelegramLogger) (p : List Byte) (io : Mirror)
    (now flushNow : Time) (env : Remote) (hfile : io.logFile.err = none)
    (hout : io.stdout.err = none)
    (hex : l.config.ExcludedLogPatterns.any (fun pattern => Contains p pattern) = false) :
    Write false l p io now flushNow env =
      if shouldUpdate (record l p) now then ⟨record l p, true, [], none⟩
      else ⟨record l p, false, [], some (p.length, none)⟩ := by
  unfold Write
  rw [hfile, hout]
  simp only [hex, Bool.false_eq_true, if_false, Lock, sendLogsLocked, if_true, Unlock]

theorem Write_held_eq (l : TelegramLogger) (p : List Byte) (io : Mirror)
    (now flushNow : Time) (env : Remote) (hfile : io.logFile.err = none)
    (hout : io.stdout.err = none)
    (hex : l.config.ExcludedLogPatterns.any (fun pattern => Contains p pattern) = false) :
    Write true l p io now flushNow env = ⟨l, true, [], none⟩ := by
  unfold Write
  rw [hfile, hout]
  simp only [hex, Bool.false_eq_true, if_false, Lock, if_true]

theorem Write_quiet_eq (l : TelegramLogger) (p : List Byte) (io : Mirror)
    (now flushNow : Time) (env : Remote) (hfile : io.logFile.err = none)
    (hout : io.stdout.err = none)
    (hex : l.config.ExcludedLogPatterns.any (fun pattern => Contains p pattern) = false)
    (hupd : shouldUpdate (record l p) now = false) :
    Write false l p io now flushNow env = ⟨record l p, false, [], some (p.length, none)⟩ := by
  rw [Write_recorded_eq l p io now flushNow env hfile hout hex, hupd]
  rfl

theorem Write_blocks_eq (l : TelegramLogger) (p : List Byte) (io : Mirror)
    (now flushNow : Time) (env : Remote) (hfile : io.logFile.err = none)
    (hout : io.stdout.err = none)
    (hex : l.config.ExcludedLogPatterns.any (fun pattern => Contains p pattern) = false)
    (hupd : shouldUpdate (record l p) now = true) :
    Write false l p io now flushNow env = ⟨record l p, true, [], none⟩ := by
  rw [Write_recorded_eq l p io now flushNow env hfile hout hex, hupd]
  rfl

theorem Write_calls (held : Bool) (l : TelegramLogger) (p : List Byte) (io : Mirror)
    (now flushNow : Time) (env : Remote) : (Write held l p io now flushNow env).calls = [] := by
  unfold Write
  split
  · rfl
  · split
    · rfl
    · split
      · rfl
      · cases held
        · simp only [Lock, sendLogsLocked, Bool.false_eq_true, if_false, if_true]
          split <;> rfl
        · rfl

theorem Write_state (held : Bool) (l : TelegramLogger) (p : List Byte) (io : Mirror)
    (now flushNow : Time) (env : Remote) :
    (Write held l p io now flushNow env).state = l ∨
      (Write held l p io now flushNow env).state = record l p := by
  unfold Write
  split
  · exact Or.inl rfl
  · split
    · exact Or.inl rfl
    · split
      · exact Or.inl rfl
      · cases held
        · simp only [Lock, sendLogsLocked, Bool.false_eq_true, if_false, if_true]
          split <;> exact Or.inr rfl
        · exact Or.inl rfl

theorem any_Contains_iff (patterns : List (List Byte)) (p : List Byte) :
    patterns.any (fun pattern => Contains p pattern) = true ↔
      ∃ pattern ∈ patterns, pattern <:+: p := by
  simp only [List.any_eq_true, Contains_iff]

/-- C8 (amended): for every sink state and every write whose text contains one of the configured
`ExcludedLogPatterns` as a substring, `Write` issues no remote call and leaves the whole state
(buffer, line counter, last-flush timestamp, current message text, message identifier, backoff)
unchanged, whether the mutex is held or free, and does not touch the mutex; it returns
`(len(p), nil)` when both local mirror writes succeed. -/
theorem Write_excluded (held : Bool) (l : TelegramLogger) (p : List Byte) (io : Mirror)
    (now flushNow : Time) (env : Remote)
    (hex : ∃ pattern ∈ l.config.ExcludedLogPatterns, pattern <:+: p) :
    (Write held l p io now flushNow env).calls = [] ∧
      (Write held l p io now flushNow env).state = l ∧
      (Write held l p io now flushNow env).mu = held ∧
      (Write held l p io now flushNow env).ret ≠ none ∧
      (io.logFile.err = none → io.stdout.err = none →
        (Write held l p io now flushNow env).ret = some ((p.length : Int), none)) := by
  have hany := (any_Contains_iff _ p).mpr hex
  refine ⟨?_, ?_, ?_, ?_, ?_⟩
  · unfold Write
    split
    · rfl
    · split
      · rfl
      · simp only [hany, if_true]
  · unfold Write
    split
    · rfl
    · split
      · rfl
      · simp only [hany, if_true]
  · unfold Write
    split
    · rfl
    · split
      · rfl
      · simp only [hany, if_true]
  · unfold Write
    split
    · exact Option.some_ne_none _
    · split
      · exact Option.some_ne_none _
      · simp only [hany, if_true]
        exact Option.some_ne_none _
  · intro hfile hout
    rw [Write_excluded_eq held l p io now flushNow env hfile hout hany]

/-- Witness of C8 (amended): the text "DEBUG" under the test configuration, the mutex held by
another call. -/
theorem Write_excluded_witness :
    (∃ pattern ∈ (initialLogger testConfig).config.ExcludedLogPatterns,
        pattern <:+: ([68, 69, 66, 85, 71] : List Byte)) ∧
      (Write true (initialLogger testConfig) [68, 69, 66, 85, 71] (okMirror 5) (clock 4)
          (clock 4) okRemote).calls = [] ∧
      (Write true (initialLogger testConfig) [68, 69, 66, 85, 71] (okMirror 5) (clock 4)
          (clock 4) okRemote).state = initialLogger testConfig ∧
      (Write true (initialLogger testConfig) [68, 69, 66, 85, 71] (okMirror 5) (clock 4)
          (clock 4) okRemote).mu = true ∧
      (Write true (initialLogger testConfig) [68, 69, 66, 85, 71] (okMirror 5) (clock 4)
          (clock 4) okRemote).ret ≠ none ∧
      ((okMirror 5).logFile.err = none → (okMirror 5).stdout.err = none →
        (Write true (initialLogger testConfig) [68, 69, 66, 85, 71] (okMirror 5) (clock 4)
            (clock 4) okRemote).ret =
          some ((([68, 69, 66, 85, 71] : List Byte).length : Int), none)) :=
  ⟨⟨[68, 69, 66, 85, 71], by decide, List.infix_refl _⟩,
    Write_excluded true (initialLogger testConfig) [68, 69, 66, 85, 71] (okMirror 5) (clock 4)
      (clock 4) okRemote ⟨[68, 69, 66, 85, 71], by decide, List.infix_refl _⟩⟩

/-- C8 as stated fails: when the write to the log file fails, `Write` of the excluded text
"DEBUG" returns the error of that write, not `(len(p), nil)`. -/
theorem Write_excluded_counterexample :
    Contains [68, 69, 66, 85, 71] [68, 69, 66, 85, 71] = true ∧
      [68, 69, 66, 85, 71] ∈ (initialLogger testConfig).config.ExcludedLogPatterns ∧
      (Write false (initialLogger testConfig) [68, 69, 66, 85, 71] failedMirror (clock 4)
          (clock 4) okRemote).ret = some (0, some Err.mirror) := by
  decide

theorem HasSuffixNL_iff (p : List Byte) : HasSuffixNL p = true ↔ ∃ q, p = q ++ [NL] := by
  unfold HasSuffixNL
  rw [decide_eq_true_eq]
  constructor
  · intro h
    rcases List.eq_nil_or_concat p with h0 | ⟨q, b, hq⟩
    · rw [h0] at h; simp at h
    · rw [hq, List.concat_eq_append, List.getLast?_append] at h
      simp at h
      exact ⟨q, by rw [hq, List.concat_eq_append, h]⟩
  · rintro ⟨q, rfl⟩
    simp

/-- C9 (amended): for every sink state and every write whose text contains none of the excluded
patterns, when both local mirror writes succeed and the mutex is free, the state in which the
scheduler predicate is evaluated, which is the state `Write` leaves in memory, has the buffer old
buffer + text when the text ends with a newline and old buffer + text + "\n" otherwise, the line
counter increased by exactly 1 whatever the number of newlines in the text, and every other field
as before; `Write` issues no request, and it returns `(len(p), nil)` with the mutex free again
exactly when the predicate is false in that state. -/
theorem Write_records (l : TelegramLogger) (p : List Byte) (io : Mirror)
    (now flushNow : Time) (env : Remote) (hfile : io.logFile.err = none)
    (hout : io.stdout.err = none)
    (hex : ¬ ∃ pattern ∈ l.config.ExcludedLogPatterns, pattern <:+: p) :
    ∃ l1 : TelegramLogger,
      Write false l p io now flushNow env =
        (if shouldUpdate l1 now then ⟨l1, true, [], none⟩
        else ⟨l1, false, [], some (p.length, none)⟩) ∧
      ((∃ q, p = q ++ [NL]) → l1.logBuffer = l.logBuffer ++ p) ∧
      ((¬ ∃ q, p = q ++ [NL]) → l1.logBuffer = l.logBuffer ++ p ++ [NL]) ∧
      l1.lines = l.lines + 1 ∧
      l1.config = l.config ∧ l1.currentMsg = l.currentMsg ∧ l1.messageID = l.messageID ∧
      l1.lastLogUpdate = l.lastLogUpdate ∧ l1.floodWait = l.floodWait := by
  have hany : l.config.ExcludedLogPatterns.any (fun pattern => Contains p pattern) = false := by
    rw [← Bool.not_eq_true, any_Contains_iff]
    exact hex
  refine ⟨record l p, Write_recorded_eq l p io now flushNow env hfile hout hany, ?_, ?_,
    rfl, rfl, rfl, rfl, rfl, rfl⟩
  · intro hq
    show (if HasSuffixNL p then l.logBuffer ++ p else l.logBuffer ++ p ++ [NL]) = _
    rw [if_pos ((HasSuffixNL_iff p).mpr hq)]
  · intro hq
    show (if HasSuffixNL p then l.logBuffer ++ p else l.logBuffer ++ p ++ [NL]) = _
    rw [if_neg (fun h => hq ((HasSuffixNL_iff p).mp h))]

/-- Witness of C9 (amended): the text "a" written to the initial state under `pairConfig`, where
the write returns. -/
theorem Write_records_witness :
    (okMirror 1).logFile.err = none ∧ (okMirror 1).stdout.err = none ∧
      (¬ ∃ pattern ∈ (initialLogger pairConfig).config.ExcludedLogPatterns,
        pattern <:+: ([97] : List Byte)) ∧
      (Write false (initialLogger pairConfig) [97] (okMirror 1) (clock 4) (clock 4) okRemote).ret =
        some (1, none) ∧
      ∃ l1 : TelegramLogger,
        Write false (initialLogger pairConfig) [97] (okMirror 1) (clock 4) (clock 4) okRemote =
          (if shouldUpdate l1 (clock 4) then ⟨l1, true, [], none⟩
          else ⟨l1, false, [], some (([97] : List Byte).length, none)⟩) ∧
        ((∃ q, ([97] : List Byte) = q ++ [NL]) →
          l1.logBuffer = (initialLogger pairConfig).logBuffer ++ [97]) ∧
        ((¬ ∃ q, ([97] : List Byte) = q ++ [NL]) →
          l1.logBuffer = (initialLogger pairConfig).logBuffer ++ [97] ++ [NL]) ∧
        l1.lines = (initialLogger pairConfig).lines + 1 ∧
        l1.config = (initialLogger pairConfig).config ∧
        l1.currentMsg = (initialLogger pairConfig).currentMsg ∧
        l1.messageID = (initialLogger pairConfig).messageID ∧
        l1.lastLogUpdate = (initialLogger pairConfig).lastLogUpdate ∧
        l1.floodWait = (initialLogger pairConfig).floodWait :=
  have hex : ¬ ∃ pattern ∈ (initialLogger pairConfig).config.ExcludedLogPatterns,
      pattern <:+: ([97] : List Byte) := by
    rw [← any_Contains_iff]
    decide
  ⟨rfl, rfl, hex, by decide,
    Write_records (initialLogger pairConfig) [97] (okMirror 1) (clock 4) (clock 4)
      okRemote rfl rfl hex⟩

/-- C9 as stated fails: when the write to the log file fails, `Write` of the text "a", which
contains no excluded pattern, returns before the record step: the buffer stays empty and the line
counter stays 0. -/
theorem Write_records_counterexample :
    (initialLogger testConfig).config.ExcludedLogPatterns.any
        (fun pattern => Contains [97] pattern) = false ∧
      (Write false (initialLogger testConfig) [97] failedMirror (clock 4) (clock 4)
          okRemote).state.logBuffer = [] ∧
      (Write false (initialLogger testConfig) [97] failedMirror (clock 4) (clock 4)
          okRemote).state.lines = 0 ∧
      (Write false (initialLogger testConfig) [97] failedMirror (clock 4) (clock 4)
          okRemote).ret = some (0, some Err.mirror) := by
  decide

/-! ## C5 and C6: rate limits -/

/-- C5 fails on the code: the write "a" is recorded without a flush, and the next `sendLogs`
call, made with the mutex free, has its placeholder creation answered with a rate limit of 30
seconds; `floodWait` becomes 30 seconds, and the same `sendLogs` execution still issues the edit
request, with message identifier 0. -/
theorem sendLogs_requests_after_rate_limit :
    rateLimited (replyOf floodOnInitRemote Call.initializeCall) = some 30 ∧
      (sendLogs (record (initialLogger quietConfig) [97]) (clock 4) floodOnInitRemote).calls =
        [Call.initializeCall, Call.editTgMessage 0 [97]] ∧
      (sendLogs (record (initialLogger quietConfig) [97]) (clock 4)
        floodOnInitRemote).state.floodWait = 30 * Second ∧
      (run false (initialLogger quietConfig)
        [Event.write [97] (okMirror 1) (clock 4) (clock 4) floodOnInitRemote,
          Event.flush (clock 4) floodOnInitRemote]).calls =
        [Call.initializeCall, Call.editTgMessage 0 [97]] ∧
      (run false (initialLogger quietConfig)
        [Event.write [97] (okMirror 1) (clock 4) (clock 4) floodOnInitRemote,
          Event.flush (clock 4) floodOnInitRemote]).results = [some (1, none), some (0, none)] ∧
      (run false (initialLogger quietConfig)
        [Event.write [97] (okMirror 1) (clock 4) (clock 4) floodOnInitRemote,
          Event.flush (clock 4) floodOnInitRemote]).state.floodWait = 30 * Second := by
  decide

theorem rateLimited_handleError (l : TelegramLogger) (r : TelegramResponse) (n : Int)
    (h : rateLimited (Reply.resp r) = some n) :
    r.OK = false ∧ handleError l r = ({ l with floodWait := secondsDuration n }, none) := by
  simp only [rateLimited] at h
  split_ifs at h with hc
  obtain ⟨hok, hnot, hpos⟩ := hc
  simp only [Option.some.injEq] at h
  subst h
  refine ⟨hok, ?_⟩
  unfold handleError
  rw [if_neg hnot, if_pos hpos]

theorem editTgMessage_calls (l : TelegramLogger) (m : List Byte) (env : Remote) :
    (editTgMessage l m env).calls = [Call.editTgMessage l.messageID m] := by
  unfold editTgMessage; split
  · rfl
  · split <;> rfl

theorem sendTgMessage_calls (l : TelegramLogger) (m : List Byte) (env : Remote) :
    (sendTgMessage l m env).calls = [Call.sendTgMessage m] := by
  unfold sendTgMessage; split
  · rfl
  · split
    · split <;> rfl
    · rfl

theorem initializeTg_calls (l : TelegramLogger) (env : Remote) :
    (initializeTg l env).calls = [Call.initializeCall] := by
  unfold initializeTg; split
  · rfl
  · split
    · split <;> rfl
    · rfl

theorem editTgMessage_rateLimited (l : TelegramLogger) (m : List Byte) (env : Remote) (n : Int)
    (h : rateLimited env.edit = some n) :
    (editTgMessage l m env).err = none ∧
      (editTgMessage l m env).state = { l with floodWait := secondsDuration n } := by
  unfold editTgMessage
  cases he : env.edit with
  | failed => rw [he] at h; simp [rateLimited] at h
  | resp r =>
    rw [he] at h
    obtain ⟨hok, hh⟩ := rateLimited_handleError l r n h
    simp [hok, hh]

theorem sendTgMessage_rateLimited (l : TelegramLogger) (m : List Byte) (env : Remote) (n : Int)
    (h : rateLimited env.send = some n) :
    (sendTgMessage l m env).err = none ∧
      (sendTgMessage l m env).state = { l with floodWait := secondsDuration n } := by
  unfold sendTgMessage
  cases he : env.send with
  | failed => rw [he] at h; simp [rateLimited] at h
  | resp r =>
    rw [he] at h
    obtain ⟨hok, hh⟩ := rateLimited_handleError l r n h
    simp [hok, hh]

theorem initializeTg_rateLimited (l : TelegramLogger) (env : Remote) (n : Int)
    (h : rateLimited env.init = some n) :
    (initializeTg l env).err = none ∧
      (initializeTg l env).state = { l with floodWait := secondsDuration n } := by
  unfold initializeTg
  cases he : env.init with
  | failed => rw [he] at h; simp [rateLimited] at h
  | resp r =>
    rw [he] at h
    obtain ⟨hok, hh⟩ := rateLimited_handleError l r n h
    simp [hok, hh]

theorem sendAsFile_rateLimited (l : TelegramLogger) (logs : List Byte) (env : Remote) (n : Int)
    (h : rateLimited env.file = some n) :
    (sendAsFile l logs env).err = none ∧
      (sendAsFile l logs env).state = { l with floodWait := secondsDuration n } := by
  unfold sendAsFile
  cases he : env.file with
  | failed => rw [he] at h; simp [rateLimited] at h
  | resp r =>
    rw [he] at h
    obtain ⟨hok, hh⟩ := rateLimited_handleError l r n h
    simp [hok, hh]

/-- When the last request of `compose` is rate limited, `compose` returns no error and leaves
`floodWait` at the seconds value of that reply. -/
theorem compose_rateLimited (l : TelegramLogger) (msg : List Byte) (env : Remote) (n : Int)
    (c : Call) (hlast : (compose l msg env).calls.getLast? = some c)
    (hrl : rateLimited (replyOf env c) = some n) :
    (compose l msg env).err = none ∧
      (compose l msg env).state.floodWait = secondsDuration n := by
  unfold compose at hlast ⊢
  dsimp only at hlast ⊢
  split_ifs at hlast ⊢ with hlen hne
  · -- overflow, head edited
    unfold Outcome.andThen at hlast ⊢
    cases herr : (editTgMessage l _ env).err with
    | some e =>
      simp only [herr] at hlast ⊢
      rw [editTgMessage_calls] at hlast
      simp only [List.getLast?_singleton, Option.some.injEq] at hlast
      subst hlast
      rw [(editTgMessage_rateLimited l _ env n hrl).1] at herr
      cases herr
    | none =>
      simp only [herr] at hlast ⊢
      rw [editTgMessage_calls, sendTgMessage_calls] at hlast
      simp at hlast
      subst hlast
      have h2 := fun l1 m => sendTgMessage_rateLimited l1 m env n hrl
      exact ⟨(h2 _ _).1, by rw [(h2 _ _).2]⟩
  · -- overflow, head unchanged
    unfold Outcome.andThen at hlast ⊢
    simp only at hlast ⊢
    rw [sendTgMessage_calls] at hlast
    simp at hlast
    subst hlast
    have h2 := fun l1 m => sendTgMessage_rateLimited l1 m env n hrl
    exact ⟨(h2 _ _).1, by rw [(h2 _ _).2]⟩
  · -- in place
    unfold Outcome.andThen at hlast ⊢
    cases herr : (editTgMessage l (l.currentMsg ++ msg) env).err with
    | some e =>
      simp only [herr] at hlast ⊢
      rw [editTgMessage_calls] at hlast
      simp only [List.getLast?_singleton, Option.some.injEq] at hlast
      subst hlast
      rw [(editTgMessage_rateLimited l _ env n hrl).1] at herr
      cases herr
    | none =>
      simp only [herr] at hlast ⊢
      rw [editTgMessage_calls] at hlast
      simp at hlast
      subst hlast
      have h2 := editTgMessage_rateLimited l (l.currentMsg ++ msg) env n hrl
      exact ⟨trivial, by rw [h2.2]⟩

theorem compose_calls_ne_nil (l : TelegramLogger) (msg : List Byte) (env : Remote) :
    (compose l msg env).calls ≠ [] := by
  unfold compose
  dsimp only
  split_ifs with hlen hne
  · unfold Outcome.andThen
    split
    · rw [editTgMessage_calls]; exact List.cons_ne_nil _ _
    · simp [sendTgMessage_calls]
  · unfold Outcome.andThen
    simp [sendTgMessage_calls]
  · unfold Outcome.andThen
    split
    · rw [editTgMessage_calls]; exact List.cons_ne_nil _ _
    · simp [editTgMessage_calls]

theorem andThen_of_err (o : Outcome) (k : TelegramLogger → Outcome) (e : Err)
    (h : o.err = some e) : o.andThen k = o := by
  unfold Outcome.andThen
  rw [h]

theorem andThen_of_ok (o : Outcome) (k : TelegramLogger → Outcome) (h : o.err = none) :
    o.andThen k = ⟨(k o.state).state, o.calls ++ (k o.state).calls, (k o.state).err⟩ := by
  unfold Outcome.andThen
  rw [h]

/-- When the last request of `deliver` is rate limited, `deliver` returns no error and leaves
`floodWait` at the seconds value of that reply. -/
theorem deliver_rateLimited (l : TelegramLogger) (msg : List Byte) (env : Remote) (n : Int)
    (c : Call) (hlast : (deliver l msg env).calls.getLast? = some c)
    (hrl : rateLimited (replyOf env c) = some n) :
    (deliver l msg env).err = none ∧
      (deliver l msg env).state.floodWait = secondsDuration n := by
  unfold deliver at hlast ⊢
  cases herr : (if l.messageID = 0 then initializeTg l env else ⟨l, [], none⟩).err with
  | some e =>
    rw [andThen_of_err _ _ e herr] at hlast ⊢
    split_ifs at herr hlast with hid
    · rw [initializeTg_calls] at hlast
      simp only [List.getLast?_singleton, Option.some.injEq] at hlast
      subst hlast
      rw [(initializeTg_rateLimited l env n hrl).1] at herr
      cases herr
  | none =>
    rw [andThen_of_ok _ _ herr] at hlast ⊢
    simp only at hlast ⊢
    rw [List.getLast?_append_of_ne_nil _ (compose_calls_ne_nil _ msg env)] at hlast
    exact compose_rateLimited _ msg env n c hlast hrl

/-- C6 (amended): if the last request of a flush is answered with a rate-limit response carrying
`retry_after = n > 0`, then `sendLogs` returns no error and sets `floodWait` to `n` seconds; the
flush still has its effect on the rest of the state: the consumed prefix (the file content, or
the text chunk, which is not empty) has left the buffer and is not put back, the line counter is
0 and the last-flush timestamp is the time of the flush. -/
theorem sendLogs_rate_limited (l : TelegramLogger) (now : Time) (env : Remote) (n : Int)
    (c : Call) (hlast : (sendLogs l now env).calls.getLast? = some c)
    (hrl : rateLimited (replyOf env c) = some n) :
    (sendLogs l now env).err = none ∧
      (sendLogs l now env).state.floodWait = secondsDuration n ∧
      l.logBuffer = consumed l ++ (sendLogs l now env).state.logBuffer ∧
      (consumed l ≠ [] ∨ l.config.PendingLogsSize < (l.logBuffer.length : Int)) ∧
      (sendLogs l now env).state.lines = 0 ∧
      (sendLogs l now env).state.lastLogUpdate = now := by
  have hpre := (show l.logBuffer = consumed l ++ (sendLogs l now env).state.logBuffer by rw [sendLogs_logBuffer]; exact consumed_append_drop l)
  by_cases hne : l.logBuffer = []
  · rw [sendLogs_empty l now env hne] at hlast
    simp at hlast
  · have hlen : l.logBuffer.length ≠ 0 := by simpa using hne
    by_cases hbig : (l.logBuffer.length : Int) > l.config.PendingLogsSize
    · have hcons : consumed l = l.logBuffer.take (fileCut l.logBuffer) := by
        unfold consumed
        rw [if_neg hlen, if_pos hbig]
      rw [sendLogs_file l now env hne hbig] at hlast ⊢
      rw [sendAsFile_calls] at hlast
      simp only [List.getLast?_singleton, Option.some.injEq] at hlast
      subst hlast
      have h2 := fun l1 logs => sendAsFile_rateLimited l1 logs env n hrl
      refine ⟨(h2 _ _).1, by rw [(h2 _ _).2], ?_, ?_, ?_, ?_⟩
      · rw [← sendLogs_file l now env hne hbig]; exact hpre
      · exact Or.inr hbig
      · rw [sendAsFile_frame untouched_lines]
      · rw [sendAsFile_frame untouched_lastLogUpdate]
    · have hle := not_lt.mp hbig
      by_cases hmsg : textChunk l.logBuffer = []
      · rw [sendLogs_stall l now env hne hle hmsg] at hlast
        simp at hlast
      · have hcons : consumed l = textChunk l.logBuffer := by
          unfold consumed
          rw [if_neg hlen, if_neg hbig]
        rw [sendLogs_text l now env hne hle hmsg] at hlast ⊢
        have h2 := deliver_rateLimited _ _ env n c hlast hrl
        refine ⟨h2.1, h2.2, ?_, ?_, ?_, ?_⟩
        · rw [← sendLogs_text l now env hne hle hmsg]; exact hpre
        · left; rw [hcons]; exact hmsg
        · rw [deliver_frame untouched_lines]
        · rw [deliver_frame untouched_lastLogUpdate]

/-- Witness of C6 (amended): a live message, the buffer "\nb\n", and an edit answered with a
rate limit of 5 seconds. -/
theorem sendLogs_rate_limited_witness :
    (sendLogs liveState (clock 8) floodOnEditRemote).calls.getLast?
        = some (Call.editTgMessage 7 [97, 10, 98]) ∧
      rateLimited (replyOf floodOnEditRemote (Call.editTgMessage 7 [97, 10, 98])) = some 5 ∧
      (sendLogs liveState (clock 8) floodOnEditRemote).err = none ∧
      (sendLogs liveState (clock 8) floodOnEditRemote).state.floodWait = secondsDuration 5 ∧
      liveState.logBuffer
        = consumed liveState ++ (sendLogs liveState (clock 8) floodOnEditRemote).state.logBuffer ∧
      (consumed liveState ≠ [] ∨
        liveState.config.PendingLogsSize < (liveState.logBuffer.length : Int)) ∧
      (sendLogs liveState (clock 8) floodOnEditRemote).state.lines = 0 ∧
      (sendLogs liveState (clock 8) floodOnEditRemote).state.lastLogUpdate = clock 8 :=
  ⟨by decide, by decide,
    sendLogs_rate_limited liveState (clock 8) floodOnEditRemote 5
      (Call.editTgMessage 7 [97, 10, 98]) (by decide) (by decide)⟩

/-- C6 as stated fails: with a live message showing "a", the buffer "\nb\n" and one counted
line, an edit answered with a rate limit of 5 seconds makes `sendLogs` return no error and set
`floodWait` to 5 seconds, but the flush is not without effect: the chunk "\nb" has left the
buffer, the line counter is 0 and the current message text has become "a\nb". -/
theorem sendLogs_rate_limit_effect_counterexample :
    rateLimited floodOnEditRemote.edit = some 5 ∧
      (sendLogs liveState (clock 8) floodOnEditRemote).calls
        = [Call.editTgMessage 7 [97, 10, 98]] ∧
      (sendLogs liveState (clock 8) floodOnEditRemote).err = none ∧
      (sendLogs liveState (clock 8) floodOnEditRemote).state.floodWait = 5 * Second ∧
      liveState.logBuffer = [10, 98, 10] ∧
      (sendLogs liveState (clock 8) floodOnEditRemote).state.logBuffer = [10] ∧
      liveState.lines = 1 ∧
      (sendLogs liveState (clock 8) floodOnEditRemote).state.lines = 0 ∧
      liveState.currentMsg = [97] ∧
      (sendLogs liveState (clock 8) floodOnEditRemote).state.currentMsg = [97, 10, 98] := by
  decide

/-! ## C10: message identifier and current message text -/

theorem editTgMessage_ok (l : TelegramLogger) (m : List Byte) (env : Remote)
    (h : goodEdit env.edit = true) :
    editTgMessage l m env = ⟨l, [Call.editTgMessage l.messageID m], none⟩ := by
  unfold editTgMessage
  cases he : env.edit with
  | failed => rw [he] at h; simp [goodEdit] at h
  | resp r =>
    rw [he] at h
    simp only [goodEdit] at h
    simp [h]

theorem sendTgMessage_ok (l : TelegramLogger) (m : List Byte) (env : Remote)
    (h : goodCreate env.send = true) :
    ∃ msgID : Int, msgID ≠ 0 ∧
      sendTgMessage l m env = ⟨{ l with messageID := msgID }, [Call.sendTgMessage m], none⟩ := by
  unfold sendTgMessage
  cases he : env.send with
  | failed => rw [he] at h; simp [goodCreate] at h
  | resp r =>
    rw [he] at h
    simp only [goodCreate, Bool.and_eq_true] at h
    cases hid : r.messageID with
    | none => rw [hid] at h; simp at h
    | some i =>
      rw [hid] at h
      simp only [decide_eq_true_eq] at h
      exact ⟨i, h.2, by simp [h.1, hid]⟩

theorem initializeTg_ok (l : TelegramLogger) (env : Remote) (h : goodCreate env.init = true) :
    ∃ msgID : Int, msgID ≠ 0 ∧
      initializeTg l env = ⟨{ l with messageID := msgID }, [Call.initializeCall], none⟩ := by
  unfold initializeTg
  cases he : env.init with
  | failed => rw [he] at h; simp [goodCreate] at h
  | resp r =>
    rw [he] at h
    simp only [goodCreate, Bool.and_eq_true] at h
    cases hid : r.messageID with
    | none => rw [hid] at h; simp at h
    | some i =>
      rw [hid] at h
      simp only [decide_eq_true_eq] at h
      exact ⟨i, h.2, by simp [h.1, hid]⟩

theorem splitPoint_le (c : List Byte) : splitPoint c ≤ 4000 := by
  unfold splitPoint
  cases h : LastIndex (c.take 4000) with
  | none => simp
  | some i =>
    have := LastIndex_lt_length _ i h
    simp only [List.length_take] at this
    simp only [Option.getD_some]
    omega

/-- With successful replies and a non-empty chunk, `compose` ends with a live message showing a
non-empty text. -/
theorem compose_allSucceed (l : TelegramLogger) (msg : List Byte) (env : Remote)
    (h : allSucceed env) (hid : l.messageID ≠ 0) (hmsg : msg ≠ []) :
    (compose l msg env).state.messageID ≠ 0 ∧ (compose l msg env).state.currentMsg ≠ [] := by
  obtain ⟨_, hedit, hsend⟩ := h
  have hcomp : l.currentMsg ++ msg ≠ [] := by simp [hmsg]
  unfold compose
  dsimp only
  split_ifs with hlen hne
  · rw [editTgMessage_ok l _ env hedit, andThen_of_ok _ _ rfl]
    obtain ⟨i, hi, hs⟩ := sendTgMessage_ok
      { l with currentMsg := (l.currentMsg ++ msg).drop (splitPoint (l.currentMsg ++ msg)) }
      ((l.currentMsg ++ msg).drop (splitPoint (l.currentMsg ++ msg))) env hsend
    simp only [hs]
    refine ⟨hi, ?_⟩
    intro h0
    have := congrArg List.length h0
    have hp := splitPoint_le (l.currentMsg ++ msg)
    simp only [List.length_drop, List.length_nil] at this
    omega
  · rw [andThen_of_ok _ _ rfl]
    obtain ⟨i, hi, hs⟩ := sendTgMessage_ok
      { l with currentMsg := (l.currentMsg ++ msg).drop (splitPoint (l.currentMsg ++ msg)) }
      ((l.currentMsg ++ msg).drop (splitPoint (l.currentMsg ++ msg))) env hsend
    simp only [hs]
    refine ⟨hi, ?_⟩
    intro h0
    have := congrArg List.length h0
    have hp := splitPoint_le (l.currentMsg ++ msg)
    simp only [List.length_drop, List.length_nil] at this
    omega
  · rw [editTgMessage_ok l _ env hedit, andThen_of_ok _ _ rfl]
    exact ⟨hid, hcomp⟩

theorem deliver_allSucceed (l : TelegramLogger) (msg : List Byte) (env : Remote)
    (h : allSucceed env) (hmsg : msg ≠ []) :
    (deliver l msg env).state.messageID ≠ 0 ∧ (deliver l msg env).state.currentMsg ≠ [] := by
  unfold deliver
  split_ifs with hid
  · obtain ⟨i, hi, hs⟩ := initializeTg_ok l env h.1
    rw [hs, andThen_of_ok _ _ rfl]
    exact compose_allSucceed _ msg env h hi hmsg
  · rw [andThen_of_ok _ _ rfl]
    exact compose_allSucceed _ msg env h hid hmsg

theorem sendAsFile_messageID (l : TelegramLogger) (logs : List Byte) (env : Remote) :
    (sendAsFile l logs env).state.messageID = l.messageID ∧
      (sendAsFile l logs env).state.currentMsg = l.currentMsg := by
  unfold sendAsFile handleError
  split
  · exact ⟨rfl, rfl⟩
  · split
    · exact ⟨rfl, rfl⟩
    · split_ifs <;> exact ⟨rfl, rfl⟩

theorem sendLogs_thread_invariant (l : TelegramLogger) (now : Time) (env : Remote)
    (h : allSucceed env) (hinv : l.messageID = 0 ↔ l.currentMsg = []) :
    (sendLogs l now env).state.messageID = 0 ↔ (sendLogs l now env).state.currentMsg = [] := by
  by_cases hne : l.logBuffer = []
  · rw [sendLogs_empty l now env hne]
    simpa using hinv
  · by_cases hbig : (l.logBuffer.length : Int) > l.config.PendingLogsSize
    · rw [sendLogs_file l now env hne hbig, (sendAsFile_messageID _ _ env).1,
        (sendAsFile_messageID _ _ env).2]
      simp
    · have hle := not_lt.mp hbig
      by_cases hmsg : textChunk l.logBuffer = []
      · rw [sendLogs_stall l now env hne hle hmsg]
        simpa using hinv
      · rw [sendLogs_text l now env hne hle hmsg]
        have := deliver_allSucceed
          { clearFloodWait l with
            logBuffer := l.logBuffer.drop (textChunk l.logBuffer).length, lines := 0,
            lastLogUpdate := now } (textChunk l.logBuffer) env h hmsg
        constructor
        · intro h0; exact absurd h0 this.1
        · intro h0; exact absurd h0 this.2

/-- C10 (amended): in every sink state reachable from the initial state by writes and flushes in
which every create-message and edit-message request succeeds (creations with a non-zero message
identifier), the active message identifier is absent (`messageID = 0`) if and only if the current
message text is empty. -/
theorem thread_invariant (config : Config) (l : TelegramLogger)
    (h : Reachable allSucceed config l) : l.messageID = 0 ↔ l.currentMsg = [] := by
  induction h with
  | initial => exact ⟨fun _ => rfl, fun _ => rfl⟩
  | record l p _ ih => exact ih
  | flush l now env _ henv ih => exact sendLogs_thread_invariant l now env henv ih

theorem okRemote_allSucceed : allSucceed okRemote :=
  ⟨by decide, by decide, by decide⟩

/-- Witness of C10 (amended): the state after the write "a" and a `sendLogs` call with successful
replies. -/
theorem thread_invariant_witness :
    Reachable allSucceed quietConfig
        (sendLogs (record (initialLogger quietConfig) [97]) (clock 4) okRemote).state ∧
      (run false (initialLogger quietConfig)
          [Event.write [97] (okMirror 1) (clock 4) (clock 4) okRemote,
            Event.flush (clock 4) okRemote]).state =
        (sendLogs (record (initialLogger quietConfig) [97]) (clock 4) okRemote).state ∧
      ((sendLogs (record (initialLogger quietConfig) [97]) (clock 4) okRemote).state.messageID = 0 ↔
        (sendLogs (record (initialLogger quietConfig) [97]) (clock 4) okRemote).state.currentMsg =
          []) :=
  ⟨Reachable.flush _ _ _ (Reachable.record _ _ Reachable.initial) okRemote_allSucceed,
    by decide,
    thread_invariant quietConfig _
      (Reachable.flush _ _ _ (Reachable.record _ _ Reachable.initial) okRemote_allSucceed)⟩

/-- C10 as stated fails: the write "a" is recorded and returns, the `sendLogs` call that follows,
made with the mutex free, creates the placeholder message 7, its edit fails in the transport, and
the state reached has an active message identifier and an empty current message text. -/
theorem thread_invariant_counterexample :
    Reachable (fun _ => True) quietConfig
        (sendLogs (record (initialLogger quietConfig) [97]) (clock 4) failOnEditRemote).state ∧
      (sendLogs (record (initialLogger quietConfig) [97]) (clock 4)
        failOnEditRemote).state.messageID = 7 ∧
      (sendLogs (record (initialLogger quietConfig) [97]) (clock 4)
        failOnEditRemote).state.currentMsg = [] ∧
      (sendLogs (record (initialLogger quietConfig) [97]) (clock 4) failOnEditRemote).calls =
        [Call.initializeCall, Call.editTgMessage 7 [97]] ∧
      run false (initialLogger quietConfig)
          [Event.write [97] (okMirror 1) (clock 4) (clock 4) failOnEditRemote,
            Event.flush (clock 4) failOnEditRemote] =
        ⟨(sendLogs (record (initialLogger quietConfig) [97]) (clock 4) failOnEditRemote).state,
          false, [Call.initializeCall, Call.editTgMessage 7 [97]],
          [some (1, none), some (0, some Err.transport)]⟩ :=
  ⟨Reachable.flush _ _ _ (Reachable.record _ _ Reachable.initial) trivial, by decide, by decide,
    by decide, by decide⟩

/-! ## C2: size of the message bodies -/

theorem textChunk_of_last_newline (msg : List Byte) (h : msg.length < 4000) :
    textChunk (msg ++ [NL]) = msg := by
  have htake : (msg ++ [NL]).take 4000 = msg ++ [NL] :=
    List.take_of_length_le (by simp only [List.length_append, List.length_singleton]; omega)
  have hlast : LastIndex ((msg ++ [NL]).take 4000) = some msg.length := by
    rw [htake]
    exact LastIndex_append_nl msg [] (List.not_mem_nil _)
  rw [textChunk_of_some _ _ hlast]
  exact List.take_left' rfl

theorem deliver_live (l : TelegramLogger) (msg : List Byte) (env : Remote)
    (hid : l.messageID ≠ 0) : deliver l msg env = compose l msg env := by
  unfold deliver
  rw [if_neg hid, andThen_of_ok _ _ rfl]
  simp only [List.nil_append]

theorem compose_inplace_ok (l : TelegramLogger) (msg : List Byte) (env : Remote)
    (hedit : goodEdit env.edit = true) (hlen : (l.currentMsg ++ msg).length ≤ 4000) :
    compose l msg env =
      ⟨{ l with currentMsg := l.currentMsg ++ msg },
        [Call.editTgMessage l.messageID (l.currentMsg ++ msg)], none⟩ := by
  unfold compose
  dsimp only
  rw [if_neg (not_lt.mpr hlen), editTgMessage_ok l _ env hedit, andThen_of_ok _ _ rfl]
  simp only [List.append_nil]

theorem compose_overflow_ok (l : TelegramLogger) (msg : List Byte) (env : Remote) (i : Int)
    (hedit : goodEdit env.edit = true) (hsend : env.send = okReply i)
    (hlen : 4000 < (l.currentMsg ++ msg).length)
    (hne : (l.currentMsg ++ msg).take (splitPoint (l.currentMsg ++ msg)) ≠ l.currentMsg) :
    compose l msg env =
      ⟨{ l with
          currentMsg := (l.currentMsg ++ msg).drop (splitPoint (l.currentMsg ++ msg)),
          messageID := i },
        [Call.editTgMessage l.messageID
            ((l.currentMsg ++ msg).take (splitPoint (l.currentMsg ++ msg))),
          Call.sendTgMessage ((l.currentMsg ++ msg).drop (splitPoint (l.currentMsg ++ msg)))],
        none⟩ := by
  unfold compose
  dsimp only
  rw [if_pos hlen, if_pos hne, editTgMessage_ok l _ env hedit, andThen_of_ok _ _ rfl]
  simp only [sendTgMessage, hsend, okReply]
  rfl

theorem record_logBuffer_ne_nil (l : TelegramLogger) (p : List Byte) :
    (record l p).logBuffer ≠ [] := by
  unfold record
  dsimp only
  split
  · rename_i h
    obtain ⟨q, hq⟩ := (HasSuffixNL_iff p).mp h
    rw [hq]
    simp
  · simp

theorem shouldUpdate_record (l : TelegramLogger) (p : List Byte) (now : Time)
    (h1 : Since now l.lastLogUpdate ≥ max l.config.UpdateInterval l.floodWait)
    (h2 : l.lines + 1 ≥ l.config.MinimumLines) : shouldUpdate (record l p) now = true := by
  have h3 : (record l p).logBuffer.length > 0 :=
    List.length_pos.mpr (record_logBuffer_ne_nil l p)
  unfold shouldUpdate
  simp only [Bool.and_eq_true, decide_eq_true_eq]
  exact ⟨⟨h1, h2⟩, h3⟩

theorem shouldUpdate_quiet (l : TelegramLogger) (p : List Byte) (now : Time)
    (h : l.lines + 1 < l.config.MinimumLines) : shouldUpdate (record l p) now = false := by
  have h2 : ¬ (record l p).lines ≥ (record l p).config.MinimumLines := not_le.mpr h
  unfold shouldUpdate
  simp only [decide_eq_false h2, Bool.and_false, Bool.false_and]

theorem run_nil (held : Bool) (l : TelegramLogger) : run held l [] = ⟨l, held, [], []⟩ :=
  rfl

/-- A write that is recorded without a flush, as a step of a run with the mutex free. -/
theorem run_write_quiet (l : TelegramLogger) (p : List Byte) (io : Mirror) (now flushNow : Time)
    (env : Remote) (es : List Event) (hfile : io.logFile.err = none)
    (hout : io.stdout.err = none)
    (hex : l.config.ExcludedLogPatterns.any (fun pattern => Contains p pattern) = false)
    (hupd : shouldUpdate (record l p) now = false) :
    run false l (Event.write p io now flushNow env :: es) =
      ⟨(run false (record l p) es).state, (run false (record l p) es).mu,
        (run false (record l p) es).calls,
        some (p.length, none) :: (run false (record l p) es).results⟩ := by
  rw [run, Write_quiet_eq l p io now flushNow env hfile hout hex hupd]
  rfl

/-- A direct `sendLogs` call as a step of a run with the mutex free. -/
theorem run_flush_free (l : TelegramLogger) (now : Time) (env : Remote) (es : List Event) :
    run false l (Event.flush now env :: es) =
      ⟨(run false (sendLogs l now env).state es).state,
        (run false (sendLogs l now env).state es).mu,
        (sendLogs l now env).calls ++ (run false (sendLogs l now env).state es).calls,
        some (0, (sendLogs l now env).err) ::
          (run false (sendLogs l now env).state es).results⟩ :=
  rfl

theorem overflowRun1_flush :
    sendLogs (record (initialLogger quietConfig) [97]) (clock 4) okRemote =
      ⟨overflowState1, [Call.initializeCall, Call.editTgMessage 7 [97]], none⟩ := by
  decide

theorem filler_length : filler.length = 3998 := by
  unfold filler
  exact List.length_replicate _ _

theorem filler_no_newline : NL ∉ filler := by
  unfold filler
  intro h
  have := List.eq_of_mem_replicate h
  revert this
  decide

theorem filler_no_suffix : HasSuffixNL filler = false := by
  rw [← Bool.not_eq_true, HasSuffixNL_iff]
  rintro ⟨q, hq⟩
  apply filler_no_newline
  rw [hq]
  simp

theorem clearFloodWait_of_zero (l : TelegramLogger) (h : l.floodWait = 0) :
    clearFloodWait l = l := by
  unfold clearFloodWait
  rw [h]
  rfl

/-- A text flush from a state with a live message whose buffer is the chunk `msg` and one final
newline. -/
theorem sendLogs_live_chunk (l : TelegramLogger) (now : Time) (env : Remote) (msg : List Byte)
    (hbuf : l.logBuffer = msg ++ [NL]) (hmsg : msg ≠ []) (hlen : msg.length < 4000)
    (hpend : (msg.length : Int) + 1 ≤ l.config.PendingLogsSize) (hid : l.messageID ≠ 0)
    (hflood : l.floodWait = 0) :
    sendLogs l now env =
      compose { l with logBuffer := [NL], lines := 0, lastLogUpdate := now } msg env := by
  have hchunk : textChunk l.logBuffer = msg := by
    rw [hbuf]
    exact textChunk_of_last_newline msg hlen
  have hne : l.logBuffer ≠ [] := by
    rw [hbuf]
    simp
  have hle : (l.logBuffer.length : Int) ≤ l.config.PendingLogsSize := by
    rw [hbuf, List.length_append, List.length_singleton]
    push_cast
    exact hpend
  have hdrop : l.logBuffer.drop msg.length = [NL] := by
    rw [hbuf]
    exact List.drop_left' rfl
  rw [sendLogs_text l now env hne hle (by rw [hchunk]; exact hmsg), hchunk,
    clearFloodWait_of_zero l hflood, hdrop, deliver_live]
  exact hid

theorem overflowRun2_flush :
    sendLogs (record overflowState1 filler) (clock 8) okRemote =
      ⟨overflowState2, [Call.editTgMessage 7 (97 :: 10 :: filler)], none⟩ := by
  have hbuf : (record overflowState1 filler).logBuffer = (10 :: filler) ++ [NL] := by
    unfold record
    rw [filler_no_suffix]
    rfl
  rw [sendLogs_live_chunk (record overflowState1 filler) (clock 8) okRemote (10 :: filler)
      hbuf (List.cons_ne_nil _ _)
      (by rw [List.length_cons, filler_length]; decide)
      (by rw [List.length_cons, filler_length]; decide)
      (by decide) rfl]
  rw [compose_inplace_ok _ _ _ (by decide)
      (by
        show ([97] ++ 10 :: filler).length ≤ 4000
        rw [List.length_append, List.length_cons, List.length_cons, filler_length]
        decide)]
  rfl

theorem overflow_splitPoint : splitPoint ((97 :: 10 :: filler) ++ [10, 99]) = 1 := by
  have htake : ((97 :: 10 :: filler) ++ [10, 99]).take 4000 = 97 :: 10 :: filler :=
    List.take_left' (by rw [List.length_cons, List.length_cons, filler_length])
  unfold splitPoint
  rw [htake]
  have := LastIndex_append_nl [97] filler filler_no_newline
  rw [show (97 :: 10 :: filler) = [97] ++ NL :: filler from rfl, this]
  rfl

theorem overflowRun3_flush :
    sendLogs (record overflowState2 [99]) (clock 12) okRemote =
      ⟨{ overflowState2 with
          currentMsg := 10 :: filler ++ [10, 99], messageID := 8, lastLogUpdate := clock 12 },
        [Call.editTgMessage 7 [97], Call.sendTgMessage (10 :: filler ++ [10, 99])], none⟩ := by
  rw [sendLogs_live_chunk (record overflowState2 [99]) (clock 12) okRemote [10, 99]
      rfl (List.cons_ne_nil _ _) (by decide) (by decide) (by decide) rfl]
  rw [compose_overflow_ok _ _ _ 8 (by decide) rfl
      (by
        show 4000 < ((97 :: 10 :: filler) ++ [10, 99]).length
        rw [List.length_append, List.length_cons, List.length_cons, filler_length]
        decide)
      (by
        show ((97 :: 10 :: filler) ++ [10, 99]).take (splitPoint ((97 :: 10 :: filler) ++ [10, 99]))
          ≠ 97 :: 10 :: filler
        rw [overflow_splitPoint]
        intro h
        have := congrArg List.length h
        rw [List.length_take, List.length_append, List.length_cons, List.length_cons,
          filler_length] at this
        revert this
        decide)]
  show Outcome.mk _ _ _ = _
  have hp : splitPoint ((97 :: 10 :: filler) ++ [10, 99]) = 1 := overflow_splitPoint
  have hcur : (record overflowState2 [99]).currentMsg = 97 :: 10 :: filler := rfl
  simp only [hcur, hp]
  rfl

theorem overflowRun_eq :
    run false (initialLogger quietConfig) overflowEvents =
      ⟨{ overflowState2 with
          currentMsg := 10 :: filler ++ [10, 99], messageID := 8, lastLogUpdate := clock 12 },
        false,
        [Call.initializeCall, Call.editTgMessage 7 [97], Call.editTgMessage 7 (97 :: 10 :: filler),
          Call.editTgMessage 7 [97], Call.sendTgMessage (10 :: filler ++ [10, 99])],
        [some (1, none), some (0, none), some (3998, none), some (0, none), some (1, none),
          some (0, none)]⟩ := by
  unfold overflowEvents
  rw [run_write_quiet (initialLogger quietConfig) [97] (okMirror 1) (clock 4) (clock 4) okRemote _
      rfl rfl rfl (shouldUpdate_quiet _ _ _ (by decide)),
    run_flush_free, overflowRun1_flush]
  dsimp only
  rw [run_write_quiet overflowState1 filler (okMirror 3998) (clock 8) (clock 8) okRemote _
      rfl rfl rfl (shouldUpdate_quiet _ _ _ (by decide)),
    run_flush_free, overflowRun2_flush]
  dsimp only
  rw [run_write_quiet overflowState2 [99] (okMirror 1) (clock 12) (clock 12) okRemote _
      rfl rfl rfl (shouldUpdate_quiet _ _ _ (by decide)),
    run_flush_free, overflowRun3_flush]
  dsimp only
  rw [run_nil, filler_length]
  rfl

/-- C2 fails on the code: from the initial state with the mutex free, the writes "a", a 3998-byte
line and "c", each recorded without a flush and followed by a `sendLogs` call with successful
replies, end in an overflow split whose tail, sent by `sendTgMessage` as a new message, is 4001
bytes long; every call of the run returns. -/
theorem overflow_tail_exceeds_limit :
    (run false (initialLogger quietConfig) overflowEvents).calls =
        [Call.initializeCall, Call.editTgMessage 7 [97], Call.editTgMessage 7 (97 :: 10 :: filler),
          Call.editTgMessage 7 [97], Call.sendTgMessage (10 :: filler ++ [10, 99])] ∧
      (run false (initialLogger quietConfig) overflowEvents).results =
        [some (1, none), some (0, none), some (3998, none), some (0, none), some (1, none),
          some (0, none)] ∧
      (sendLogs overflowState3 (clock 12) okRemote).calls =
        [Call.editTgMessage 7 [97], Call.sendTgMessage (10 :: filler ++ [10, 99])] ∧
      (10 :: filler ++ [10, 99]).length = 4001 := by
  refine ⟨?_, ?_, ?_, ?_⟩
  · rw [overflowRun_eq]
  · rw [overflowRun_eq]
  · unfold overflowState3
    rw [overflowRun3_flush]
  · rw [List.cons_append, List.length_cons, List.length_append, filler_length]
    rfl

/-! ## C4: a flush consumes a prefix of the buffer -/

theorem andThen_calls_mem (o : Outcome) (k : TelegramLogger → Outcome) (c : Call)
    (h : c ∈ (o.andThen k).calls) : c ∈ o.calls ∨ c ∈ (k o.state).calls := by
  unfold Outcome.andThen at h
  split at h
  · exact Or.inl h
  · exact List.mem_append.mp h

theorem initializeTg_currentMsg (l : TelegramLogger) (env : Remote) :
    (initializeTg l env).state.currentMsg = l.currentMsg := by
  unfold initializeTg handleError
  split
  · rfl
  · split
    · split <;> rfl
    · split_ifs <;> rfl

theorem editTgMessage_currentMsg (l : TelegramLogger) (m : List Byte) (env : Remote) :
    (editTgMessage l m env).state.currentMsg = l.currentMsg := by
  unfold editTgMessage handleError
  split
  · rfl
  · split
    · rfl
    · split_ifs <;> rfl

/-- Every request of `compose` carries a piece of `currentMsg ++ msg`: an edit carries a prefix,
a new message carries a suffix. -/
theorem compose_calls_bodies (l : TelegramLogger) (msg : List Byte) (env : Remote) (c : Call)
    (h : c ∈ (compose l msg env).calls) :
    (∃ msgID m, c = Call.editTgMessage msgID m ∧ m <+: l.currentMsg ++ msg) ∨
      (∃ m, c = Call.sendTgMessage m ∧ m <:+ l.currentMsg ++ msg) := by
  unfold compose at h
  dsimp only at h
  split_ifs at h with hlen hne
  · rcases andThen_calls_mem _ _ c h with h1 | h1
    · rw [editTgMessage_calls, List.mem_singleton] at h1
      exact Or.inl ⟨_, _, h1, List.take_prefix _ _⟩
    · rw [sendTgMessage_calls, List.mem_singleton] at h1
      exact Or.inr ⟨_, h1, List.drop_suffix _ _⟩
  · rcases andThen_calls_mem _ _ c h with h1 | h1
    · simp at h1
    · rw [sendTgMessage_calls, List.mem_singleton] at h1
      exact Or.inr ⟨_, h1, List.drop_suffix _ _⟩
  · rcases andThen_calls_mem _ _ c h with h1 | h1
    · rw [editTgMessage_calls, List.mem_singleton] at h1
      exact Or.inl ⟨_, _, h1, List.prefix_refl _⟩
    · simp at h1

theorem deliver_calls_bodies (l : TelegramLogger) (msg : List Byte) (env : Remote) (c : Call)
    (h : c ∈ (deliver l msg env).calls) :
    c = Call.initializeCall ∨
      (∃ msgID m, c = Call.editTgMessage msgID m ∧ m <+: l.currentMsg ++ msg) ∨
      (∃ m, c = Call.sendTgMessage m ∧ m <:+ l.currentMsg ++ msg) := by
  unfold deliver at h
  rcases andThen_calls_mem _ _ c h with h1 | h1
  · split_ifs at h1
    · rw [initializeTg_calls, List.mem_singleton] at h1
      exact Or.inl h1
    · simp at h1
  · right
    have hcur : (if l.messageID = 0 then initializeTg l env
        else ⟨l, [], none⟩).state.currentMsg = l.currentMsg := by
      split_ifs
      · exact initializeTg_currentMsg l env
      · rfl
    have := compose_calls_bodies _ msg env c h1
    rw [hcur] at this
    exact this

theorem deliver_calls_bodies_of_eq (l : TelegramLogger) (msg : List Byte) (env : Remote)
    (cur : List Byte) (hcur : l.currentMsg = cur) (c : Call)
    (h : c ∈ (deliver l msg env).calls) :
    c = Call.initializeCall ∨
      (∃ msgID m, c = Call.editTgMessage msgID m ∧ m <+: cur ++ msg) ∨
      (∃ m, c = Call.sendTgMessage m ∧ m <:+ cur ++ msg) := by
  rw [← hcur]
  exact deliver_calls_bodies l msg env c h

/-- C4: for every state and every outcome of the remote calls, the buffer before `sendLogs` is the
consumed part (file content or text chunk) followed by the buffer after it, so nothing is put
back when a call fails.  The consumed part is what goes out: an uploaded file is the consumed
part, an edited message shows a prefix and a new message a suffix of the current message text
followed by the consumed part. -/
theorem sendLogs_consumes_prefix (l : TelegramLogger) (now : Time) (env : Remote) :
    l.logBuffer = consumed l ++ (sendLogs l now env).state.logBuffer ∧
      (∀ logs, Call.sendAsFile logs ∈ (sendLogs l now env).calls → logs = consumed l) ∧
      (∀ msgID m, Call.editTgMessage msgID m ∈ (sendLogs l now env).calls →
        m <+: l.currentMsg ++ consumed l) ∧
      (∀ m, Call.sendTgMessage m ∈ (sendLogs l now env).calls →
        m <:+ l.currentMsg ++ consumed l) := by
  refine ⟨by rw [sendLogs_logBuffer]; exact consumed_append_drop l, ?_⟩
  by_cases hne : l.logBuffer = []
  · rw [sendLogs_empty l now env hne]
    simp
  · have hlen : l.logBuffer.length ≠ 0 := by simpa using hne
    by_cases hbig : (l.logBuffer.length : Int) > l.config.PendingLogsSize
    · have hcons : consumed l = l.logBuffer.take (fileCut l.logBuffer) := by
        unfold consumed
        rw [if_neg hlen, if_pos hbig]
      rw [sendLogs_file l now env hne hbig, sendAsFile_calls, hcons]
      simp
    · have hle := not_lt.mp hbig
      by_cases hmsg : textChunk l.logBuffer = []
      · rw [sendLogs_stall l now env hne hle hmsg]
        simp
      · have hcons : consumed l = textChunk l.logBuffer := by
          unfold consumed
          rw [if_neg hlen, if_neg hbig]
        rw [sendLogs_text l now env hne hle hmsg, hcons]
        have hb := fun c hc => deliver_calls_bodies_of_eq
          { clearFloodWait l with
            logBuffer := l.logBuffer.drop (textChunk l.logBuffer).length, lines := 0,
            lastLogUpdate := now } (textChunk l.logBuffer) env l.currentMsg
          (clearFloodWait_currentMsg l) c hc
        refine ⟨?_, ?_, ?_⟩
        · intro logs hmem
          rcases hb _ hmem with h | ⟨_, _, h, _⟩ | ⟨_, h, _⟩ <;> cases h
        · intro msgID m hmem
          rcases hb _ hmem with h | ⟨_, _, h, hp⟩ | ⟨_, h, _⟩
          · cases h
          · cases h; exact hp
          · cases h
        · intro m hmem
          rcases hb _ hmem with h | ⟨_, _, h, _⟩ | ⟨_, h, hs⟩
          · cases h
          · cases h
          · cases h; exact hs

/-! ## The part of the size bound that holds: edited messages -/

theorem compose_edit_body_le (l : TelegramLogger) (msg : List Byte) (env : Remote)
    (msgID : Int) (m : List Byte) (h : Call.editTgMessage msgID m ∈ (compose l msg env).calls) :
    m.length ≤ 4000 := by
  unfold compose at h
  dsimp only at h
  split_ifs at h with hlen hne
  · rcases andThen_calls_mem _ _ _ h with h1 | h1
    · rw [editTgMessage_calls, List.mem_singleton] at h1
      cases h1
      rw [List.length_take]
      exact le_trans (Nat.min_le_left _ _) (splitPoint_le _)
    · rw [sendTgMessage_calls, List.mem_singleton] at h1
      cases h1
  · rcases andThen_calls_mem _ _ _ h with h1 | h1
    · simp at h1
    · rw [sendTgMessage_calls, List.mem_singleton] at h1
      cases h1
  · rcases andThen_calls_mem _ _ _ h with h1 | h1
    · rw [editTgMessage_calls, List.mem_singleton] at h1
      cases h1
      exact not_lt.mp hlen
    · simp at h1

/-- The body of every edit-message request of a flush is at most 4000 bytes long, from every
state and with every reply. -/
theorem sendLogs_edit_body_le (l : TelegramLogger) (now : Time) (env : Remote) (msgID : Int)
    (m : List Byte) (h : Call.editTgMessage msgID m ∈ (sendLogs l now env).calls) :
    m.length ≤ 4000 := by
  by_cases hne : l.logBuffer = []
  · rw [sendLogs_empty l now env hne] at h
    simp at h
  · by_cases hbig : (l.logBuffer.length : Int) > l.config.PendingLogsSize
    · rw [sendLogs_file l now env hne hbig, sendAsFile_calls] at h
      simp at h
    · have hle := not_lt.mp hbig
      by_cases hmsg : textChunk l.logBuffer = []
      · rw [sendLogs_stall l now env hne hle hmsg] at h
        simp at h
      · rw [sendLogs_text l now env hne hle hmsg] at h
        unfold deliver at h
        rcases andThen_calls_mem _ _ _ h with h1 | h1
        · split_ifs at h1
          · rw [initializeTg_calls, List.mem_singleton] at h1
            cases h1
          · simp at h1
        · exact compose_edit_body_le _ _ env msgID m h1

/-! ## C11 and C18: the line counter and the stalled flush -/

theorem textChunk_stall (t : List Byte) (h : NL ∉ t.take 3999) : textChunk (NL :: t) = [] := by
  have hlast : LastIndex ((NL :: t).take 4000) = some 0 := by
    rw [show (NL :: t).take 4000 = [] ++ NL :: t.take 3999 from rfl]
    exact LastIndex_append_nl [] (t.take 3999) h
  rw [textChunk_of_some _ 0 hlast]
  rfl

/-- A buffer that starts with a newline and has no other newline among its first 4000 bytes is
not flushed on the text path. -/
theorem sendLogs_stalled (l : TelegramLogger) (now : Time) (env : Remote) (t : List Byte)
    (hbuf : l.logBuffer = NL :: t) (hnl : NL ∉ t.take 3999)
    (hle : (l.logBuffer.length : Int) ≤ l.config.PendingLogsSize) :
    sendLogs l now env = ⟨clearFloodWait l, [], none⟩ := by
  have hne : l.logBuffer ≠ [] := by rw [hbuf]; exact List.cons_ne_nil _ _
  exact sendLogs_stall l now env hne hle (by rw [hbuf]; exact textChunk_stall t hnl)

theorem longLine_length : longLine.length = 4000 := by
  unfold longLine
  rw [List.length_cons, List.length_cons, filler_length]

theorem longLine_no_newline : NL ∉ longLine := by
  unfold longLine
  intro h
  rcases List.mem_cons.mp h with h1 | h1
  · revert h1; decide
  · rcases List.mem_cons.mp h1 with h2 | h2
    · revert h2; decide
    · exact filler_no_newline h2

theorem longLine_no_suffix : HasSuffixNL longLine = false := by
  rw [← Bool.not_eq_true, HasSuffixNL_iff]
  rintro ⟨q, hq⟩
  apply longLine_no_newline
  rw [hq]
  simp

theorem stalledState_logBuffer : stalledState.logBuffer = NL :: (longLine ++ [NL]) := rfl

theorem stalledState_no_newline : NL ∉ (longLine ++ [NL]).take 3999 := by
  rw [List.take_append_of_le_length (by rw [longLine_length]; decide)]
  intro h
  exact longLine_no_newline (List.mem_of_mem_take h)

theorem stalledState_fits :
    (stalledState.logBuffer.length : Int) ≤ stalledState.config.PendingLogsSize := by
  rw [stalledState_logBuffer, List.length_cons, List.length_append, longLine_length]
  decide

theorem stalledState_recorded : record overflowState1 longLine = stalledState := by
  unfold record
  rw [longLine_no_suffix]
  rfl

/-- The state `stalledState` is what the run `stalledEvents` leaves; every call of it returns. -/
theorem stalledRun_eq :
    run false (initialLogger quietConfig) stalledEvents =
      ⟨stalledState, false, [Call.initializeCall, Call.editTgMessage 7 [97]],
        [some (1, none), some (0, none), some (4000, none)]⟩ := by
  unfold stalledEvents
  rw [run_write_quiet (initialLogger quietConfig) [97] (okMirror 1) (clock 4) (clock 4) okRemote _
      rfl rfl rfl (shouldUpdate_quiet _ _ _ (by decide)),
    run_flush_free, overflowRun1_flush]
  dsimp only
  rw [run_write_quiet overflowState1 longLine (okMirror 4000) (clock 8) (clock 8) okRemote _
      rfl rfl rfl (shouldUpdate_quiet _ _ _ (by decide)),
    run_nil, stalledState_recorded, longLine_length]
  rfl

/-- The state that a run leaves is reachable by record steps and flushes. -/
theorem run_reachable (P : Remote → Prop) (config : Config) (es : List Event) :
    ∀ (held : Bool) (l : TelegramLogger), Reachable P config l → flushesIn P es →
      Reachable P config (run held l es).state := by
  induction es with
  | nil => intro held l hl _; exact hl
  | cons e es ih =>
    intro held l hl hes
    cases e with
    | write p io now flushNow env =>
      have hstep : Reachable P config (Write held l p io now flushNow env).state := by
        rcases Write_state held l p io now flushNow env with h | h
        · rw [h]; exact hl
        · rw [h]; exact Reachable.record l p hl
      exact ih _ _ hstep hes
    | flush now env =>
      cases held
      · exact ih _ _ (Reachable.flush l now env hl hes.1) hes.2
      · exact ih _ _ hl hes.2

/-- C11 (amended): after `sendLogs` returns on the file path or on the text path with a non-empty
chunk, the line counter is 0 and the last-flush timestamp is the time of the flush; on a no-op
return, because the buffer is empty or the chunk is empty, no request is issued and the line
counter, the timestamp and the buffer are left as they were. -/
theorem sendLogs_counter (l : TelegramLogger) (now : Time) (env : Remote) :
    ((l.logBuffer = [] ∨
          ((l.logBuffer.length : Int) ≤ l.config.PendingLogsSize ∧ textChunk l.logBuffer = [])) ∧
        (sendLogs l now env).calls = [] ∧ (sendLogs l now env).err = none ∧
        (sendLogs l now env).state.lines = l.lines ∧
        (sendLogs l now env).state.lastLogUpdate = l.lastLogUpdate ∧
        (sendLogs l now env).state.logBuffer = l.logBuffer) ∨
      (l.logBuffer ≠ [] ∧
        (l.config.PendingLogsSize < (l.logBuffer.length : Int) ∨ textChunk l.logBuffer ≠ []) ∧
        (sendLogs l now env).state.lines = 0 ∧
        (sendLogs l now env).state.lastLogUpdate = now) := by
  by_cases hne : l.logBuffer = []
  · left
    rw [sendLogs_empty l now env hne]
    exact ⟨Or.inl hne, rfl, rfl, clearFloodWait_lines l, clearFloodWait_lastLogUpdate l,
      clearFloodWait_logBuffer l⟩
  · by_cases hbig : (l.logBuffer.length : Int) > l.config.PendingLogsSize
    · right
      rw [sendLogs_file l now env hne hbig, sendAsFile_frame untouched_lines,
        sendAsFile_frame untouched_lastLogUpdate]
      exact ⟨hne, Or.inl hbig, rfl, rfl⟩
    · have hle := not_lt.mp hbig
      by_cases hmsg : textChunk l.logBuffer = []
      · left
        rw [sendLogs_stall l now env hne hle hmsg]
        exact ⟨Or.inr ⟨hle, hmsg⟩, rfl, rfl, clearFloodWait_lines l,
          clearFloodWait_lastLogUpdate l, clearFloodWait_logBuffer l⟩
      · right
        rw [sendLogs_text l now env hne hle hmsg, deliver_frame untouched_lines,
          deliver_frame untouched_lastLogUpdate]
        exact ⟨hne, Or.inr hmsg, rfl, rfl⟩

/-- C11 as stated fails: in the state `stalledState`, whose buffer starts with a newline and has
no other newline among its first 4000 bytes, `sendLogs` returns on the empty chunk and the line
counter is 1 afterwards, not 0. -/
theorem sendLogs_counter_counterexample :
    (sendLogs stalledState (clock 12) okRemote).err = none ∧
      (sendLogs stalledState (clock 12) okRemote).calls = [] ∧
      (sendLogs stalledState (clock 12) okRemote).state.lines = 1 := by
  have h := sendLogs_stalled stalledState (clock 12) okRemote (longLine ++ [NL])
    stalledState_logBuffer stalledState_no_newline stalledState_fits
  rw [h]
  exact ⟨rfl, rfl, rfl⟩

/-- A flush on the text path of a buffer of fewer than 4000 bytes before its final newline takes
everything but that newline out of the buffer, whatever the remote replies. -/
theorem sendLogs_leaves_newline (l : TelegramLogger) (now : Time) (env : Remote)
    (msg : List Byte) (hbuf : l.logBuffer = msg ++ [NL]) (hlen : msg.length < 4000)
    (hle : (l.logBuffer.length : Int) ≤ l.config.PendingLogsSize) :
    (sendLogs l now env).state.logBuffer = [NL] := by
  have hne : l.logBuffer.length ≠ 0 := by
    rw [hbuf, List.length_append, List.length_singleton]
    exact Nat.succ_ne_zero _
  have hcons : consumed l = msg := by
    unfold consumed
    rw [if_neg hne, if_neg (not_lt.mpr hle), hbuf]
    exact textChunk_of_last_newline msg hlen
  rw [sendLogs_logBuffer, hcons, hbuf]
  exact List.drop_left' rfl

/-- Direct `sendLogs` calls alone, with the mutex free, leave a stalled state as it is. -/
theorem run_flushes_stalled (es : List Event)
    (hes : ∀ e ∈ es, ∃ now env, e = Event.flush now env) :
    ∀ (l : TelegramLogger) (t : List Byte), l.logBuffer = NL :: t → NL ∉ t.take 3999 →
      (l.logBuffer.length : Int) ≤ l.config.PendingLogsSize →
      (run false l es).calls = [] ∧ (run false l es).mu = false ∧
        (∀ r ∈ (run false l es).results, r = some (0, none)) ∧
        (run false l es).state.logBuffer = l.logBuffer ∧
        (run false l es).state.lines = l.lines ∧
        (run false l es).state.lastLogUpdate = l.lastLogUpdate ∧
        (run false l es).state.currentMsg = l.currentMsg ∧
        (run false l es).state.messageID = l.messageID ∧
        (run false l es).state.config = l.config := by
  induction es with
  | nil =>
    intro l t _ _ _
    exact ⟨rfl, rfl, fun r hr => absurd hr (List.not_mem_nil r), rfl, rfl, rfl, rfl, rfl, rfl⟩
  | cons e es ih =>
    intro l t hbuf hnl hle
    obtain ⟨now, env, rfl⟩ := hes e (List.mem_cons_self _ _)
    have hs := sendLogs_stalled l now env t hbuf hnl hle
    rw [run_flush_free, hs]
    dsimp only
    have hbuf1 : (clearFloodWait l).logBuffer = NL :: t := by
      rw [clearFloodWait_logBuffer]; exact hbuf
    have hle1 : ((clearFloodWait l).logBuffer.length : Int) ≤
        (clearFloodWait l).config.PendingLogsSize := by
      rw [clearFloodWait_logBuffer, clearFloodWait_config]; exact hle
    obtain ⟨h1, h2, h3, h4, h5, h6, h7, h8, h9⟩ :=
      ih (fun e he => hes e (List.mem_cons_of_mem _ he)) (clearFloodWait l) t hbuf1 hnl hle1
    refine ⟨?_, h2, ?_, ?_, ?_, ?_, ?_, ?_, ?_⟩
    · rw [h1]; rfl
    · intro r hr
      rcases List.mem_cons.mp hr with h | h
      · exact h
      · exact h3 r h
    · rw [h4, clearFloodWait_logBuffer]
    · rw [h5, clearFloodWait_lines]
    · rw [h6, clearFloodWait_lastLogUpdate]
    · rw [h7, clearFloodWait_currentMsg]
    · rw [h8, clearFloodWait_messageID]
    · rw [h9, clearFloodWait_config]

theorem record_after_newline (l : TelegramLogger) (p : List Byte) (hbuf : l.logBuffer = [NL])
    (hp : NL ∉ p) : (record l p).logBuffer = NL :: (p ++ [NL]) := by
  have hsuf : HasSuffixNL p = false := by
    rw [← Bool.not_eq_true, HasSuffixNL_iff]
    rintro ⟨q, hq⟩
    apply hp
    rw [hq]
    simp
  unfold record
  rw [hsuf, hbuf]
  rfl

/-- C18 (amended): a sink state whose buffer is at most `PendingLogsSize` bytes long, starts with
a newline and has no other newline among its first 4000 bytes is not flushed: `sendLogs` returns
nil, issues no request and leaves buffer, line counter, last-flush timestamp, current message
text, message identifier and configuration as they were, so repeated `sendLogs` calls alone make
no progress; when the buffer already holds at least 4000 bytes, writing more text keeps it
stalled as long as the buffer stays within `PendingLogsSize`.  A text flush of a buffer of fewer
than 4000 bytes before its final newline leaves the buffer "\n"; that buffer and
one write of a newline-free line of at least 4000 bytes that keeps the buffer within
`PendingLogsSize` give such a state, and the run of the write "a", a `sendLogs` call and the
write of a 4000-byte line, all of which return, reaches one from the initial state. -/
theorem stalled_flush :
    (∀ (l : TelegramLogger) (now : Time) (env : Remote) (t : List Byte),
        l.logBuffer = NL :: t → NL ∉ t.take 3999 →
        (l.logBuffer.length : Int) ≤ l.config.PendingLogsSize →
        (sendLogs l now env).err = none ∧ (sendLogs l now env).calls = [] ∧
          (sendLogs l now env).state.logBuffer = l.logBuffer ∧
          (sendLogs l now env).state.lines = l.lines ∧
          (sendLogs l now env).state.lastLogUpdate = l.lastLogUpdate ∧
          (sendLogs l now env).state.currentMsg = l.currentMsg ∧
          (sendLogs l now env).state.messageID = l.messageID ∧
          (sendLogs l now env).state.config = l.config) ∧
      (∀ (l : TelegramLogger) (t : List Byte) (es : List Event),
        l.logBuffer = NL :: t → NL ∉ t.take 3999 →
        (l.logBuffer.length : Int) ≤ l.config.PendingLogsSize →
        (∀ e ∈ es, ∃ now env, e = Event.flush now env) →
        (run false l es).calls = [] ∧ (run false l es).mu = false ∧
          (∀ r ∈ (run false l es).results, r = some (0, none)) ∧
          (run false l es).state.logBuffer = l.logBuffer ∧
          (run false l es).state.lines = l.lines ∧
          (run false l es).state.lastLogUpdate = l.lastLogUpdate ∧
          (run false l es).state.currentMsg = l.currentMsg ∧
          (run false l es).state.messageID = l.messageID ∧
          (run false l es).state.config = l.config) ∧
      (∀ (l : TelegramLogger) (p t : List Byte),
        l.logBuffer = NL :: t → NL ∉ t.take 3999 → 3999 ≤ t.length →
        ∃ t1, (record l p).logBuffer = NL :: t1 ∧ NL ∉ t1.take 3999) ∧
      (∀ (l : TelegramLogger) (now : Time) (env : Remote) (msg : List Byte),
        l.logBuffer = msg ++ [NL] → msg.length < 4000 →
        (l.logBuffer.length : Int) ≤ l.config.PendingLogsSize →
        (sendLogs l now env).state.logBuffer = [NL]) ∧
      (∀ (l : TelegramLogger) (p : List Byte),
        l.logBuffer = [NL] → NL ∉ p → 4000 ≤ p.length →
        ∃ t1, (record l p).logBuffer = NL :: t1 ∧ NL ∉ t1.take 3999) ∧
      (∃ (l : TelegramLogger) (t : List Byte),
        run false (initialLogger quietConfig) stalledEvents =
            ⟨l, false, [Call.initializeCall, Call.editTgMessage 7 [97]],
              [some (1, none), some (0, none), some (4000, none)]⟩ ∧
          Reachable (fun _ => True) quietConfig l ∧ l.logBuffer = NL :: t ∧
          NL ∉ t.take 3999 ∧ (l.logBuffer.length : Int) ≤ l.config.PendingLogsSize) := by
  refine ⟨?_, ?_, ?_, sendLogs_leaves_newline, ?_, ?_⟩
  · intro l now env t hbuf hnl hle
    rw [sendLogs_stalled l now env t hbuf hnl hle]
    exact ⟨rfl, rfl, clearFloodWait_logBuffer l, clearFloodWait_lines l,
      clearFloodWait_lastLogUpdate l, clearFloodWait_currentMsg l, clearFloodWait_messageID l,
      clearFloodWait_config l⟩
  · intro l t es hbuf hnl hle hes
    exact run_flushes_stalled es hes l t hbuf hnl hle
  · intro l p t hbuf hnl hlen
    have htake : ∀ s : List Byte, (t ++ s).take 3999 = t.take 3999 := fun s =>
      List.take_append_of_le_length hlen
    unfold record
    dsimp only
    split
    · refine ⟨t ++ p, ?_, ?_⟩
      · rw [hbuf]; rfl
      · rw [htake]; exact hnl
    · refine ⟨t ++ (p ++ [NL]), ?_, ?_⟩
      · rw [hbuf]; simp
      · rw [htake]; exact hnl
  · intro l p hbuf hp hlen
    refine ⟨p ++ [NL], record_after_newline l p hbuf hp, ?_⟩
    rw [List.take_append_of_le_length (by omega)]
    intro h
    exact hp (List.mem_of_mem_take h)
  · refine ⟨stalledState, longLine ++ [NL], stalledRun_eq, ?_, stalledState_logBuffer,
      stalledState_no_newline, stalledState_fits⟩
    have h := run_reachable (fun _ => True) quietConfig stalledEvents false
      (initialLogger quietConfig) Reachable.initial ⟨trivial, trivial⟩
    rw [stalledRun_eq] at h
    exact h

/-- Witness of C18 (amended): the stalled state reached by the write "a", a `sendLogs` call and
the write of a 4000-byte line. -/
theorem stalled_flush_witness :
    stalledState.logBuffer = NL :: (longLine ++ [NL]) ∧
      NL ∉ (longLine ++ [NL]).take 3999 ∧
      (stalledState.logBuffer.length : Int) ≤ stalledState.config.PendingLogsSize ∧
      (sendLogs stalledState (clock 12) okRemote).err = none ∧
      (sendLogs stalledState (clock 12) okRemote).calls = [] ∧
      (sendLogs stalledState (clock 12) okRemote).state.logBuffer = stalledState.logBuffer ∧
      (sendLogs stalledState (clock 12) okRemote).state.lines = stalledState.lines ∧
      (sendLogs stalledState (clock 12) okRemote).state.lastLogUpdate
        = stalledState.lastLogUpdate ∧
      (sendLogs stalledState (clock 12) okRemote).state.currentMsg = stalledState.currentMsg ∧
      (sendLogs stalledState (clock 12) okRemote).state.messageID = stalledState.messageID ∧
      (sendLogs stalledState (clock 12) okRemote).state.config = stalledState.config :=
  ⟨stalledState_logBuffer, stalledState_no_newline, stalledState_fits,
    stalled_flush.1 stalledState (clock 12) okRemote (longLine ++ [NL]) stalledState_logBuffer
      stalledState_no_newline stalledState_fits⟩

/-- C18 as stated fails: the state left by the write "a" and a `sendLogs` call has the buffer
"\n", which meets the conditions of the claim, and `sendLogs` does not flush it; after the write
"b" the buffer "\nb\n" is 3 bytes long, far below `PendingLogsSize`, and the next `sendLogs` call
edits the message and takes "\nb" out of the buffer. -/
theorem stalled_flush_counterexample :
    (run false (initialLogger quietConfig)
        [Event.write [97] (okMirror 1) (clock 4) (clock 4) okRemote,
          Event.flush (clock 4) okRemote]).state = overflowState1 ∧
      overflowState1.logBuffer = NL :: [] ∧ NL ∉ ([] : List Byte).take 3999 ∧
      (overflowState1.logBuffer.length : Int) ≤ overflowState1.config.PendingLogsSize ∧
      sendLogs overflowState1 (clock 6) okRemote = ⟨overflowState1, [], none⟩ ∧
      (record overflowState1 [98]).logBuffer = [10, 98, 10] ∧
      ((record overflowState1 [98]).logBuffer.length : Int) ≤
        (record overflowState1 [98]).config.PendingLogsSize ∧
      (sendLogs (record overflowState1 [98]) (clock 8) okRemote).calls =
        [Call.editTgMessage 7 [97, 10, 98]] ∧
      (sendLogs (record overflowState1 [98]) (clock 8) okRemote).state.logBuffer = [10] ∧
      (sendLogs (record overflowState1 [98]) (clock 8) okRemote).state.lines = 0 ∧
      run false (initialLogger quietConfig)
          [Event.write [97] (okMirror 1) (clock 4) (clock 4) okRemote,
            Event.flush (clock 4) okRemote, Event.flush (clock 6) okRemote,
            Event.write [98] (okMirror 1) (clock 8) (clock 8) okRemote,
            Event.flush (clock 8) okRemote] =
        ⟨{ overflowState1 with currentMsg := [97, 10, 98], lastLogUpdate := clock 8 }, false,
          [Call.initializeCall, Call.editTgMessage 7 [97], Call.editTgMessage 7 [97, 10, 98]],
          [some (1, none), some (0, none), some (0, none), some (1, none), some (0, none)]⟩ := by
  decide

/-! ## C19: shape of the buffer -/

theorem record_ends_newline (l : TelegramLogger) (p : List Byte) :
    ∃ q, (record l p).logBuffer = q ++ [NL] := by
  unfold record
  dsimp only
  split
  · rename_i h
    obtain ⟨q, hq⟩ := (HasSuffixNL_iff p).mp h
    exact ⟨l.logBuffer ++ q, by rw [hq, List.append_assoc]⟩
  · exact ⟨l.logBuffer ++ p, rfl⟩

theorem drop_ends_newline (s : List Byte) (k : Nat) (h : s = [] ∨ ∃ q, s = q ++ [NL]) :
    s.drop k = [] ∨ ∃ q, s.drop k = q ++ [NL] := by
  rcases h with h | ⟨q, hq⟩
  · left; rw [h]; simp
  · by_cases hk : k ≤ q.length
    · right
      exact ⟨q.drop k, by rw [hq, List.drop_append_of_le_length hk]⟩
    · left
      rw [hq]
      apply List.drop_of_length_le
      simp only [List.length_append, List.length_singleton]
      omega

theorem sendLogs_ends_newline (l : TelegramLogger) (now : Time) (env : Remote)
    (h : l.logBuffer = [] ∨ ∃ q, l.logBuffer = q ++ [NL]) :
    (sendLogs l now env).state.logBuffer = [] ∨
      ∃ q, (sendLogs l now env).state.logBuffer = q ++ [NL] := by
  rw [sendLogs_logBuffer]
  exact drop_ends_newline _ _ h

theorem reachable_ends_newline (config : Config) (l : TelegramLogger)
    (h : Reachable (fun _ => True) config l) :
    l.logBuffer = [] ∨ ∃ q, l.logBuffer = q ++ [NL] := by
  induction h with
  | initial => exact Or.inl rfl
  | record l p _ _ => exact Or.inr (record_ends_newline l p)
  | flush l now env _ _ ih => exact sendLogs_ends_newline l now env ih

theorem fileCut_ends_newline (q : List Byte) : fileCut (q ++ [NL]) = q.length := by
  unfold fileCut
  rw [LastIndex_append_nl q [] (List.not_mem_nil _)]
  rfl

/-- C19: in every sink state reachable from the initial state by `Write` and `sendLogs`, with
any replies of the remote, the buffer is empty or ends with a newline byte; so the file path,
when it runs, finds the final newline: it uploads the buffer without its last byte and leaves
exactly "\n" in the buffer. -/
theorem buffer_shape (config : Config) (l : TelegramLogger)
    (h : Reachable (fun _ => True) config l) :
    (l.logBuffer = [] ∨ ∃ q, l.logBuffer = q ++ [NL]) ∧
      ∀ (now : Time) (env : Remote),
        l.logBuffer ≠ [] → l.config.PendingLogsSize < (l.logBuffer.length : Int) →
        ∃ q, l.logBuffer = q ++ [NL] ∧
          (sendLogs l now env).calls = [Call.sendAsFile q] ∧
          (sendLogs l now env).state.logBuffer = [NL] := by
  have hshape := reachable_ends_newline config l h
  refine ⟨hshape, ?_⟩
  intro now env hne hbig
  rcases hshape with h0 | ⟨q, hq⟩
  · exact absurd h0 hne
  · refine ⟨q, hq, ?_, ?_⟩
    · rw [sendLogs_file l now env hne hbig, sendAsFile_calls, hq, fileCut_ends_newline]
      simp
    · rw [sendLogs_file l now env hne hbig, sendAsFile_frame untouched_logBuffer]
      show List.drop (fileCut l.logBuffer) l.logBuffer = [NL]
      rw [hq, fileCut_ends_newline]
      simp

theorem pendingState_recorded :
    pendingState = record (initialLogger pairConfig) [97, 98, 99, 100] := by
  decide

theorem pendingState_reachable : Reachable (fun _ => True) pairConfig pendingState := by
  rw [pendingState_recorded]
  exact Reachable.record _ _ Reachable.initial

/-- Witness of C19: the state after the write "abcd" with `PendingLogsSize = 3`, which returns
without a flush. -/
theorem buffer_shape_witness :
    Reachable (fun _ => True) pairConfig pendingState ∧
      Write false (initialLogger pairConfig) [97, 98, 99, 100] (okMirror 4) (clock 4) (clock 4)
          okRemote = ⟨pendingState, false, [], some (4, none)⟩ ∧
      pendingState.logBuffer = [97, 98, 99, 100, 10] ∧
      ((pendingState.logBuffer = [] ∨ ∃ q, pendingState.logBuffer = q ++ [NL]) ∧
        ∀ (now : Time) (env : Remote),
          pendingState.logBuffer ≠ [] →
          pendingState.config.PendingLogsSize < (pendingState.logBuffer.length : Int) →
          ∃ q, pendingState.logBuffer = q ++ [NL] ∧
            (sendLogs pendingState now env).calls = [Call.sendAsFile q] ∧
            (sendLogs pendingState now env).state.logBuffer = [NL]) :=
  ⟨pendingState_reachable, by decide, by decide,
    buffer_shape pairConfig pendingState pendingState_reachable⟩

/-! ## C15: requests per flush -/

theorem andThen_calls_length (o : Outcome) (k : TelegramLogger → Outcome) :
    (o.andThen k).calls.length ≤ o.calls.length + (k o.state).calls.length := by
  unfold Outcome.andThen
  split
  · exact Nat.le_add_right _ _
  · rw [List.length_append]

theorem compose_calls_length (l : TelegramLogger) (msg : List Byte) (env : Remote) :
    (compose l msg env).calls.length ≤ 2 ∧
      ((l.currentMsg ++ msg).length ≤ 4000 → (compose l msg env).calls.length ≤ 1) := by
  unfold compose
  dsimp only
  split_ifs with hlen hne
  · refine ⟨?_, fun h => absurd hlen (not_lt.mpr h)⟩
    refine le_trans (andThen_calls_length _ _) ?_
    rw [editTgMessage_calls, sendTgMessage_calls]
    exact le_refl _
  · refine ⟨?_, fun h => absurd hlen (not_lt.mpr h)⟩
    refine le_trans (andThen_calls_length _ _) ?_
    rw [sendTgMessage_calls]
    exact Nat.le_succ _
  · have h1 : ((editTgMessage l (l.currentMsg ++ msg) env).andThen fun l1 =>
        ⟨{ l1 with currentMsg := l.currentMsg ++ msg }, [], none⟩).calls.length ≤ 1 := by
      refine le_trans (andThen_calls_length _ _) ?_
      rw [editTgMessage_calls]
      exact le_refl _
    exact ⟨le_trans h1 (Nat.le_succ _), fun _ => h1⟩

theorem deliver_calls_length (l : TelegramLogger) (msg : List Byte) (env : Remote)
    (hmsg : msg.length ≤ 4000) :
    (deliver l msg env).calls.length ≤ 3 ∧
      ((l.messageID = 0 ∧ l.currentMsg ≠ []) ∨ (deliver l msg env).calls.length ≤ 2) := by
  unfold deliver
  by_cases hid : l.messageID = 0
  · rw [if_pos hid]
    have hle := andThen_calls_length (initializeTg l env) (fun l1 => compose l1 msg env)
    rw [initializeTg_calls] at hle
    have hc := compose_calls_length (initializeTg l env).state msg env
    refine ⟨by simp only [List.length_singleton] at hle; omega, ?_⟩
    by_cases hcur : l.currentMsg = []
    · right
      have hfit : ((initializeTg l env).state.currentMsg ++ msg).length ≤ 4000 := by
        rw [initializeTg_currentMsg, hcur]
        exact hmsg
      have := hc.2 hfit
      simp only [List.length_singleton] at hle
      omega
    · exact Or.inl ⟨hid, hcur⟩
  · rw [if_neg hid]
    have hle := andThen_calls_length ⟨l, [], none⟩ (fun l1 => compose l1 msg env)
    have hc := compose_calls_length l msg env
    simp only [List.length_nil] at hle
    exact ⟨by omega, Or.inr (by omega)⟩

theorem andThen_calls_cases (o : Outcome) (k : TelegramLogger → Outcome) :
    (o.andThen k).calls = o.calls ++ [] ∨ (o.andThen k).calls = o.calls ++ (k o.state).calls := by
  unfold Outcome.andThen
  split
  · exact Or.inl (List.append_nil _).symm
  · exact Or.inr rfl

/-- The requests of lines 217-243, in order: at most one edit-message, then at most one
create-message, the latter only when the text outgrows 4000 bytes. -/
theorem compose_calls_shape (l : TelegramLogger) (msg : List Byte) (env : Remote) :
    ∃ b c, (compose l msg env).calls = b ++ c ∧
      (b = [] ∨ ∃ msgID m, b = [Call.editTgMessage msgID m]) ∧
      (c = [] ∨ ∃ m, c = [Call.sendTgMessage m] ∧ 4000 < (l.currentMsg ++ msg).length) := by
  unfold compose
  dsimp only
  split_ifs with hlen hne
  · rcases andThen_calls_cases (editTgMessage l
        ((l.currentMsg ++ msg).take (splitPoint (l.currentMsg ++ msg))) env)
      (fun l1 => sendTgMessage
        { l1 with currentMsg := (l.currentMsg ++ msg).drop (splitPoint (l.currentMsg ++ msg)) }
        ((l.currentMsg ++ msg).drop (splitPoint (l.currentMsg ++ msg))) env) with h | h
    · exact ⟨_, _, h, Or.inr ⟨_, _, editTgMessage_calls _ _ _⟩, Or.inl rfl⟩
    · exact ⟨_, _, h, Or.inr ⟨_, _, editTgMessage_calls _ _ _⟩,
        Or.inr ⟨_, sendTgMessage_calls _ _ _, hlen⟩⟩
  · rcases andThen_calls_cases (⟨l, [], none⟩ : Outcome)
      (fun l1 => sendTgMessage
        { l1 with currentMsg := (l.currentMsg ++ msg).drop (splitPoint (l.currentMsg ++ msg)) }
        ((l.currentMsg ++ msg).drop (splitPoint (l.currentMsg ++ msg))) env) with h | h
    · exact ⟨_, _, h, Or.inl rfl, Or.inl rfl⟩
    · exact ⟨_, _, h, Or.inl rfl, Or.inr ⟨_, sendTgMessage_calls _ _ _, hlen⟩⟩
  · rcases andThen_calls_cases (editTgMessage l (l.currentMsg ++ msg) env)
      (fun l1 => ⟨{ l1 with currentMsg := l.currentMsg ++ msg }, [], none⟩) with h | h
    · exact ⟨_, _, h, Or.inr ⟨_, _, editTgMessage_calls _ _ _⟩, Or.inl rfl⟩
    · exact ⟨_, _, h, Or.inr ⟨_, _, editTgMessage_calls _ _ _⟩, Or.inl rfl⟩

/-- The requests of lines 211-243, in order: at most one placeholder creation, only when there
is no active message, then those of `compose`. -/
theorem deliver_calls_shape (l : TelegramLogger) (msg : List Byte) (env : Remote) :
    ∃ a b c, (deliver l msg env).calls = a ++ b ++ c ∧
      (a = [] ∨ (a = [Call.initializeCall] ∧ l.messageID = 0)) ∧
      (b = [] ∨ ∃ msgID m, b = [Call.editTgMessage msgID m]) ∧
      (c = [] ∨ ∃ m, c = [Call.sendTgMessage m] ∧ 4000 < (l.currentMsg ++ msg).length) := by
  unfold deliver
  by_cases hid : l.messageID = 0
  · rw [if_pos hid]
    rcases andThen_calls_cases (initializeTg l env) (fun l1 => compose l1 msg env) with h | h
    · refine ⟨[Call.initializeCall], [], [], ?_, Or.inr ⟨rfl, hid⟩, Or.inl rfl, Or.inl rfl⟩
      rw [h, initializeTg_calls]
      rfl
    · obtain ⟨b, c, hbc, hb, hc⟩ := compose_calls_shape (initializeTg l env).state msg env
      refine ⟨[Call.initializeCall], b, c, ?_, Or.inr ⟨rfl, hid⟩, hb, ?_⟩
      · rw [h, initializeTg_calls, hbc, List.append_assoc]
      · rw [initializeTg_currentMsg] at hc
        exact hc
  · rw [if_neg hid]
    rcases andThen_calls_cases (⟨l, [], none⟩ : Outcome) (fun l1 => compose l1 msg env)
      with h | h
    · exact ⟨[], [], [], h, Or.inl rfl, Or.inl rfl, Or.inl rfl⟩
    · obtain ⟨b, c, hbc, hb, hc⟩ := compose_calls_shape l msg env
      refine ⟨[], b, c, ?_, Or.inl rfl, hb, hc⟩
      rw [h]
      exact hbc

/-- The requests of one `sendLogs` execution, in order. -/
theorem sendLogs_calls_shape (l : TelegramLogger) (now : Time) (env : Remote) :
    (∃ logs, (sendLogs l now env).calls = [Call.sendAsFile logs]) ∨
      ∃ a b c, (sendLogs l now env).calls = a ++ b ++ c ∧
        (a = [] ∨ (a = [Call.initializeCall] ∧ l.messageID = 0)) ∧
        (b = [] ∨ ∃ msgID m, b = [Call.editTgMessage msgID m]) ∧
        (c = [] ∨ ∃ m, c = [Call.sendTgMessage m] ∧ 4000 < (computedMessage l).length) := by
  by_cases hne : l.logBuffer = []
  · rw [sendLogs_empty l now env hne]
    exact Or.inr ⟨[], [], [], rfl, Or.inl rfl, Or.inl rfl, Or.inl rfl⟩
  · by_cases hbig : (l.logBuffer.length : Int) > l.config.PendingLogsSize
    · rw [sendLogs_file l now env hne hbig, sendAsFile_calls]
      exact Or.inl ⟨_, rfl⟩
    · have hle := not_lt.mp hbig
      by_cases hmsg : textChunk l.logBuffer = []
      · rw [sendLogs_stall l now env hne hle hmsg]
        exact Or.inr ⟨[], [], [], rfl, Or.inl rfl, Or.inl rfl, Or.inl rfl⟩
      · rw [sendLogs_text l now env hne hle hmsg]
        obtain ⟨a, b, c, h, ha, hb, hc⟩ := deliver_calls_shape
          { clearFloodWait l with
            logBuffer := l.logBuffer.drop (textChunk l.logBuffer).length, lines := 0,
            lastLogUpdate := now } (textChunk l.logBuffer) env
        refine Or.inr ⟨a, b, c, h, ?_, hb, ?_⟩
        · rcases ha with ha | ⟨ha, hid⟩
          · exact Or.inl ha
          · exact Or.inr ⟨ha, by simpa using hid⟩
        · rcases hc with hc | ⟨m, hc, hlen⟩
          · exact Or.inl hc
          · refine Or.inr ⟨m, hc, ?_⟩
            unfold computedMessage
            simpa using hlen

/-- C15 (amended): one execution of `sendLogs` issues either exactly one document upload and
nothing else, or, in this order, at most one placeholder creation (only when the message
identifier is 0), at most one edit-message and at most one new create-message (only when the
current message text with the chunk is longer than 4000 bytes, the overflow split): at most three
remote requests, and at most two unless there is no active message identifier while the current
message text is not empty. -/
theorem sendLogs_requests (l : TelegramLogger) (now : Time) (env : Remote) :
    ((∃ logs, (sendLogs l now env).calls = [Call.sendAsFile logs]) ∨
        ∃ a b c, (sendLogs l now env).calls = a ++ b ++ c ∧
          (a = [] ∨ (a = [Call.initializeCall] ∧ l.messageID = 0)) ∧
          (b = [] ∨ ∃ msgID m, b = [Call.editTgMessage msgID m]) ∧
          (c = [] ∨ ∃ m, c = [Call.sendTgMessage m] ∧ 4000 < (computedMessage l).length)) ∧
      (sendLogs l now env).calls.length ≤ 3 ∧
      ((l.messageID = 0 ∧ l.currentMsg ≠ []) ∨ (sendLogs l now env).calls.length ≤ 2) ∧
      (∀ logs, Call.sendAsFile logs ∈ (sendLogs l now env).calls →
        (sendLogs l now env).calls = [Call.sendAsFile logs]) ∧
      (Call.initializeCall ∈ (sendLogs l now env).calls → l.messageID = 0) := by
  refine ⟨sendLogs_calls_shape l now env, ?_⟩
  by_cases hne : l.logBuffer = []
  · rw [sendLogs_empty l now env hne]
    simp
  · by_cases hbig : (l.logBuffer.length : Int) > l.config.PendingLogsSize
    · rw [sendLogs_file l now env hne hbig, sendAsFile_calls]
      simp
    · have hle := not_lt.mp hbig
      by_cases hmsg : textChunk l.logBuffer = []
      · rw [sendLogs_stall l now env hne hle hmsg]
        simp
      · rw [sendLogs_text l now env hne hle hmsg]
        have hd := deliver_calls_length
          { clearFloodWait l with
            logBuffer := l.logBuffer.drop (textChunk l.logBuffer).length, lines := 0,
            lastLogUpdate := now } (textChunk l.logBuffer) env (textChunk_length_le _)
        have hb := fun c hc => deliver_calls_bodies
          { clearFloodWait l with
            logBuffer := l.logBuffer.drop (textChunk l.logBuffer).length, lines := 0,
            lastLogUpdate := now } (textChunk l.logBuffer) env c hc
        refine ⟨hd.1, ?_, ?_, ?_⟩
        · rcases hd.2 with h | h
          · left
            exact ⟨by simpa using h.1, by simpa using h.2⟩
          · exact Or.inr h
        · intro logs hmem
          rcases hb _ hmem with h | ⟨_, _, h, _⟩ | ⟨_, h, _⟩ <;> cases h
        · intro hmem
          unfold deliver at hmem
          by_contra hid
          have hid1 : ¬ (clearFloodWait l).messageID = 0 := by simpa using hid
          rw [if_neg hid1] at hmem
          rcases andThen_calls_mem _ _ _ hmem with h1 | h1
          · simp at h1
          · rcases compose_calls_bodies _ _ env _ h1 with ⟨_, _, h, _⟩ | ⟨_, h, _⟩ <;> cases h

/-- C15 as stated fails: the flush of the first recorded text "a" issues two requests, the
placeholder creation and the edit. -/
theorem sendLogs_requests_counterexample :
    (sendLogs (record (initialLogger (exampleConfig 20000)) [97]) (clock 4) okRemote).calls
        = [Call.initializeCall, Call.editTgMessage 7 [97]] ∧
      (sendLogs (record (initialLogger (exampleConfig 20000)) [97]) (clock 4)
        okRemote).calls.length = 2 := by
  decide

/-! ## C17: edit in place -/

theorem editTgMessage_err_iff (l : TelegramLogger) (m : List Byte) (env : Remote) :
    (editTgMessage l m env).err = none ↔
      (goodEdit env.edit = true ∨ ∃ n, rateLimited env.edit = some n) := by
  unfold editTgMessage goodEdit rateLimited handleError
  cases env.edit with
  | failed => simp
  | resp r =>
    by_cases hok : r.OK = true
    · simp [hok]
    · by_cases hun : r.ErrorCode = 401 ∧ r.Description = "Unauthorized"
      · simp [hok, hun]
      · by_cases hr : r.RetryAfter > 0
        · simp [hok, hun, hr]
        · simp [hok, hun, hr]

theorem initializeTg_err (l l1 : TelegramLogger) (env : Remote) :
    (initializeTg l env).err = (initializeTg l1 env).err := by
  unfold initializeTg handleError
  split
  · rfl
  · split
    · split <;> rfl
    · split_ifs <;> rfl

theorem editTgMessage_err (l l1 : TelegramLogger) (m m1 : List Byte) (env : Remote) :
    (editTgMessage l m env).err = (editTgMessage l1 m1 env).err := by
  unfold editTgMessage handleError
  split
  · rfl
  · split
    · rfl
    · split_ifs <;> rfl

/-- What `compose` does when the combined text fits: one edit with the combined text, and the
current message text is replaced exactly when the edit returns no error. -/
theorem compose_inplace (l : TelegramLogger) (msg : List Byte) (env : Remote)
    (hfit : (l.currentMsg ++ msg).length ≤ 4000) :
    (compose l msg env).calls = [Call.editTgMessage l.messageID (l.currentMsg ++ msg)] ∧
      (compose l msg env).err = (editTgMessage l (l.currentMsg ++ msg) env).err ∧
      ((compose l msg env).err = none →
        (compose l msg env).state.currentMsg = l.currentMsg ++ msg) ∧
      ((compose l msg env).err ≠ none → (compose l msg env).state.currentMsg = l.currentMsg) := by
  unfold compose
  dsimp only
  rw [if_neg (not_lt.mpr hfit)]
  cases herr : (editTgMessage l (l.currentMsg ++ msg) env).err with
  | some e =>
    rw [andThen_of_err _ _ e herr, editTgMessage_calls, herr]
    exact ⟨rfl, rfl, fun h => Option.noConfusion h, fun _ => editTgMessage_currentMsg l _ env⟩
  | none =>
    rw [andThen_of_ok _ _ herr, editTgMessage_calls]
    exact ⟨rfl, rfl, fun _ => rfl, fun h => absurd rfl h⟩

theorem sendLogs_text_dequeued (l : TelegramLogger) (now : Time) (env : Remote)
    (hne : l.logBuffer ≠ []) (h : (l.logBuffer.length : Int) ≤ l.config.PendingLogsSize)
    (hmsg : textChunk l.logBuffer ≠ []) :
    sendLogs l now env = deliver (dequeued l now) (textChunk l.logBuffer) env :=
  sendLogs_text l now env hne h hmsg

theorem dequeued_currentMsg (l : TelegramLogger) (now : Time) :
    (dequeued l now).currentMsg = l.currentMsg :=
  clearFloodWait_currentMsg l

theorem dequeued_messageID (l : TelegramLogger) (now : Time) :
    (dequeued l now).messageID = l.messageID :=
  clearFloodWait_messageID l

/-- What `deliver` does when the combined text fits. -/
theorem deliver_inplace (l : TelegramLogger) (msg : List Byte) (env : Remote)
    (hfit : (l.currentMsg ++ msg).length ≤ 4000)
    (hinit : l.messageID = 0 → (initializeTg l env).err = none) :
    (∃ msgID, (deliver l msg env).calls =
        (if l.messageID = 0 then [Call.initializeCall] else []) ++
          [Call.editTgMessage msgID (l.currentMsg ++ msg)]) ∧
      ((goodEdit env.edit = true ∨ ∃ n, rateLimited env.edit = some n) →
        (deliver l msg env).err = none ∧
          (deliver l msg env).state.currentMsg = l.currentMsg ++ msg) ∧
      (¬ (goodEdit env.edit = true ∨ ∃ n, rateLimited env.edit = some n) →
        (deliver l msg env).err ≠ none ∧ (deliver l msg env).state.currentMsg = l.currentMsg) := by
  unfold deliver
  by_cases hid : l.messageID = 0
  · rw [if_pos hid, if_pos hid, andThen_of_ok _ _ (hinit hid), initializeTg_calls]
    have hcur := initializeTg_currentMsg l env
    have hc := compose_inplace (initializeTg l env).state msg env (by rw [hcur]; exact hfit)
    rw [hcur] at hc
    obtain ⟨hcalls, herr0, hok, hbad⟩ := hc
    have herr := (congrArg (fun e => e = none) herr0).to_iff.trans (editTgMessage_err_iff _ _ env)
    refine ⟨⟨_, by rw [hcalls]⟩, ?_, ?_⟩
    · intro hgood
      exact ⟨herr.mpr hgood, hok (herr.mpr hgood)⟩
    · intro hgood
      exact ⟨fun h => hgood (herr.mp h), hbad (fun h => hgood (herr.mp h))⟩
  · rw [if_neg hid, if_neg hid, andThen_of_ok _ _ rfl]
    obtain ⟨hcalls, herr0, hok, hbad⟩ := compose_inplace l msg env hfit
    have herr := (congrArg (fun e => e = none) herr0).to_iff.trans (editTgMessage_err_iff _ _ env)
    refine ⟨⟨_, by rw [hcalls]⟩, ?_, ?_⟩
    · intro hgood
      exact ⟨herr.mpr hgood, hok (herr.mpr hgood)⟩
    · intro hgood
      exact ⟨fun h => hgood (herr.mp h), hbad (fun h => hgood (herr.mp h))⟩

/-- C17 (amended): on the text path with a non-empty chunk and `combined = currentMsg + chunk` of
at most 4000 bytes, `sendLogs` issues an edit-message whose body is `combined`, as its only
request when there is an active message and right after the placeholder creation otherwise,
provided that creation returns no error; `currentMsg` becomes `combined` when the edit succeeds
and also when it is answered with a rate limit, and it is left unchanged when the edit returns
an error. -/
theorem sendLogs_inplace (l : TelegramLogger) (now : Time) (env : Remote)
    (hne : l.logBuffer ≠ []) (hle : (l.logBuffer.length : Int) ≤ l.config.PendingLogsSize)
    (hmsg : textChunk l.logBuffer ≠ [])
    (hfit : (l.currentMsg ++ textChunk l.logBuffer).length ≤ 4000)
    (hinit : l.messageID = 0 → (initializeTg l env).err = none) :
    (∃ msgID, (sendLogs l now env).calls =
        (if l.messageID = 0 then [Call.initializeCall] else []) ++
          [Call.editTgMessage msgID (l.currentMsg ++ textChunk l.logBuffer)]) ∧
      ((goodEdit env.edit = true ∨ ∃ n, rateLimited env.edit = some n) →
        (sendLogs l now env).err = none ∧
          (sendLogs l now env).state.currentMsg = l.currentMsg ++ textChunk l.logBuffer) ∧
      (¬ (goodEdit env.edit = true ∨ ∃ n, rateLimited env.edit = some n) →
        (sendLogs l now env).err ≠ none ∧
          (sendLogs l now env).state.currentMsg = l.currentMsg) := by
  rw [sendLogs_text_dequeued l now env hne hle hmsg]
  have h := deliver_inplace (dequeued l now) (textChunk l.logBuffer) env
    (by rw [dequeued_currentMsg]; exact hfit)
    (by
      intro _ 
      rw [initializeTg_err _ l env]
      apply hinit
      rw [← dequeued_messageID l now]
      assumption)
  rw [dequeued_currentMsg, dequeued_messageID] at h
  exact h

/-- Witness of C17 (amended), the two-line scenario at the level of the flushes, with an update
interval of 3 seconds: with "line1" recorded in the initial state and flushed and, 3.1 seconds
later, "line2" recorded, the second `sendLogs` execution issues one edit-message whose body is
"line1\nline2"; with `MinimumLines = 2` the writes return without a flush and the run of the two
writes, each followed by a `sendLogs` call, issues these requests. -/
theorem sendLogs_inplace_witness :
    scenarioState2.logBuffer ≠ [] ∧
      (scenarioState2.logBuffer.length : Int) ≤ scenarioState2.config.PendingLogsSize ∧
      textChunk scenarioState2.logBuffer ≠ [] ∧
      (scenarioState2.currentMsg ++ textChunk scenarioState2.logBuffer).length ≤ 4000 ∧
      (scenarioState2.messageID = 0 → (initializeTg scenarioState2 okRemote).err = none) ∧
      (sendLogs scenarioState2 scenarioLater okRemote).calls
        = [Call.editTgMessage 7 (line1 ++ [10] ++ line2)] ∧
      (run false (initialLogger quietConfig)
          [Event.write line1 (okMirror 5) (clock 0) (clock 0) okRemote,
            Event.flush (clock 0) okRemote,
            Event.write line2 (okMirror 5) scenarioLater scenarioLater okRemote,
            Event.flush scenarioLater okRemote]).calls
        = [Call.initializeCall, Call.editTgMessage 7 line1,
            Call.editTgMessage 7 (line1 ++ [10] ++ line2)] ∧
      (run false (initialLogger quietConfig)
          [Event.write line1 (okMirror 5) (clock 0) (clock 0) okRemote,
            Event.flush (clock 0) okRemote,
            Event.write line2 (okMirror 5) scenarioLater scenarioLater okRemote,
            Event.flush scenarioLater okRemote]).results
        = [some (5, none), some (0, none), some (5, none), some (0, none)] ∧
      ((∃ msgID, (sendLogs scenarioState2 scenarioLater okRemote).calls =
          (if scenarioState2.messageID = 0 then [Call.initializeCall] else []) ++
            [Call.editTgMessage msgID
              (scenarioState2.currentMsg ++ textChunk scenarioState2.logBuffer)]) ∧
        ((goodEdit okRemote.edit = true ∨ ∃ n, rateLimited okRemote.edit = some n) →
          (sendLogs scenarioState2 scenarioLater okRemote).err = none ∧
            (sendLogs scenarioState2 scenarioLater okRemote).state.currentMsg
              = scenarioState2.currentMsg ++ textChunk scenarioState2.logBuffer) ∧
        (¬ (goodEdit okRemote.edit = true ∨ ∃ n, rateLimited okRemote.edit = some n) →
          (sendLogs scenarioState2 scenarioLater okRemote).err ≠ none ∧
            (sendLogs scenarioState2 scenarioLater okRemote).state.currentMsg
              = scenarioState2.currentMsg)) :=
  ⟨by decide, by decide, by decide, by decide, by decide, by decide, by decide, by decide,
    sendLogs_inplace scenarioState2 scenarioLater okRemote (by decide) (by decide) (by decide)
      (by decide) (by decide)⟩

/-- C17 as stated fails: with a live message showing "a" and the buffer "\nb\n", an edit that is
answered with a rate limit does not succeed, yet the current message text becomes "a\nb".  In the
scenario with `MinimumLines = 1`, the write of "line1" to the initial state meets the scheduler
predicate, does not return and issues no request. -/
theorem sendLogs_inplace_counterexample :
    goodEdit floodOnEditRemote.edit = false ∧
      liveState.currentMsg = [97] ∧
      textChunk liveState.logBuffer = [10, 98] ∧
      (sendLogs liveState (clock 8) floodOnEditRemote).calls
        = [Call.editTgMessage 7 [97, 10, 98]] ∧
      (sendLogs liveState (clock 8) floodOnEditRemote).state.currentMsg = [97, 10, 98] ∧
      (exampleConfig 20000).MinimumLines = 1 ∧
      (exampleConfig 20000).UpdateInterval = 3 * Second ∧
      (Write false (initialLogger (exampleConfig 20000)) line1 (okMirror 5) (clock 0) (clock 0)
        okRemote).ret = none ∧
      (Write false (initialLogger (exampleConfig 20000)) line1 (okMirror 5) (clock 0) (clock 0)
        okRemote).calls = [] := by
  decide

/-! ## C16: overflow split -/

/-- The split point is the index of the last newline among the first 4000 bytes, or 4000 when
they hold none. -/
theorem splitPoint_spec (c : List Byte) :
    (NL ∉ c.take 4000 ∧ splitPoint c = 4000) ∨
      (splitPoint c < 4000 ∧ ∃ t, NL ∉ t ∧ (c.take 4000).drop (splitPoint c) = NL :: t) := by
  unfold splitPoint
  cases h : LastIndex (c.take 4000) with
  | none => exact Or.inl ⟨(LastIndex_eq_none_iff _).mp h, rfl⟩
  | some i =>
    right
    have hi := LastIndex_lt_length _ i h
    simp only [List.length_take] at hi
    exact ⟨by simp only [Option.getD_some]; omega, LastIndex_drop _ i h⟩

theorem sendTgMessage_created (l : TelegramLogger) (m : List Byte) (env : Remote) (msgID : Int)
    (h : createdID env.send = some msgID) :
    sendTgMessage l m env = ⟨{ l with messageID := msgID }, [Call.sendTgMessage m], none⟩ := by
  unfold sendTgMessage
  cases he : env.send with
  | failed => rw [he] at h; simp [createdID] at h
  | resp r =>
    rw [he] at h
    simp only [createdID] at h
    split_ifs at h with hok
    simp [hok, h]

theorem sendTgMessage_currentMsg (l : TelegramLogger) (m : List Byte) (env : Remote) :
    (sendTgMessage l m env).state.currentMsg = l.currentMsg := by
  unfold sendTgMessage handleError
  split
  · rfl
  · split
    · split <;> rfl
    · split_ifs <;> rfl

/-- What `compose` does when the combined text is longer than 4000 bytes. -/
theorem compose_overflow (l : TelegramLogger) (msg : List Byte) (env : Remote)
    (hover : 4000 < (l.currentMsg ++ msg).length) :
    ((l.currentMsg ++ msg).take (splitPoint (l.currentMsg ++ msg)) ≠ l.currentMsg →
        ¬ (goodEdit env.edit = true ∨ ∃ n, rateLimited env.edit = some n) →
        (compose l msg env).calls =
            [Call.editTgMessage l.messageID
              ((l.currentMsg ++ msg).take (splitPoint (l.currentMsg ++ msg)))] ∧
          (compose l msg env).err ≠ none ∧
          (compose l msg env).state.currentMsg = l.currentMsg) ∧
      (((l.currentMsg ++ msg).take (splitPoint (l.currentMsg ++ msg)) = l.currentMsg ∨
          goodEdit env.edit = true ∨ ∃ n, rateLimited env.edit = some n) →
        (compose l msg env).calls =
            (if (l.currentMsg ++ msg).take (splitPoint (l.currentMsg ++ msg)) ≠ l.currentMsg
              then [Call.editTgMessage l.messageID
                ((l.currentMsg ++ msg).take (splitPoint (l.currentMsg ++ msg)))]
              else []) ++
            [Call.sendTgMessage ((l.currentMsg ++ msg).drop (splitPoint (l.currentMsg ++ msg)))] ∧
          (compose l msg env).state.currentMsg
            = (l.currentMsg ++ msg).drop (splitPoint (l.currentMsg ++ msg)) ∧
          ∀ msgID, createdID env.send = some msgID →
            (compose l msg env).err = none ∧ (compose l msg env).state.messageID = msgID) := by
  unfold compose
  dsimp only
  rw [if_pos hover]
  by_cases hne : (l.currentMsg ++ msg).take (splitPoint (l.currentMsg ++ msg)) = l.currentMsg
  · rw [if_neg (not_not.mpr hne), if_neg (not_not.mpr hne), andThen_of_ok _ _ rfl]
    refine ⟨fun h => absurd hne h, fun _ => ⟨?_, ?_, ?_⟩⟩
    · rw [sendTgMessage_calls]
    · exact sendTgMessage_currentMsg _ _ env
    · intro msgID hid
      rw [sendTgMessage_created _ _ env msgID hid]
      exact ⟨rfl, rfl⟩
  · rw [if_pos hne, if_pos hne]
    have hiff := editTgMessage_err_iff l
      ((l.currentMsg ++ msg).take (splitPoint (l.currentMsg ++ msg))) env
    cases herr : (editTgMessage l
        ((l.currentMsg ++ msg).take (splitPoint (l.currentMsg ++ msg))) env).err with
    | some e =>
      rw [herr] at hiff
      have hbad : ¬ (goodEdit env.edit = true ∨ ∃ n, rateLimited env.edit = some n) :=
        fun h => Option.noConfusion (hiff.mpr h)
      rw [andThen_of_err _ _ e herr, editTgMessage_calls, herr]
      refine ⟨fun _ _ => ⟨rfl, fun h => Option.noConfusion h,
        editTgMessage_currentMsg l _ env⟩, ?_⟩
      intro h
      rcases h with h | h
      · exact absurd h hne
      · exact absurd h hbad
    | none =>
      rw [herr] at hiff
      have hgood := hiff.mp rfl
      rw [andThen_of_ok _ _ herr, editTgMessage_calls]
      refine ⟨fun _ h => absurd hgood h, fun _ => ⟨?_, ?_, ?_⟩⟩
      · rw [sendTgMessage_calls]
      · exact sendTgMessage_currentMsg _ _ env
      · intro msgID hid
        rw [sendTgMessage_created _ _ env msgID hid]
        exact ⟨rfl, rfl⟩

/-- What `deliver` does when the combined text is longer than 4000 bytes. -/
theorem deliver_overflow (l : TelegramLogger) (msg : List Byte) (env : Remote)
    (hover : 4000 < (l.currentMsg ++ msg).length)
    (hinit : l.messageID = 0 → (initializeTg l env).err = none) :
    ((l.currentMsg ++ msg).take (splitPoint (l.currentMsg ++ msg)) ≠ l.currentMsg →
        ¬ (goodEdit env.edit = true ∨ ∃ n, rateLimited env.edit = some n) →
        ∃ msgID, (deliver l msg env).calls =
            (if l.messageID = 0 then [Call.initializeCall] else []) ++
              [Call.editTgMessage msgID
                ((l.currentMsg ++ msg).take (splitPoint (l.currentMsg ++ msg)))] ∧
          (deliver l msg env).err ≠ none) ∧
      (((l.currentMsg ++ msg).take (splitPoint (l.currentMsg ++ msg)) = l.currentMsg ∨
          goodEdit env.edit = true ∨ ∃ n, rateLimited env.edit = some n) →
        ∃ msgID, (deliver l msg env).calls =
            (if l.messageID = 0 then [Call.initializeCall] else []) ++
              (if (l.currentMsg ++ msg).take (splitPoint (l.currentMsg ++ msg)) ≠ l.currentMsg
                then [Call.editTgMessage msgID
                  ((l.currentMsg ++ msg).take (splitPoint (l.currentMsg ++ msg)))]
                else []) ++
              [Call.sendTgMessage
                ((l.currentMsg ++ msg).drop (splitPoint (l.currentMsg ++ msg)))] ∧
          (deliver l msg env).state.currentMsg
            = (l.currentMsg ++ msg).drop (splitPoint (l.currentMsg ++ msg)) ∧
          ∀ newID, createdID env.send = some newID →
            (deliver l msg env).err = none ∧ (deliver l msg env).state.messageID = newID) := by
  unfold deliver
  by_cases hid : l.messageID = 0
  · rw [if_pos hid, if_pos hid, andThen_of_ok _ _ (hinit hid), initializeTg_calls]
    have hcur := initializeTg_currentMsg l env
    have hc := compose_overflow (initializeTg l env).state msg env (by rw [hcur]; exact hover)
    rw [hcur] at hc
    refine ⟨fun h1 h2 => ?_, fun h1 => ?_⟩
    · obtain ⟨hcalls, herr, _⟩ := hc.1 h1 h2
      exact ⟨_, by rw [hcalls], herr⟩
    · obtain ⟨hcalls, hmsg, hnew⟩ := hc.2 h1
      exact ⟨_, by rw [hcalls, List.append_assoc], hmsg, hnew⟩
  · rw [if_neg hid, if_neg hid, andThen_of_ok _ _ rfl]
    have hc := compose_overflow l msg env hover
    refine ⟨fun h1 h2 => ?_, fun h1 => ?_⟩
    · obtain ⟨hcalls, herr, _⟩ := hc.1 h1 h2
      exact ⟨_, by rw [hcalls], herr⟩
    · obtain ⟨hcalls, hmsg, hnew⟩ := hc.2 h1
      exact ⟨_, by rw [hcalls, List.append_assoc], hmsg, hnew⟩

/-- C16 (amended): on the text path with `combined = currentMsg + chunk` longer than 4000 bytes,
`sendLogs` splits `combined` into `head = combined[:p]` and `tail = combined[p:]`, where `p` is
the index of the last newline within the first 4000 bytes of `combined`, or 4000 if there is
none, so that `head + tail = combined`, `head` is at most 4000 bytes and `tail` is non-empty.  After
the placeholder creation when there is no active message (provided it returns no error), it
issues an edit-message with `head` exactly when `head` differs from the previous `currentMsg`;
when that edit returns an error the flush ends there with the error; otherwise it issues a
create-message with `tail` and `currentMsg` is `tail`, and when the create call succeeds with a
message identifier, `sendLogs` returns no error and that identifier is the active one. -/
theorem sendLogs_overflow (l : TelegramLogger) (now : Time) (env : Remote)
    (hne : l.logBuffer ≠ []) (hle : (l.logBuffer.length : Int) ≤ l.config.PendingLogsSize)
    (hmsg : textChunk l.logBuffer ≠ []) (hover : 4000 < (computedMessage l).length)
    (hinit : l.messageID = 0 → (initializeTg l env).err = none) :
    toEdit l ++ toNew l = computedMessage l ∧ (toEdit l).length ≤ 4000 ∧ toNew l ≠ [] ∧
      ((NL ∉ (computedMessage l).take 4000 ∧ splitPoint (computedMessage l) = 4000) ∨
        (splitPoint (computedMessage l) < 4000 ∧
          ∃ t, NL ∉ t ∧
            ((computedMessage l).take 4000).drop (splitPoint (computedMessage l)) = NL :: t)) ∧
      (toEdit l ≠ l.currentMsg →
        ¬ (goodEdit env.edit = true ∨ ∃ n, rateLimited env.edit = some n) →
        ∃ msgID, (sendLogs l now env).calls =
            (if l.messageID = 0 then [Call.initializeCall] else []) ++
              [Call.editTgMessage msgID (toEdit l)] ∧
          (sendLogs l now env).err ≠ none) ∧
      ((toEdit l = l.currentMsg ∨
          goodEdit env.edit = true ∨ ∃ n, rateLimited env.edit = some n) →
        ∃ msgID, (sendLogs l now env).calls =
            (if l.messageID = 0 then [Call.initializeCall] else []) ++
              (if toEdit l ≠ l.currentMsg then [Call.editTgMessage msgID (toEdit l)] else []) ++
              [Call.sendTgMessage (toNew l)] ∧
          (sendLogs l now env).state.currentMsg = toNew l ∧
          ∀ newID, createdID env.send = some newID →
            (sendLogs l now env).err = none ∧ (sendLogs l now env).state.messageID = newID) := by
  have hd := deliver_overflow (dequeued l now) (textChunk l.logBuffer) env
    (by rw [dequeued_currentMsg]; exact hover)
    (by
      intro h0
      rw [initializeTg_err _ l env]
      exact hinit (by rw [← dequeued_messageID l now]; exact h0))
  rw [dequeued_currentMsg, dequeued_messageID] at hd
  rw [sendLogs_text_dequeued l now env hne hle hmsg]
  refine ⟨List.take_append_drop _ _, ?_, ?_, splitPoint_spec _, hd.1, hd.2⟩
  · unfold toEdit
    rw [List.length_take]
    exact le_trans (Nat.min_le_left _ _) (splitPoint_le _)
  · unfold toNew
    intro h0
    have hlen := congrArg List.length h0
    have hp := splitPoint_le (computedMessage l)
    simp only [List.length_drop, List.length_nil] at hlen
    omega

theorem overflowState3_chunk : textChunk overflowState3.logBuffer = [10, 99] := by
  decide

theorem overflowState3_computed :
    computedMessage overflowState3 = (97 :: 10 :: filler) ++ [10, 99] := by
  unfold computedMessage
  rw [overflowState3_chunk]
  rfl

theorem overflowState3_over : 4000 < (computedMessage overflowState3).length := by
  rw [overflowState3_computed, List.length_append, List.length_cons, List.length_cons,
    filler_length]
  decide

theorem overflowState3_toEdit : toEdit overflowState3 = [97] := by
  unfold toEdit
  rw [overflowState3_computed, overflow_splitPoint]
  rfl

theorem overflowState3_toEdit_ne : toEdit overflowState3 ≠ overflowState3.currentMsg := by
  rw [overflowState3_toEdit]
  intro h
  have hlen : ([97] : List Byte).length = (97 :: 10 :: filler).length :=
    congrArg List.length h
  simp only [List.length_cons, List.length_nil, filler_length] at hlen
  omega

/-- Witness of C16 (amended): the third flush of the overflow run, with successful replies. -/
theorem sendLogs_overflow_witness :
    overflowState3.logBuffer ≠ [] ∧
      (overflowState3.logBuffer.length : Int) ≤ overflowState3.config.PendingLogsSize ∧
      textChunk overflowState3.logBuffer ≠ [] ∧
      4000 < (computedMessage overflowState3).length ∧
      (overflowState3.messageID = 0 → (initializeTg overflowState3 okRemote).err = none) ∧
      (toEdit overflowState3 ++ toNew overflowState3 = computedMessage overflowState3 ∧
        (toEdit overflowState3).length ≤ 4000 ∧ toNew overflowState3 ≠ [] ∧
        ((NL ∉ (computedMessage overflowState3).take 4000 ∧
            splitPoint (computedMessage overflowState3) = 4000) ∨
          (splitPoint (computedMessage overflowState3) < 4000 ∧
            ∃ t, NL ∉ t ∧
              ((computedMessage overflowState3).take 4000).drop
                (splitPoint (computedMessage overflowState3)) = NL :: t)) ∧
        (toEdit overflowState3 ≠ overflowState3.currentMsg →
          ¬ (goodEdit okRemote.edit = true ∨ ∃ n, rateLimited okRemote.edit = some n) →
          ∃ msgID, (sendLogs overflowState3 (clock 12) okRemote).calls =
              (if overflowState3.messageID = 0 then [Call.initializeCall] else []) ++
                [Call.editTgMessage msgID (toEdit overflowState3)] ∧
            (sendLogs overflowState3 (clock 12) okRemote).err ≠ none) ∧
        ((toEdit overflowState3 = overflowState3.currentMsg ∨
            goodEdit okRemote.edit = true ∨ ∃ n, rateLimited okRemote.edit = some n) →
          ∃ msgID, (sendLogs overflowState3 (clock 12) okRemote).calls =
              (if overflowState3.messageID = 0 then [Call.initializeCall] else []) ++
                (if toEdit overflowState3 ≠ overflowState3.currentMsg
                  then [Call.editTgMessage msgID (toEdit overflowState3)] else []) ++
                [Call.sendTgMessage (toNew overflowState3)] ∧
            (sendLogs overflowState3 (clock 12) okRemote).state.currentMsg
              = toNew overflowState3 ∧
            ∀ newID, createdID okRemote.send = some newID →
              (sendLogs overflowState3 (clock 12) okRemote).err = none ∧
                (sendLogs overflowState3 (clock 12) okRemote).state.messageID = newID)) :=
  ⟨by decide, by decide, by decide, overflowState3_over,
    fun h => absurd h (by decide),
    sendLogs_overflow overflowState3 (clock 12) okRemote (by decide) (by decide) (by decide)
      overflowState3_over (fun h => absurd h (by decide))⟩

/-- C16 as stated fails: in the state `overflowState3`, where the live message holds 4000 bytes
and the buffer "\nc\n", the head "a" of the split differs from the
current message text, the edit with the head is issued and fails in the transport, and no
create-message with the tail is issued: the edit is the only request and `sendLogs` returns the
error. -/
theorem sendLogs_overflow_counterexample :
    4000 < (computedMessage overflowState3).length ∧
      toEdit overflowState3 = [97] ∧
      toEdit overflowState3 ≠ overflowState3.currentMsg ∧
      (sendLogs overflowState3 (clock 12) failOnEditRemote).calls
        = [Call.editTgMessage 7 [97]] ∧
      (sendLogs overflowState3 (clock 12) failOnEditRemote).err ≠ none := by
  have hflush : sendLogs overflowState3 (clock 12) failOnEditRemote =
      compose { overflowState3 with logBuffer := [NL], lines := 0, lastLogUpdate := clock 12 }
        [10, 99] failOnEditRemote :=
    sendLogs_live_chunk overflowState3 (clock 12) failOnEditRemote [10, 99] rfl
      (List.cons_ne_nil _ _) (by decide) (by decide) (by decide) rfl
  have hover : 4000 < ((97 :: 10 :: filler) ++ [10, 99] : List Byte).length := by
    rw [← overflowState3_computed]
    exact overflowState3_over
  have hne : ((97 :: 10 :: filler) ++ [10, 99] : List Byte).take
      (splitPoint ((97 :: 10 :: filler) ++ [10, 99])) ≠ 97 :: 10 :: filler := by
    have := overflowState3_toEdit_ne
    unfold toEdit at this
    rw [overflowState3_computed] at this
    exact this
  have hc := (compose_overflow
    { overflowState3 with logBuffer := [NL], lines := 0, lastLogUpdate := clock 12 }
    [10, 99] failOnEditRemote hover).1 hne
    (by
      rintro (h | ⟨n, h⟩)
      · exact absurd h (by decide)
      · simp [failOnEditRemote, rateLimited] at h)
  refine ⟨overflowState3_over, overflowState3_toEdit,
    overflowState3_toEdit_ne, ?_, ?_⟩
  · rw [hflush, hc.1]
    show [Call.editTgMessage 7 (((97 :: 10 :: filler) ++ [10, 99] : List Byte).take
      (splitPoint ((97 :: 10 :: filler) ++ [10, 99])))] = _
    rw [overflow_splitPoint]
    rfl
  · rw [hflush]
    exact hc.2.1

/-! ## C12: what `Write` returns when a flush is due -/

/-- C12 fails on the code: the write "a" to the initial state, with the mutex free and both
mirror writes successful, meets the scheduler predicate, and `Write` does not return
`(len(p), nil)`: it does not return at all, whatever the replies of the remote would be, those
for which the flush would succeed and those for which it would return an error alike, and no
request is issued.  A write that triggers no flush does return `(len(p), nil)`. -/
theorem Write_no_return_on_flush :
    (okMirror 1).logFile.err = none ∧ (okMirror 1).stdout.err = none ∧
      shouldUpdate (record (initialLogger (exampleConfig 20000)) [97]) (clock 4) = true ∧
      (∀ (flushNow : Time) (env : Remote),
        (Write false (initialLogger (exampleConfig 20000)) [97] (okMirror 1) (clock 4) flushNow
          env).ret = none ∧
        (Write false (initialLogger (exampleConfig 20000)) [97] (okMirror 1) (clock 4) flushNow
          env).calls = []) ∧
      (sendLogs (record (initialLogger (exampleConfig 20000)) [97]) (clock 4) okRemote).err =
        none ∧
      (sendLogs (record (initialLogger (exampleConfig 20000)) [97]) (clock 4)
        failOnEditRemote).err = some Err.transport ∧
      shouldUpdate (record (initialLogger quietConfig) [97]) (clock 4) = false ∧
      (Write false (initialLogger quietConfig) [97] (okMirror 1) (clock 4) (clock 4)
        okRemote).ret = some (1, none) := by
  refine ⟨rfl, rfl, by decide, ?_, by decide, by decide, by decide, by decide⟩
  intro flushNow env
  rw [Write_blocks_eq (initialLogger (exampleConfig 20000)) [97] (okMirror 1) (clock 4) flushNow
    env rfl rfl rfl (by decide)]
  exact ⟨rfl, rfl⟩

/-! ## C13: validation and defaults of the configuration -/

theorem applyDefaults_eq (c : Config) :
    applyDefaults c =
      { Token := c.Token, ChatID := c.ChatID,
        ForumTopicID := if c.ForumTopicID < 0 then 0 else c.ForumTopicID,
        Title := if c.Title = [] then defaultTitle else c.Title,
        ExcludedLogPatterns := c.ExcludedLogPatterns,
        UpdateInterval := if c.UpdateInterval ≤ 0 then 3 * Second else c.UpdateInterval,
        MinimumLines := if c.MinimumLines ≤ 0 then 1 else c.MinimumLines,
        PendingLogsSize := if c.PendingLogsSize ≤ 0 then 20000 else c.PendingLogsSize,
        MaxMessageSize := if c.MaxMessageSize ≤ 0 then 4096 else c.MaxMessageSize } := by
  unfold applyDefaults
  by_cases h1 : c.UpdateInterval ≤ 0 <;> by_cases h2 : c.MinimumLines ≤ 0 <;>
    by_cases h3 : c.PendingLogsSize ≤ 0 <;> by_cases h4 : c.MaxMessageSize ≤ 0 <;>
    by_cases h5 : c.Title = [] <;> by_cases h6 : c.ForumTopicID < 0 <;>
    simp only [h1, h2, h3, h4, h5, h6, if_true, if_false]

theorem applyDefaults_fields (c : Config) :
    (applyDefaults c).Token = c.Token ∧ (applyDefaults c).ChatID = c.ChatID ∧
      (applyDefaults c).ExcludedLogPatterns = c.ExcludedLogPatterns ∧
      (applyDefaults c).UpdateInterval
        = (if c.UpdateInterval ≤ 0 then 3 * Second else c.UpdateInterval) ∧
      (applyDefaults c).MinimumLines = (if c.MinimumLines ≤ 0 then 1 else c.MinimumLines) ∧
      (applyDefaults c).PendingLogsSize
        = (if c.PendingLogsSize ≤ 0 then 20000 else c.PendingLogsSize) ∧
      (applyDefaults c).MaxMessageSize
        = (if c.MaxMessageSize ≤ 0 then 4096 else c.MaxMessageSize) ∧
      (applyDefaults c).Title = (if c.Title = [] then defaultTitle else c.Title) ∧
      (applyDefaults c).ForumTopicID = (if c.ForumTopicID < 0 then 0 else c.ForumTopicID) := by
  rw [applyDefaults_eq]
  exact ⟨rfl, rfl, rfl, rfl, rfl, rfl, rfl, rfl, rfl⟩

theorem validateBotToken_error (r : MeReply) (e : InitErr)
    (h : validateBotToken r = Except.error e) :
    e ≠ InitErr.provideChatID ∧ e ≠ InitErr.provideToken := by
  cases r with
  | failed =>
    simp only [validateBotToken] at h
    cases h
    exact ⟨by simp, by simp⟩
  | resp ok username description =>
    cases ok with
    | false =>
      simp [validateBotToken] at h
      subst h
      exact ⟨by simp, by simp⟩
    | true =>
      cases username with
      | none =>
        simp [validateBotToken] at h
        subst h
        exact ⟨by simp, by simp⟩
      | some name => simp [validateBotToken] at h

theorem InitializeTgLogger_config (c : Config) (env : InitEnv)
    (h : ¬ (c.ChatID = 0 ∨ c.Token = "")) :
    (InitializeTgLogger c env).config = applyDefaults c ∧
      (InitializeTgLogger c env).err ≠ some InitErr.provideChatID ∧
      (InitializeTgLogger c env).err ≠ some InitErr.provideToken := by
  have h1 : ¬ c.ChatID = 0 := fun h0 => h (Or.inl h0)
  have h2 : ¬ c.Token = "" := fun h0 => h (Or.inr h0)
  unfold InitializeTgLogger
  rw [if_neg h1, if_neg h2]
  dsimp only
  split
  · exact ⟨rfl, by simp, by simp⟩
  · cases hv : validateBotToken env.getMe with
    | error e =>
      obtain ⟨he1, he2⟩ := validateBotToken_error _ e hv
      exact ⟨rfl, fun h0 => he1 (Option.some.inj h0), fun h0 => he2 (Option.some.inj h0)⟩
    | ok name => exact ⟨rfl, by simp, by simp⟩

/-- C13: `InitializeTgLogger` returns a configuration error exactly when `ChatID` is 0 or `Token`
is empty, and then it has changed no field of the configuration and performed no input or
output; otherwise the configuration it leaves has `UpdateInterval <= 0` replaced by 3 seconds,
`MinimumLines <= 0` by 1, `PendingLogsSize <= 0` by 20000, `MaxMessageSize <= 0` by 4096, an
empty `Title` by "TGLogger-Go" and a negative `ForumTopicID` by 0, and every field that satisfies
its constraint, as well as `Token`, `ChatID` and `ExcludedLogPatterns`, as it was. -/
theorem InitializeTgLogger_validation (c : Config) (env : InitEnv) :
    (((InitializeTgLogger c env).err = some InitErr.provideChatID ∨
          (InitializeTgLogger c env).err = some InitErr.provideToken) ↔
        (c.ChatID = 0 ∨ c.Token = "")) ∧
      ((c.ChatID = 0 ∨ c.Token = "") →
        (InitializeTgLogger c env).config = c ∧ (InitializeTgLogger c env).steps = [] ∧
          (InitializeTgLogger c env).logger = none) ∧
      (¬ (c.ChatID = 0 ∨ c.Token = "") →
        (c.UpdateInterval ≤ 0 → (InitializeTgLogger c env).config.UpdateInterval = 3 * Second) ∧
        (0 < c.UpdateInterval →
          (InitializeTgLogger c env).config.UpdateInterval = c.UpdateInterval) ∧
        (c.MinimumLines ≤ 0 → (InitializeTgLogger c env).config.MinimumLines = 1) ∧
        (0 < c.MinimumLines → (InitializeTgLogger c env).config.MinimumLines = c.MinimumLines) ∧
        (c.PendingLogsSize ≤ 0 → (InitializeTgLogger c env).config.PendingLogsSize = 20000) ∧
        (0 < c.PendingLogsSize →
          (InitializeTgLogger c env).config.PendingLogsSize = c.PendingLogsSize) ∧
        (c.MaxMessageSize ≤ 0 → (InitializeTgLogger c env).config.MaxMessageSize = 4096) ∧
        (0 < c.MaxMessageSize →
          (InitializeTgLogger c env).config.MaxMessageSize = c.MaxMessageSize) ∧
        (c.Title = [] → (InitializeTgLogger c env).config.Title = defaultTitle) ∧
        (c.Title ≠ [] → (InitializeTgLogger c env).config.Title = c.Title) ∧
        (c.ForumTopicID < 0 → (InitializeTgLogger c env).config.ForumTopicID = 0) ∧
        (0 ≤ c.ForumTopicID →
          (InitializeTgLogger c env).config.ForumTopicID = c.ForumTopicID) ∧
        (InitializeTgLogger c env).config.Token = c.Token ∧
        (InitializeTgLogger c env).config.ChatID = c.ChatID ∧
        (InitializeTgLogger c env).config.ExcludedLogPatterns = c.ExcludedLogPatterns) := by
  refine ⟨?_, ?_, ?_⟩
  · constructor
    · intro herr
      by_contra hc
      obtain ⟨_, h1, h2⟩ := InitializeTgLogger_config c env hc
      rcases herr with h | h
      · exact h1 h
      · exact h2 h
    · intro hc
      unfold InitializeTgLogger
      by_cases h1 : c.ChatID = 0
      · rw [if_pos h1]; exact Or.inl rfl
      · have h2 : c.Token = "" := hc.resolve_left h1
        rw [if_neg h1, if_pos h2]; exact Or.inr rfl
  · intro hc
    unfold InitializeTgLogger
    by_cases h1 : c.ChatID = 0
    · rw [if_pos h1]; exact ⟨rfl, rfl, rfl⟩
    · have h2 : c.Token = "" := hc.resolve_left h1
      rw [if_neg h1, if_pos h2]; exact ⟨rfl, rfl, rfl⟩
  · intro hc
    rw [(InitializeTgLogger_config c env hc).1]
    obtain ⟨hT, hC, hE, hU, hM, hP, hX, hTi, hF⟩ := applyDefaults_fields c
    refine ⟨?_, ?_, ?_, ?_, ?_, ?_, ?_, ?_, ?_, ?_, ?_, ?_, hT, hC, hE⟩
    · intro h; rw [hU, if_pos h]
    · intro h; rw [hU, if_neg (not_le.mpr h)]
    · intro h; rw [hM, if_pos h]
    · intro h; rw [hM, if_neg (not_le.mpr h)]
    · intro h; rw [hP, if_pos h]
    · intro h; rw [hP, if_neg (not_le.mpr h)]
    · intro h; rw [hX, if_pos h]
    · intro h; rw [hX, if_neg (not_le.mpr h)]
    · intro h; rw [hTi, if_pos h]
    · intro h; rw [hTi, if_neg h]
    · intro h; rw [hF, if_pos h]
    · intro h; rw [hF, if_neg (not_lt.mpr h)]

/-! ## C14: the flush under the lock -/

/-- C14 fails on the code: the first write "a" to the initial state, with the mutex free and
successful mirror writes, satisfies the scheduler predicate, and `Write` does not return: it
holds `mu` when it calls `sendLogs`, whose own `mu.Lock()` never returns.  The text is recorded,
no request is issued and the mutex stays held, so a later write blocks at its `mu.Lock()`.  The
body of `sendLogs` would have issued the placeholder creation and the edit. -/
theorem Write_self_deadlock :
    shouldUpdate (record (initialLogger (exampleConfig 20000)) [97]) (clock 4) = true ∧
      Write false (initialLogger (exampleConfig 20000)) [97] (okMirror 1) (clock 4)
          (clock 4) okRemote =
        ⟨record (initialLogger (exampleConfig 20000)) [97], true, [], none⟩ ∧
      sendLogsLocked true (record (initialLogger (exampleConfig 20000)) [97]) (clock 4) okRemote
        = none ∧
      Write true (record (initialLogger (exampleConfig 20000)) [97]) [98] (okMirror 1) (clock 5)
          (clock 5) okRemote =
        ⟨record (initialLogger (exampleConfig 20000)) [97], true, [], none⟩ ∧
      (sendLogs (record (initialLogger (exampleConfig 20000)) [97]) (clock 4) okRemote).calls =
        [Call.initializeCall, Call.editTgMessage 7 [97]] := by
  decide

/-! ## C20: `MaxMessageSize` is never read -/

theorem handleError_withMax (m : Int) (l : TelegramLogger) (r : TelegramResponse) :
    handleError (withMax m l) r = (withMax m (handleError l r).1, (handleError l r).2) := by
  unfold handleError
  split_ifs <;> rfl

theorem initializeTg_withMax (m : Int) (l : TelegramLogger) (env : Remote) :
    initializeTg (withMax m l) env = (initializeTg l env).withMax m := by
  unfold initializeTg
  split
  · rfl
  · split
    · split <;> rfl
    · rw [handleError_withMax]; rfl

theorem sendTgMessage_withMax (m : Int) (l : TelegramLogger) (msg : List Byte) (env : Remote) :
    sendTgMessage (withMax m l) msg env = (sendTgMessage l msg env).withMax m := by
  unfold sendTgMessage
  split
  · rfl
  · split
    · split <;> rfl
    · rw [handleError_withMax]; rfl

theorem editTgMessage_withMax (m : Int) (l : TelegramLogger) (msg : List Byte) (env : Remote) :
    editTgMessage (withMax m l) msg env = (editTgMessage l msg env).withMax m := by
  unfold editTgMessage
  split
  · rfl
  · split
    · rfl
    · rw [handleError_withMax]; rfl

theorem sendAsFile_withMax (m : Int) (l : TelegramLogger) (logs : List Byte) (env : Remote) :
    sendAsFile (withMax m l) logs env = (sendAsFile l logs env).withMax m := by
  unfold sendAsFile
  split
  · rfl
  · split
    · rfl
    · rw [handleError_withMax]; rfl

theorem andThen_withMax (m : Int) (o : Outcome) (k k1 : TelegramLogger → Outcome)
    (hk : ∀ l, k (withMax m l) = (k1 l).withMax m) :
    (o.withMax m).andThen k = (o.andThen k1).withMax m := by
  cases herr : o.err with
  | some e =>
    rw [andThen_of_err (o.withMax m) k e herr, andThen_of_err o k1 e herr]
  | none =>
    rw [andThen_of_ok (o.withMax m) k herr, andThen_of_ok o k1 herr]
    show Outcome.mk _ _ _ = _
    rw [show (o.withMax m).state = withMax m o.state from rfl, hk]
    rfl

theorem compose_withMax (m : Int) (l : TelegramLogger) (msg : List Byte) (env : Remote) :
    compose (withMax m l) msg env = (compose l msg env).withMax m := by
  unfold compose
  dsimp only
  rw [show (withMax m l).currentMsg = l.currentMsg from rfl]
  split_ifs with hlen hne
  · rw [editTgMessage_withMax]
    exact andThen_withMax m _ _ _ (fun l1 => sendTgMessage_withMax m
      { l1 with currentMsg :=
          (l.currentMsg ++ msg).drop (splitPoint (l.currentMsg ++ msg)) } _ env)
  · exact andThen_withMax m ⟨l, [], none⟩ _ _ (fun l1 => sendTgMessage_withMax m
      { l1 with currentMsg :=
          (l.currentMsg ++ msg).drop (splitPoint (l.currentMsg ++ msg)) } _ env)
  · rw [editTgMessage_withMax]
    exact andThen_withMax m _ _ _ (fun l1 => rfl)

theorem deliver_withMax (m : Int) (l : TelegramLogger) (msg : List Byte) (env : Remote) :
    deliver (withMax m l) msg env = (deliver l msg env).withMax m := by
  unfold deliver
  rw [show (withMax m l).messageID = l.messageID from rfl]
  split_ifs with hid
  · rw [initializeTg_withMax]
    exact andThen_withMax m _ _ _ (fun l1 => compose_withMax m l1 msg env)
  · exact andThen_withMax m ⟨l, [], none⟩ _ _ (fun l1 => compose_withMax m l1 msg env)

theorem clearFloodWait_withMax (m : Int) (l : TelegramLogger) :
    clearFloodWait (withMax m l) = withMax m (clearFloodWait l) := by
  unfold clearFloodWait
  rw [show (withMax m l).floodWait = l.floodWait from rfl]
  split_ifs <;> rfl

theorem sendLogs_withMax (m : Int) (l : TelegramLogger) (now : Time) (env : Remote) :
    sendLogs (withMax m l) now env = (sendLogs l now env).withMax m := by
  have hbuf : (withMax m l).logBuffer = l.logBuffer := rfl
  have hpend : (withMax m l).config.PendingLogsSize = l.config.PendingLogsSize := rfl
  by_cases hne : l.logBuffer = []
  · rw [sendLogs_empty _ now env (by rw [hbuf]; exact hne), sendLogs_empty l now env hne,
      clearFloodWait_withMax]
    rfl
  · by_cases hbig : (l.logBuffer.length : Int) > l.config.PendingLogsSize
    · rw [sendLogs_file _ now env (by rw [hbuf]; exact hne) (by rw [hbuf, hpend]; exact hbig),
        sendLogs_file l now env hne hbig, clearFloodWait_withMax, hbuf]
      exact sendAsFile_withMax m
        { clearFloodWait l with
          logBuffer := l.logBuffer.drop (fileCut l.logBuffer), currentMsg := [], messageID := 0,
          lines := 0, lastLogUpdate := now } _ env
    · have hle := not_lt.mp hbig
      by_cases hmsg : textChunk l.logBuffer = []
      · rw [sendLogs_stall _ now env (by rw [hbuf]; exact hne) (by rw [hbuf, hpend]; exact hle)
            (by rw [hbuf]; exact hmsg),
          sendLogs_stall l now env hne hle hmsg, clearFloodWait_withMax]
        rfl
      · rw [sendLogs_text _ now env (by rw [hbuf]; exact hne) (by rw [hbuf, hpend]; exact hle)
            (by rw [hbuf]; exact hmsg),
          sendLogs_text l now env hne hle hmsg, clearFloodWait_withMax, hbuf]
        exact deliver_withMax m
          { clearFloodWait l with
            logBuffer := l.logBuffer.drop (textChunk l.logBuffer).length, lines := 0,
            lastLogUpdate := now } _ env

theorem Write_withMax (m : Int) (held : Bool) (l : TelegramLogger) (p : List Byte) (io : Mirror)
    (now flushNow : Time) (env : Remote) :
    Write held (withMax m l) p io now flushNow env =
      ⟨withMax m (Write held l p io now flushNow env).state,
        (Write held l p io now flushNow env).mu, (Write held l p io now flushNow env).calls,
        (Write held l p io now flushNow env).ret⟩ := by
  cases hfile : io.logFile.err with
  | some e =>
    simp only [Write, hfile]
  | none =>
    cases hout : io.stdout.err with
    | some e =>
      simp only [Write, hfile, hout]
    | none =>
      by_cases hex : l.config.ExcludedLogPatterns.any (fun pattern => Contains p pattern) = true
      · rw [Write_excluded_eq held (withMax m l) p io now flushNow env hfile hout hex,
          Write_excluded_eq held l p io now flushNow env hfile hout hex]
      · have hex1 : l.config.ExcludedLogPatterns.any (fun pattern => Contains p pattern)
            = false := by simpa using hex
        have hupd : shouldUpdate (record (withMax m l) p) now = shouldUpdate (record l p) now :=
          rfl
        cases held
        · rw [Write_recorded_eq (withMax m l) p io now flushNow env hfile hout hex1,
            Write_recorded_eq l p io now flushNow env hfile hout hex1, hupd]
          by_cases hu : shouldUpdate (record l p) now = true
          · rw [if_pos hu, if_pos hu]
            rfl
          · rw [if_neg hu, if_neg hu]
            rfl
        · rw [Write_held_eq (withMax m l) p io now flushNow env hfile hout hex1,
            Write_held_eq l p io now flushNow env hfile hout hex1]

theorem run_withMax (m : Int) (events : List Event) :
    ∀ (held : Bool) (l : TelegramLogger),
      run held (withMax m l) events =
        ⟨withMax m (run held l events).state, (run held l events).mu,
          (run held l events).calls, (run held l events).results⟩ := by
  induction events with
  | nil => intro held l; rfl
  | cons e es ih =>
    intro held l
    cases e with
    | write p io now flushNow env =>
      simp only [run]
      rw [Write_withMax]
      simp only [ih]
    | flush now env =>
      cases held
      · rw [run_flush_free, run_flush_free, sendLogs_withMax]
        simp only [Outcome.withMax, ih]
      · simp only [run, sendLogsLocked, Lock, if_true, ih]

/-- C20: for two sink states that differ only in `config.MaxMessageSize` and the same run of
`Write` and `sendLogs` calls, with the same texts, mirror results, clock readings and remote
replies, the requests issued are the same, with the same bodies, the calls return the same
results or do not return alike, and the final states agree on every field other than
`MaxMessageSize`; the chunk is at most 4000 bytes long and the split point at most 4000,
whatever the configuration. -/
theorem maxMessageSize_unused (m : Int) (held : Bool) (l : TelegramLogger)
    (events : List Event) :
    (run held (withMax m l) events).calls = (run held l events).calls ∧
      (run held (withMax m l) events).results = (run held l events).results ∧
      (run held (withMax m l) events).mu = (run held l events).mu ∧
      (run held (withMax m l) events).state = withMax m (run held l events).state ∧
      (∀ now env, (sendLogs (withMax m l) now env).calls = (sendLogs l now env).calls ∧
        (sendLogs (withMax m l) now env).err = (sendLogs l now env).err ∧
        (sendLogs (withMax m l) now env).state = withMax m (sendLogs l now env).state) ∧
      (∀ p io now flushNow env,
        (Write held (withMax m l) p io now flushNow env).calls
            = (Write held l p io now flushNow env).calls ∧
          (Write held (withMax m l) p io now flushNow env).ret
            = (Write held l p io now flushNow env).ret ∧
          (Write held (withMax m l) p io now flushNow env).state
            = withMax m (Write held l p io now flushNow env).state) ∧
      (∀ s : List Byte, (textChunk s).length ≤ 4000 ∧ splitPoint s ≤ 4000) := by
  rw [run_withMax]
  refine ⟨rfl, rfl, rfl, rfl, ?_, ?_, fun s => ⟨textChunk_length_le s, splitPoint_le s⟩⟩
  · intro now env
    rw [sendLogs_withMax]
    exact ⟨rfl, rfl, rfl⟩
  · intro p io now flushNow env
    rw [Write_withMax]
    exact ⟨rfl, rfl, rfl⟩

end TgLogger
